import Mathlib

/-!
# portpusher: a shallow embedding of the orchestration loop and its adapters

The Go program polls a VPN sidecar (gluetun) for the forwarded port and pushes
it to the configured torrent clients (Transmission, qBittorrent, Deluge).

Conventions of the embedding.

* The network is an explicit state machine: a server has a state `σ` and a
  handler per request kind that returns the next state and the reply that
  `http.Client.Do` hands back.  Every request that reaches `client.Do` is
  appended to a trace, so "how many calls of which kind" is a property of the
  trace.
* `json.Unmarshal` is library code.  A reply body is given by what decoding it
  into the target struct yields: a read failure, a decoding error, a nil
  pointer (the JSON literal `null` decoded into a pointer) or a value.
* A Go function returning `(T, error)` returns a pair whose second component
  is `none` for a nil error.  A run-time panic (nil dereference, index out of
  range, failed type assertion) is the separate result `Go.panic`.
* Logging has no effect on control flow and is left out.  `json.Marshal`
  cannot fail on the request types used here, so its error branch is left out.
* Go `int` values are `Int`; no arithmetic in these paths can overflow except
  the Deluge message counter, which would need 2^63 calls.
-/

namespace PortPusher

/-- Errors built with `fmt.Errorf` in the source, one constructor per message. -/
inductive Error where
  /-- Message "failed to build HTTP request". -/
  | buildRequest
  /-- The call `client.Do` returned an error. -/
  | transport
  /-- A reply had a status code other than the expected one. -/
  | httpStatus (code : Nat)
  /-- Message "error reading response". -/
  | readBody
  /-- Message "could not unmarshal json" or "failed to unmarshal HTTP body". -/
  | unmarshal
  /-- Gluetun: "status is %s, cannot fetch forwarded port". -/
  | statusNotRunning (status : String)
  /-- Gluetun: "gluetun responded with port 0". -/
  | portZero
  /-- Transmission: "expected session id not received". -/
  | noSessionId
  /-- Transmission: "expected HTTP 409 not received from Transmission". -/
  | expected409 (code : Nat)
  /-- Transmission wrappers of doPush: "init failed", "getPortInfo failed", "push failed". -/
  | wrapped (step : String) (cause : Error)
  /-- Deluge: "error %d: %s", the application-level error object. -/
  | rpcError (code : Int) (message : String)
  /-- Deluge: "expected boolean but found". -/
  | expectedBool
  /-- Deluge: "expected string slice but found". -/
  | expectedStrings
  /-- Deluge: "expected []hosts but found". -/
  | expectedHosts
  /-- Deluge: "expected []hostStatus but found". -/
  | expectedHostStatus
  /-- Deluge: "no hosts to connect to". -/
  | noHosts
  /-- Deluge: "no online deluge hosts found". -/
  | noOnlineHosts
  /-- Env: "env.%s has invalid value: %s. Valid values are any number of seconds > 0". -/
  | invalidDuration (envVar value : String)
  deriving DecidableEq, Repr

/-- Result of running a Go function: it returns a value or the goroutine panics. -/
inductive Go (α : Type) where
  | ret (a : α)
  | panic
  deriving DecidableEq, Repr

/-- What reading and decoding a reply body into a pointer to `α` yields. -/
inductive Body (α : Type) where
  /-- The call `io.ReadAll` failed. -/
  | unreadable
  /-- The call `json.Unmarshal` returned an error (bad syntax or a type mismatch). -/
  | malformed
  /-- The body is the JSON literal null: the pointer stays nil, no error. -/
  | null
  /-- The body decoded into a value. -/
  | value (a : α)
  deriving DecidableEq, Repr

/-- What `client.Do` returns: an error, or a response with a status code and a body. -/
inductive Reply (α : Type) where
  | transportError
  | http (code : Nat) (body : Body α)
  deriving DecidableEq, Repr

/-- Durations (Go `time.Duration`, nanoseconds). -/
abbrev Duration := Int

/-! ## gluetun: the port source -/

namespace gluetun

structure gtStatusResp where
  Status : String
  deriving DecidableEq, Repr

structure gtPortResp where
  Port : Int
  deriving DecidableEq, Repr

/-- The two GET requests the client issues. -/
inductive Query where
  /-- Request `GET /v1/openvpn/status`. -/
  | status
  /-- Request `GET /v1/openvpn/portforwarded`. -/
  | portforwarded
  deriving DecidableEq, Repr

/-- The sidecar as seen through the HTTP client. -/
structure Sidecar (σ : Type) where
  status : σ → σ × Reply gtStatusResp
  portforwarded : σ → σ × Reply gtPortResp

/-- The client configuration. `requestBuilds` says whether `http.NewRequest`
accepts the URL made of host and port; it is a function of the configuration. -/
structure Client where
  host : String
  port : Int
  requestBuilds : Bool
  deriving DecidableEq, Repr

/-- The network as the client sees it: the sidecar state and the requests sent so far. -/
structure Net (σ : Type) where
  state : σ
  trace : List Query
  deriving DecidableEq

/-- Embedding of `Client.doPullPort`. -/
def doPullPort {σ : Type} (S : Sidecar σ) (c : Client) (w : Net σ) :
    Net σ × Go (Int × Option Error) :=
  if c.requestBuilds = false then (w, .ret (-1, some .buildRequest)) else
  let w1 : Net σ := { state := (S.status w.state).1, trace := w.trace ++ [Query.status] }
  match (S.status w.state).2 with
  | .transportError => (w1, .ret (-1, some .transport))
  | .http code body =>
    if code ≠ 200 then (w1, .ret (-1, some (.httpStatus code))) else
    match body with
    | .unreadable => (w1, .ret (-1, some .readBody))
    | .malformed => (w1, .ret (-1, some .unmarshal))
    | .null => (w1, .panic)
    | .value statusResp =>
      if statusResp.Status ≠ "running" then
        (w1, .ret (-1, some (.statusNotRunning statusResp.Status)))
      else
      let w2 : Net σ :=
        { state := (S.portforwarded w1.state).1, trace := w1.trace ++ [Query.portforwarded] }
      match (S.portforwarded w1.state).2 with
      | .transportError => (w2, .ret (-1, some .transport))
      | .http code2 body2 =>
        if code2 ≠ 200 then (w2, .ret (-1, some (.httpStatus code2))) else
        match body2 with
        | .unreadable => (w2, .ret (-1, some .readBody))
        | .malformed => (w2, .ret (-1, some .unmarshal))
        | .null => (w2, .panic)
        | .value portResp =>
          if portResp.Port = 0 then (w2, .ret (-1, some .portZero))
          else (w2, .ret (portResp.Port, none))

/-- Embedding of `Client.PullPort`: logs the error and returns what `doPullPort` returned. -/
def PullPort {σ : Type} (S : Sidecar σ) (c : Client) (w : Net σ) :
    Net σ × Go (Int × Option Error) :=
  match doPullPort S c w with
  | (w1, .ret (port, some err)) => (w1, .ret (port, some err))
  | (w1, .ret (port, none)) => (w1, .ret (port, none))
  | (w1, .panic) => (w1, .panic)

end gluetun

/-! ## qbittorrent: the cookie-session adapter -/

namespace qbittorrent

structure preferences where
  /-- JSON field `listen_port`. -/
  Port : Int
  /-- JSON field `random_port`. -/
  PortRandom : Bool
  deriving DecidableEq, Repr

/-- The three requests the client issues. -/
inductive Request where
  /-- Request `POST /api/v2/auth/login` with the form fields username and password. -/
  | login (username password : String)
  /-- Request `GET /api/v2/app/preferences`. -/
  | getPreferences
  /-- Request `POST /api/v2/app/setPreferences` with the form field `json`, the marshalled preferences. -/
  | setPreferences (json : preferences)
  deriving DecidableEq, Repr

/-- The WebUI as seen through the HTTP client (the cookie jar is part of the state). -/
structure Server (σ : Type) where
  login : σ → String → String → σ × Reply Unit
  getPreferences : σ → σ × Reply preferences
  setPreferences : σ → preferences → σ × Reply Unit

structure Client where
  host : String
  port : Int
  user : String
  pass : String
  requestBuilds : Bool
  deriving DecidableEq, Repr

structure Net (σ : Type) where
  state : σ
  trace : List Request
  deriving DecidableEq

/-- Embedding of `Client.login`. -/
def login {σ : Type} (S : Server σ) (c : Client) (w : Net σ) : Net σ × Option Error :=
  if c.requestBuilds = false then (w, some .buildRequest) else
  let w1 : Net σ := { state := (S.login w.state c.user c.pass).1,
                      trace := w.trace ++ [Request.login c.user c.pass] }
  match (S.login w.state c.user c.pass).2 with
  | .transportError => (w1, some .transport)
  | .http code _ => if code ≠ 200 then (w1, some (.httpStatus code)) else (w1, none)

/-- Embedding of `Client.getPreferences`; the returned pointer is nil for a `null` body. -/
def getPreferences {σ : Type} (S : Server σ) (c : Client) (w : Net σ) :
    Net σ × Except Error (Option preferences) :=
  if c.requestBuilds = false then (w, .error .buildRequest) else
  let w1 : Net σ := { state := (S.getPreferences w.state).1,
                      trace := w.trace ++ [Request.getPreferences] }
  match (S.getPreferences w.state).2 with
  | .transportError => (w1, .error .transport)
  | .http code body =>
    if code ≠ 200 then (w1, .error (.httpStatus code)) else
    match body with
    | .unreadable => (w1, .error .readBody)
    | .malformed => (w1, .error .unmarshal)
    | .null => (w1, .ok none)
    | .value prefs => (w1, .ok (some prefs))

/-- Embedding of `Client.setPreferences`. -/
def setPreferences {σ : Type} (S : Server σ) (c : Client) (prefs : preferences) (w : Net σ) :
    Net σ × Option Error :=
  if c.requestBuilds = false then (w, some .buildRequest) else
  let w1 : Net σ := { state := (S.setPreferences w.state prefs).1,
                      trace := w.trace ++ [Request.setPreferences prefs] }
  match (S.setPreferences w.state prefs).2 with
  | .transportError => (w1, some .transport)
  | .http code _ => if code ≠ 200 then (w1, some (.httpStatus code)) else (w1, none)

/-- Embedding of `Client.doPush`. -/
def doPush {σ : Type} (S : Server σ) (c : Client) (port : Int) (w : Net σ) :
    Net σ × Go (Option Error) :=
  match login S c w with
  | (w1, some err) => (w1, .ret (some err))
  | (w1, none) =>
    match getPreferences S c w1 with
    | (w2, .error err) => (w2, .ret (some err))
    | (w2, .ok none) => (w2, .panic)
    | (w2, .ok (some prefs)) =>
      if prefs.Port = port ∧ prefs.PortRandom = false then
        (w2, .ret none)
      else
        match setPreferences S c { Port := port, PortRandom := false } w2 with
        | (w3, some err) => (w3, .ret (some err))
        | (w3, none) => (w3, .ret none)

/-- Embedding of `Client.Push`: logs the error and returns what `doPush` returned. -/
def Push {σ : Type} (S : Server σ) (c : Client) (port : Int) (w : Net σ) :
    Net σ × Go (Option Error) :=
  match doPush S c port w with
  | (w1, .ret (some err)) => (w1, .ret (some err))
  | (w1, .ret none) => (w1, .ret none)
  | (w1, .panic) => (w1, .panic)

/-- The `setPreferences` payloads in a trace, in order. -/
def writesOf : List Request → List preferences
  | [] => []
  | Request.setPreferences j :: rs => j :: writesOf rs
  | _ :: rs => writesOf rs

end qbittorrent

/-! ## transmission: the token-handshake adapter -/

namespace transmission

structure arguments where
  /-- JSON field `peer-port`. -/
  PeerPort : Int
  /-- JSON field `peer-port-random-on-start`. -/
  PeerPortRandom : Bool
  /-- JSON field `fields`. -/
  Fields : List String
  deriving DecidableEq, Repr

structure request where
  Arguments : arguments
  Method : String
  Tag : Int
  deriving DecidableEq, Repr

structure response where
  Arguments : arguments
  Result : String
  Tag : Int
  deriving DecidableEq, Repr

structure portInfo where
  PeerPort : Int
  PeerPortRandom : Bool
  deriving DecidableEq, Repr

/-- A POST to `/transmission/rpc`: the JSON body and the two headers the client
sets. `authorization` is the text after "Basic "; `sessionId` is `none` when the
header `X-Transmission-Session-Id` is not set at all. -/
structure HttpRequest where
  body : request
  authorization : String
  sessionId : Option String
  deriving DecidableEq, Repr

/-- What `client.Do` returns; `sessionIdHeader` is `res.Header.Get` of
`X-Transmission-Session-Id`, the empty string when the header is absent. -/
inductive HttpReply where
  | transportError
  | http (code : Nat) (sessionIdHeader : String) (body : Body response)
  deriving DecidableEq, Repr

structure Server (σ : Type) where
  rpc : σ → HttpRequest → σ × HttpReply

structure Client where
  host : String
  port : Int
  user : String
  pass : String
  requestBuilds : Bool
  authToken : String
  portInfo : Option portInfo
  sessionId : String
  deriving DecidableEq, Repr

structure Net (σ : Type) where
  state : σ
  trace : List HttpRequest
  deriving DecidableEq

/-- Sends one request: the server moves on and the request joins the trace. -/
def send {σ : Type} (S : Server σ) (w : Net σ) (req : HttpRequest) : Net σ × HttpReply :=
  ({ state := (S.rpc w.state req).1, trace := w.trace ++ [req] }, (S.rpc w.state req).2)

/-- Embedding of `Client.getAuthToken`; the base64 encoding of the header value,
which is injective, is not modelled. -/
def getAuthToken (c : Client) : Client × String :=
  ({ c with authToken := c.user ++ ":" ++ c.pass }, c.user ++ ":" ++ c.pass)

/-- The body of the `session-get` request built by `init` and `getPortInfo`. -/
def sessionGetBody : request :=
  { Method := "session-get",
    Arguments := { PeerPort := 0, PeerPortRandom := false,
                   Fields := ["peer-port-random-on-start", "peer-port"] },
    Tag := 0 }

/-- Embedding of `Client.init`. -/
def init {σ : Type} (S : Server σ) (c : Client) (w : Net σ) : Client × Net σ × Option Error :=
  if c.requestBuilds = false then (c, w, some .buildRequest) else
  let c1 := (getAuthToken c).1
  let r := send S w { body := sessionGetBody, authorization := (getAuthToken c).2,
                      sessionId := none }
  match r.2 with
  | .transportError => (c1, r.1, some .transport)
  | .http code sid _ =>
    if code = 401 then
      ({ c1 with sessionId := "" }, r.1, none)
    else if code = 409 then
      if sid = "" then (c1, r.1, some .noSessionId)
      else ({ c1 with sessionId := sid }, r.1, none)
    else
      (c1, r.1, some (.expected409 code))

/-- Embedding of `Client.getPortInfo`. -/
def getPortInfo {σ : Type} (S : Server σ) (c : Client) (w : Net σ) :
    Client × Net σ × Go (Except Error portInfo) :=
  if c.requestBuilds = false then (c, w, .ret (.error .buildRequest)) else
  let c1 := (getAuthToken c).1
  let r := send S w { body := sessionGetBody, authorization := (getAuthToken c).2,
                      sessionId := some c.sessionId }
  match r.2 with
  | .transportError => (c1, r.1, .ret (.error .transport))
  | .http code _ body =>
    if code ≠ 200 then (c1, r.1, .ret (.error (.httpStatus code))) else
    match body with
    | .unreadable => (c1, r.1, .ret (.error .readBody))
    | .malformed => (c1, r.1, .ret (.error .unmarshal))
    | .null => (c1, r.1, .panic)
    | .value trResp =>
      let info : portInfo := { PeerPort := trResp.Arguments.PeerPort,
                               PeerPortRandom := trResp.Arguments.PeerPortRandom }
      ({ c1 with portInfo := some info }, r.1, .ret (.ok info))

/-- The body of the `session-set` request built by `pushPort`. -/
def sessionSetBody (port : Int) : request :=
  { Method := "session-set",
    Arguments := { PeerPort := port, PeerPortRandom := false, Fields := [] },
    Tag := 0 }

/-- Embedding of `Client.pushPort`. -/
def pushPort {σ : Type} (S : Server σ) (c : Client) (port : Int) (w : Net σ) :
    Client × Net σ × Go (Option Error) :=
  match c.portInfo with
  | none => (c, w, .panic)
  | some info =>
    if info.PeerPort = port ∧ info.PeerPortRandom = false then (c, w, .ret none) else
    if c.requestBuilds = false then (c, w, .ret (some .buildRequest)) else
    let c1 := (getAuthToken c).1
    let r := send S w { body := sessionSetBody port, authorization := (getAuthToken c).2,
                        sessionId := some c.sessionId }
    match r.2 with
    | .transportError => (c1, r.1, .ret (some .transport))
    | .http code _ body =>
      if code ≠ 200 then (c1, r.1, .ret (some (.httpStatus code))) else
      match body with
      | .unreadable => (c1, r.1, .ret (some .readBody))
      | .malformed => (c1, r.1, .ret (some .unmarshal))
      | .null => (c1, r.1, .ret none)
      | .value _ => (c1, r.1, .ret none)

/-- Embedding of `Client.doPush`. -/
def doPush {σ : Type} (S : Server σ) (c : Client) (port : Int) (w : Net σ) :
    Client × Net σ × Go (Option Error) :=
  match init S c w with
  | (c1, w1, some err) => (c1, w1, .ret (some (.wrapped "init failed" err)))
  | (c1, w1, none) =>
    match getPortInfo S c1 w1 with
    | (c2, w2, .panic) => (c2, w2, .panic)
    | (c2, w2, .ret (.error err)) => (c2, w2, .ret (some (.wrapped "getPortInfo failed" err)))
    | (c2, w2, .ret (.ok _)) =>
      match pushPort S c2 port w2 with
      | (c3, w3, .panic) => (c3, w3, .panic)
      | (c3, w3, .ret (some err)) => (c3, w3, .ret (some (.wrapped "push failed" err)))
      | (c3, w3, .ret none) => (c3, w3, .ret none)

/-- Embedding of `Client.Push`: logs the error and returns what `doPush` returned. -/
def Push {σ : Type} (S : Server σ) (c : Client) (port : Int) (w : Net σ) :
    Client × Net σ × Go (Option Error) :=
  match doPush S c port w with
  | (c1, w1, .ret (some err)) => (c1, w1, .ret (some err))
  | (c1, w1, .ret none) => (c1, w1, .ret none)
  | (c1, w1, .panic) => (c1, w1, .panic)

/-- The requests of a trace whose method is `m`, in order. -/
def callsOf (m : String) (t : List HttpRequest) : List HttpRequest :=
  t.filter (fun r => r.body.Method = m)

end transmission

/-! ## deluge: the JSON-RPC daemon-connection adapter -/

namespace deluge

/-- A value stored in the parameter map of `core.set_config`. -/
inductive MapVal where
  | ints (xs : List Int)
  | bool (b : Bool)
  deriving DecidableEq, Repr

/-- An element of `Params []interface{}`: a string, or a `map[string]interface{}`
given by its entries in the key order `json.Marshal` writes them. -/
inductive Param where
  | str (s : String)
  | map (entries : List (String × MapVal))
  deriving DecidableEq, Repr

structure request where
  Method : String
  Params : List Param
  Id : Int
  deriving DecidableEq, Repr

structure errorResponse where
  Code : Int
  Message : String
  deriving DecidableEq, Repr

/-- An element of an inner array of a decoded `interface{}`: a string, a number
(`float64` in Go, not inspected by the code) or anything else. -/
inductive Elem where
  | str (s : String)
  | num (n : Int)
  | other
  deriving DecidableEq, Repr

/-- An element of the outer array of a decoded `interface{}`. -/
inductive Item where
  | elem (e : Elem)
  | arr (xs : List Elem)
  deriving DecidableEq, Repr

/-- The field `Result interface{}` after decoding, as far as the type switches
of the handlers tell values apart. -/
inductive Value where
  | bool (b : Bool)
  | arr (xs : List Item)
  /-- Anything else: null, a number, a string or an object. -/
  | other
  deriving DecidableEq, Repr

structure genericResponse where
  Error : Option errorResponse
  Id : Int
  Result : Value
  deriving DecidableEq, Repr

structure config where
  /-- JSON field `random_port`. -/
  RandomPort : Bool
  /-- JSON field `listen_ports`; a nil slice is the empty list. -/
  ListenPorts : List Int
  deriving DecidableEq, Repr

structure getConfigResponse where
  Error : Option errorResponse
  Id : Int
  Result : config
  deriving DecidableEq, Repr

structure host where
  Id : String
  Addr : String
  Port : Int
  Hostname : String
  deriving DecidableEq, Repr

structure hostStatus where
  Id : String
  Status : String
  Version : String
  deriving DecidableEq, Repr

structure response where
  Error : Option errorResponse
  Id : Int
  ResultBool : Bool
  ResultStrings : List String
  ResultHosts : List host
  ResultHostStatus : hostStatus
  deriving DecidableEq, Repr

/-- What `client.Do` returns for a POST to `/json`. The body is given by its
decoding into each of the two structs the client decodes into. -/
inductive HttpReply where
  | transportError
  | http (code : Nat) (generic : Body genericResponse) (config : Body getConfigResponse)
  deriving DecidableEq, Repr

structure Server (σ : Type) where
  post : σ → request → σ × HttpReply

structure Client where
  host : String
  port : Int
  pass : String
  user : String
  requestBuilds : Bool
  nextMessageId : Int
  deriving DecidableEq, Repr

structure Net (σ : Type) where
  state : σ
  trace : List request
  deriving DecidableEq

/-- Sends one request: the server moves on and the request joins the trace. -/
def send {σ : Type} (S : Server σ) (w : Net σ) (req : request) : Net σ × HttpReply :=
  ({ state := (S.post w.state req).1, trace := w.trace ++ [req] }, (S.post w.state req).2)

/-- Embedding of `Client.nextId`. -/
def nextId (c : Client) : Client × Int :=
  ({ c with nextMessageId := c.nextMessageId + 1 }, c.nextMessageId + 1)

/-- The zero value of `host`. -/
def host.zero : host := { Id := "", Addr := "", Port := 0, Hostname := "" }

/-- The zero value of `hostStatus`. -/
def hostStatus.zero : hostStatus := { Id := "", Status := "", Version := "" }

/-- The zero value of `response` with the two fields every handler copies. -/
def response.of (resp : genericResponse) : response :=
  { Error := resp.Error, Id := resp.Id, ResultBool := false, ResultStrings := [],
    ResultHosts := [], ResultHostStatus := hostStatus.zero }

/-- Embedding of `host.From`: a failed type assertion panics, a short array
leaves the receiver unchanged. -/
def host.From (h : host) (arry : List Elem) : Go host :=
  match arry with
  | a0 :: a1 :: a2 :: a3 :: _ =>
    match a0, a1, a2, a3 with
    | .str id, .str addr, .num port, .str hostname =>
      .ret { Id := id, Addr := addr, Port := port, Hostname := hostname }
    | _, _, _, _ => .panic
  | _ => .ret h

/-- Embedding of `hostStatus.From`. -/
def hostStatus.From (s : hostStatus) (arry : List Item) : Go hostStatus :=
  match arry with
  | a0 :: a1 :: a2 :: _ =>
    match a0, a1, a2 with
    | .elem (.str id), .elem (.str status), .elem (.str version) =>
      .ret { Id := id, Status := status, Version := version }
    | _, _, _ => .panic
  | _ => .ret s

/-- Embedding of `boolHandler`. -/
def boolHandler (r : Except Error genericResponse) : Go (Except Error response) :=
  match r with
  | .error err => .ret (.error err)
  | .ok resp =>
    match resp.Result with
    | .bool t => .ret (.ok { response.of resp with ResultBool := t })
    | _ => .ret (.error .expectedBool)

/-- The loop of `stringsSliceHandler`: `strings[i] = v.(string)`. -/
def stringsOf : List Item → Go (List String)
  | [] => .ret []
  | .elem (.str s) :: rest =>
    match stringsOf rest with
    | .ret ss => .ret (s :: ss)
    | .panic => .panic
  | _ :: _ => .panic

/-- Embedding of `stringsSliceHandler`. -/
def stringsSliceHandler (r : Except Error genericResponse) : Go (Except Error response) :=
  match r with
  | .error err => .ret (.error err)
  | .ok resp =>
    match resp.Result with
    | .arr t =>
      match stringsOf t with
      | .ret strings => .ret (.ok { response.of resp with ResultStrings := strings })
      | .panic => .panic
    | _ => .ret (.error .expectedStrings)

/-- The loop of `hostsSliceHandler`: `h.From(i.([]interface{}))`. -/
def hostsOf : List Item → Go (List host)
  | [] => .ret []
  | .arr xs :: rest =>
    match host.From host.zero xs with
    | .panic => .panic
    | .ret h =>
      match hostsOf rest with
      | .ret hs => .ret (h :: hs)
      | .panic => .panic
  | .elem _ :: _ => .panic

/-- Embedding of `hostsSliceHandler`. -/
def hostsSliceHandler (r : Except Error genericResponse) : Go (Except Error response) :=
  match r with
  | .error err => .ret (.error err)
  | .ok resp =>
    match resp.Result with
    | .arr t =>
      match hostsOf t with
      | .ret hosts => .ret (.ok { response.of resp with ResultHosts := hosts })
      | .panic => .panic
    | _ => .ret (.error .expectedHosts)

/-- Embedding of `hostStatusHandler`. -/
def hostStatusHandler (r : Except Error genericResponse) : Go (Except Error response) :=
  match r with
  | .error err => .ret (.error err)
  | .ok resp =>
    match resp.Result with
    | .arr t =>
      match hostStatus.From hostStatus.zero t with
      | .ret h => .ret (.ok { response.of resp with ResultHostStatus := h })
      | .panic => .panic
    | _ => .ret (.error .expectedHostStatus)

/-- Embedding of `Client.delugeRequest`. -/
def delugeRequest {σ : Type} (S : Server σ) (c : Client) (method : String)
    (params : List Param) (w : Net σ) : Client × Net σ × Go (Except Error genericResponse) :=
  let c1 := (nextId c).1
  if c.requestBuilds = false then (c1, w, .ret (.error .buildRequest)) else
  let r := send S w { Method := method, Params := params, Id := (nextId c).2 }
  match r.2 with
  | .transportError => (c1, r.1, .ret (.error .transport))
  | .http code body _ =>
    if code ≠ 200 then (c1, r.1, .ret (.error (.httpStatus code))) else
    match body with
    | .unreadable => (c1, r.1, .ret (.error .readBody))
    | .malformed => (c1, r.1, .ret (.error .unmarshal))
    | .null => (c1, r.1, .panic)
    | .value resp =>
      match resp.Error with
      | some e => (c1, r.1, .ret (.error (.rpcError e.Code e.Message)))
      | none => (c1, r.1, .ret (.ok resp))

/-- A handler applied to the two results of `delugeRequest`. -/
def handled {σ : Type} (handler : Except Error genericResponse → Go (Except Error response))
    (r : Client × Net σ × Go (Except Error genericResponse)) :
    Client × Net σ × Go (Except Error response) :=
  match r.2.2 with
  | .panic => (r.1, r.2.1, .panic)
  | .ret x => (r.1, r.2.1, handler x)

/-- Embedding of `Client.login`. -/
def login {σ : Type} (S : Server σ) (c : Client) (w : Net σ) :
    Client × Net σ × Go (Except Error response) :=
  handled boolHandler (delugeRequest S c "auth.login" [.str c.pass] w)

/-- Embedding of `Client.webConnected`. -/
def webConnected {σ : Type} (S : Server σ) (c : Client) (w : Net σ) :
    Client × Net σ × Go (Except Error response) :=
  handled boolHandler (delugeRequest S c "web.connected" [] w)

/-- Embedding of `Client.webConnect`. -/
def webConnect {σ : Type} (S : Server σ) (c : Client) (hostname : String) (w : Net σ) :
    Client × Net σ × Go (Except Error response) :=
  handled stringsSliceHandler (delugeRequest S c "web.connect" [.str hostname] w)

/-- Embedding of `Client.getHosts`. -/
def getHosts {σ : Type} (S : Server σ) (c : Client) (w : Net σ) :
    Client × Net σ × Go (Except Error response) :=
  handled hostsSliceHandler (delugeRequest S c "web.get_hosts" [] w)

/-- Embedding of `Client.getHostStatus`. -/
def getHostStatus {σ : Type} (S : Server σ) (c : Client) (hostId : String) (w : Net σ) :
    Client × Net σ × Go (Except Error response) :=
  handled hostStatusHandler (delugeRequest S c "web.get_host_status" [.str hostId] w)

/-- Embedding of `Client.getConfig`. -/
def getConfig {σ : Type} (S : Server σ) (c : Client) (w : Net σ) :
    Client × Net σ × Go (Except Error config) :=
  let c1 := (nextId c).1
  if c.requestBuilds = false then (c1, w, .ret (.error .buildRequest)) else
  let r := send S w { Method := "core.get_config", Params := [], Id := (nextId c).2 }
  match r.2 with
  | .transportError => (c1, r.1, .ret (.error .transport))
  | .http code _ body =>
    if code ≠ 200 then (c1, r.1, .ret (.error (.httpStatus code))) else
    match body with
    | .unreadable => (c1, r.1, .ret (.error .readBody))
    | .malformed => (c1, r.1, .ret (.error .unmarshal))
    | .null => (c1, r.1, .panic)
    | .value resp =>
      match resp.Error with
      | some e => (c1, r.1, .ret (.error (.rpcError e.Code e.Message)))
      | none => (c1, r.1, .ret (.ok resp.Result))

/-- The parameter map built by `setConfig`. -/
def paramMap (port : Int) : Param :=
  .map [("listen_ports", .ints [port, port]), ("random_port", .bool false)]

/-- Embedding of `Client.setConfig`. -/
def setConfig {σ : Type} (S : Server σ) (c : Client) (port : Int) (w : Net σ) :
    Client × Net σ × Go (Option Error) :=
  let c1 := (nextId c).1
  if c.requestBuilds = false then (c1, w, .ret (some .buildRequest)) else
  let r := send S w { Method := "core.set_config", Params := [paramMap port],
                      Id := (nextId c).2 }
  match r.2 with
  | .transportError => (c1, r.1, .ret (some .transport))
  | .http code body _ =>
    if code ≠ 200 then (c1, r.1, .ret (some (.httpStatus code))) else
    match body with
    | .unreadable => (c1, r.1, .ret (some .readBody))
    | .malformed => (c1, r.1, .ret (some .unmarshal))
    | .null => (c1, r.1, .panic)
    | .value resp =>
      match resp.Error with
      | some e => (c1, r.1, .ret (some (.rpcError e.Code e.Message)))
      | none => (c1, r.1, .ret none)

/-- The loop `for _, h := range hosts.ResultHosts` of `doPush`, with the
running value of `connected`; an error return of `doPush` inside the loop is
the `error` result. -/
def connectHosts {σ : Type} (S : Server σ) : List host → Bool → Client → Net σ →
    Client × Net σ × Go (Except Error Bool)
  | [], connected, c, w => (c, w, .ret (.ok connected))
  | h :: hs, connected, c, w =>
    match getHostStatus S c h.Id w with
    | (c1, w1, .panic) => (c1, w1, .panic)
    | (c1, w1, .ret (.error err)) => (c1, w1, .ret (.error err))
    | (c1, w1, .ret (.ok res)) =>
      if res.ResultHostStatus.Status = "Online" then
        match webConnect S c1 h.Id w1 with
        | (c2, w2, .panic) => (c2, w2, .panic)
        | (c2, w2, .ret (.error err)) => (c2, w2, .ret (.error err))
        | (c2, w2, .ret (.ok _)) => connectHosts S hs true c2 w2
      else
        connectHosts S hs connected c1 w1

/-- The part of `doPush` from `c.getConfig()` on (the Configure step). -/
def configure {σ : Type} (S : Server σ) (c : Client) (port : Int) (w : Net σ) :
    Client × Net σ × Go (Option Error) :=
  match getConfig S c w with
  | (c1, w1, .panic) => (c1, w1, .panic)
  | (c1, w1, .ret (.error err)) => (c1, w1, .ret (some err))
  | (c1, w1, .ret (.ok config)) =>
    match config.ListenPorts with
    | [] => (c1, w1, .panic)
    | first :: _ =>
      if port = first then (c1, w1, .ret none) else
      match setConfig S c1 port w1 with
      | (c2, w2, .panic) => (c2, w2, .panic)
      | (c2, w2, .ret (some err)) => (c2, w2, .ret (some err))
      | (c2, w2, .ret none) => (c2, w2, .ret none)

/-- Embedding of `Client.doPush`. -/
def doPush {σ : Type} (S : Server σ) (c : Client) (port : Int) (w : Net σ) :
    Client × Net σ × Go (Option Error) :=
  match login S c w with
  | (c1, w1, .panic) => (c1, w1, .panic)
  | (c1, w1, .ret (.error err)) => (c1, w1, .ret (some err))
  | (c1, w1, .ret (.ok _)) =>
    match webConnected S c1 w1 with
    | (c2, w2, .panic) => (c2, w2, .panic)
    | (c2, w2, .ret (.error err)) => (c2, w2, .ret (some err))
    | (c2, w2, .ret (.ok webConnectedRes)) =>
      if webConnectedRes.ResultBool = false then
        match getHosts S c2 w2 with
        | (c3, w3, .panic) => (c3, w3, .panic)
        | (c3, w3, .ret (.error err)) => (c3, w3, .ret (some err))
        | (c3, w3, .ret (.ok hosts)) =>
          if hosts.ResultHosts.length = 0 then (c3, w3, .ret (some .noHosts)) else
          match connectHosts S hosts.ResultHosts false c3 w3 with
          | (c4, w4, .panic) => (c4, w4, .panic)
          | (c4, w4, .ret (.error err)) => (c4, w4, .ret (some err))
          | (c4, w4, .ret (.ok connected)) =>
            if connected = false then (c4, w4, .ret (some .noOnlineHosts))
            else configure S c4 port w4
      else
        configure S c2 port w2

/-- Embedding of `Client.Push`: logs the error and returns what `doPush` returned. -/
def Push {σ : Type} (S : Server σ) (c : Client) (port : Int) (w : Net σ) :
    Client × Net σ × Go (Option Error) :=
  match doPush S c port w with
  | (c1, w1, .ret (some err)) => (c1, w1, .ret (some err))
  | (c1, w1, .ret none) => (c1, w1, .ret none)
  | (c1, w1, .panic) => (c1, w1, .panic)

/-- The requests of a trace whose method is `m`, in order. -/
def callsOf (m : String) (t : List request) : List request :=
  t.filter (fun r => r.Method = m)

end deluge

/-! ## env: the two delay accessors -/

namespace env

/-- The process environment as `os.LookupEnv` sees it: `none` for a variable that is not set. -/
abbrev Environ := String → Option String

def envDelayError : String := "PUSHER_DELAY_ERROR"

def envDelaySuccess : String := "PUSHER_DELAY_SUCCESS"

/-- The constant `time.Minute`, in nanoseconds. -/
def Minute : Duration := 60000000000

/-- Arithmetic on `time.Duration` is arithmetic on `int64`: it wraps around. -/
def wrap64 (x : Int) : Int := (x + 2 ^ 63) % 2 ^ 64 - 2 ^ 63

/-- The value of a decimal digit. -/
def digitVal (ch : Char) : Option Nat :=
  if 48 ≤ ch.toNat ∧ ch.toNat ≤ 57 then some (ch.toNat - 48) else none

/-- The number written by a list of decimal digits, after the digits read so far. -/
def parseDigits : List Char → Nat → Option Nat
  | [], acc => some acc
  | ch :: rest, acc =>
    match digitVal ch with
    | none => none
    | some d => parseDigits rest (acc * 10 + d)

/-- The library function `strconv.Atoi` on a 64-bit platform, `none` when it
returns an error: an optional sign, then at least one decimal digit and
nothing else, the value within the range of `int64`. -/
def Atoi (s : String) : Option Int :=
  match s.data with
  | [] => none
  | '-' :: ds =>
    if ds = [] then none else
    match parseDigits ds 0 with
    | none => none
    | some n => if n ≤ 2 ^ 63 then some (-(n : Int)) else none
  | '+' :: ds =>
    if ds = [] then none else
    match parseDigits ds 0 with
    | none => none
    | some n => if n < 2 ^ 63 then some (n : Int) else none
  | ds =>
    match parseDigits ds 0 with
    | none => none
    | some n => if n < 2 ^ 63 then some (n : Int) else none

/-- Embedding of `getDuration`. -/
def getDuration (environ : Environ) (envVar : String) (dflt : Duration) :
    Duration × Option Error :=
  match environ envVar with
  | some str =>
    match Atoi str with
    | none => (dflt, some (.invalidDuration envVar str))
    | some i =>
      if i ≤ 0 then (dflt, some (.invalidDuration envVar str))
      else (wrap64 (i * Minute), none)
  | none => (dflt, none)

/-- Embedding of `GetDelaySuccess`. -/
def GetDelaySuccess (environ : Environ) : Duration × Option Error :=
  getDuration environ envDelaySuccess (10 * Minute)

/-- Embedding of `GetDelayError`; like the source it passes `envDelaySuccess`. -/
def GetDelayError (environ : Environ) : Duration × Option Error :=
  getDuration environ envDelaySuccess (5 * Minute)

/-- The environment `environ` with the variable `name` set to `value`, or unset for `none`. -/
def setenv (environ : Environ) (name : String) (value : Option String) : Environ :=
  fun x => if x = name then value else environ x

/-- The environment with no variable set. -/
def emptyEnviron : Environ := fun _ => none

end env

/-! ## main: the orchestration loop -/

namespace orchestrator

/-- What one iteration of `loop` does, in order. -/
inductive Event where
  /-- The call `gtc.PullPort()`. -/
  | pull
  /-- The call `p.Push(port)` on the pusher at position `idx` of `pushers`. -/
  | push (idx : Nat) (port : Int)
  /-- The call `time.Sleep(d)`. -/
  | sleep (d : Duration)
  deriving DecidableEq, Repr

/-- The interface `PortPusher`: `Push(int) error` acting on the world `W`
(the adapter's own session state and the network). -/
structure PortPusher (W : Type) where
  Push : Int → W → W × Option Error

/-- The body of `for _, p := range pushers` in `loop`: the pushers still to
visit, the position of the first of them, and the running `isError` flag. -/
def pushAll {W : Type} : List (PortPusher W) → Nat → Int → W → Bool → List Event →
    W × Bool × List Event
  | [], _, _, w, isError, ev => (w, isError, ev)
  | p :: ps, idx, port, w, isError, ev =>
    let r := p.Push port w
    pushAll ps (idx + 1) port r.1 (if r.2 ≠ none then true else isError)
      (ev ++ [Event.push idx port])

/-- One iteration of the `for` of `loop`. -/
def iteration {W : Type} (PullPort : W → W × (Int × Option Error))
    (pushers : List (PortPusher W)) (delaySuccess delayError : Duration) (w : W) :
    W × List Event :=
  let r := PullPort w
  if r.2.2 ≠ none then
    (r.1, [Event.pull, Event.sleep delayError])
  else
    let q := pushAll pushers 0 r.2.1 r.1 false [Event.pull]
    if q.2.1 = true then
      (q.1, q.2.2 ++ [Event.sleep delaySuccess])
    else
      (q.1, q.2.2 ++ [Event.sleep delayError])

/-- Embedding of `loop`, cut after `n` iterations (the source loop never ends). -/
def loop {W : Type} (PullPort : W → W × (Int × Option Error))
    (pushers : List (PortPusher W)) (delaySuccess delayError : Duration) :
    Nat → W → W × List Event
  | 0, w => (w, [])
  | n + 1, w =>
    let r := iteration PullPort pushers delaySuccess delayError w
    let q := loop PullPort pushers delaySuccess delayError n r.1
    (q.1, r.2 ++ q.2)

/-- The pushes recorded in a list of events, as (position, port) pairs. -/
def pushesOf : List Event → List (Nat × Int)
  | [] => []
  | Event.push i p :: es => (i, p) :: pushesOf es
  | _ :: es => pushesOf es

/-- The sleeps recorded in a list of events. -/
def sleepsOf : List Event → List Duration
  | [] => []
  | Event.sleep d :: es => d :: sleepsOf es
  | _ :: es => sleepsOf es

end orchestrator

end PortPusher

/-! ## Scenarios used to exercise the definitions -/

namespace PortPusher

namespace orchestrator

/-- Whether some pusher of the list returns an error when the pushers are run
in order from the world `w`. -/
def anyFailed {W : Type} : List (PortPusher W) → Int → W → Bool
  | [], _, _ => false
  | p :: ps, port, w => (p.Push port w).2.isSome || anyFailed ps port (p.Push port w).1

/-- The world after the pushers ran in order, each once. -/
def runAll {W : Type} : List (PortPusher W) → Int → W → W
  | [], _, w => w
  | p :: ps, port, w => runAll ps port (p.Push port w).1

/-- A pusher that always succeeds and counts its calls. -/
def okPusher : PortPusher Nat := { Push := fun _ n => (n + 1, none) }

/-- A pusher that always fails and counts its calls. -/
def badPusher : PortPusher Nat := { Push := fun _ n => (n + 1, some Error.transport) }

/-- A port source that reports port 12345. -/
def goodPull : Nat → Nat × (Int × Option Error) := fun n => (n, (12345, none))

/-- A port source that fails. -/
def badPull : Nat → Nat × (Int × Option Error) := fun n => (n, (-1, some Error.portZero))

/-- Ten minutes in nanoseconds, the default of `GetDelaySuccess`. -/
def tenMinutes : Duration := 600000000000

/-- Five minutes in nanoseconds, the default of `GetDelayError`. -/
def fiveMinutes : Duration := 300000000000

end orchestrator

namespace gluetun

/-- A sidecar that always answers 200 with the given status and port. -/
def fixedSidecar (status : String) (port : Int) : Sidecar Unit :=
  { status := fun s => (s, .http 200 (.value { Status := status })),
    portforwarded := fun s => (s, .http 200 (.value { Port := port })) }

/-- A client whose requests build. -/
def someClient : Client := { host := "gluetun", port := 8000, requestBuilds := true }

/-- The network before any request. -/
def start : Net Unit := { state := (), trace := [] }

end gluetun

namespace qbittorrent

/-- A WebUI that accepts every login, reports its stored preferences and stores
what `setPreferences` writes. -/
def faithfulServer : Server preferences :=
  { login := fun s _ _ => (s, .http 200 (.value ())),
    getPreferences := fun s => (s, .http 200 (.value s)),
    setPreferences := fun _ prefs => (prefs, .http 200 (.value ())) }

/-- A client whose requests build. -/
def someClient : Client :=
  { host := "qbittorrent", port := 8080, user := "admin", pass := "adminadmin",
    requestBuilds := true }

/-- The network before any request, the backend holding `prefs`. -/
def start (prefs : preferences) : Net preferences := { state := prefs, trace := [] }

end qbittorrent

namespace transmission

/-- A Transmission daemon with session id `sid`: a request that does not carry
`sid` is answered 409 with the id in the header; `session-set` stores the two
port fields; any other request is answered like `session-get`. -/
def faithfulServer (sid : String) : Server portInfo :=
  { rpc := fun s req =>
      if req.sessionId ≠ some sid then (s, .http 409 sid .malformed)
      else if req.body.Method = "session-set" then
        ({ PeerPort := req.body.Arguments.PeerPort,
           PeerPortRandom := req.body.Arguments.PeerPortRandom },
         .http 200 "" (.value { Arguments := { PeerPort := 0, PeerPortRandom := false,
                                               Fields := [] },
                                Result := "success", Tag := 0 }))
      else
        (s, .http 200 "" (.value { Arguments := { PeerPort := s.PeerPort,
                                                  PeerPortRandom := s.PeerPortRandom,
                                                  Fields := [] },
                                   Result := "success", Tag := 0 })) }

/-- A daemon that answers 401 to a request without session header and 200 with
the stored port fields to any other request. -/
def unauthorizedServer : Server portInfo :=
  { rpc := fun s req =>
      match req.sessionId with
      | none => (s, .http 401 "" .malformed)
      | some _ =>
        (s, .http 200 "" (.value { Arguments := { PeerPort := s.PeerPort,
                                                  PeerPortRandom := s.PeerPortRandom,
                                                  Fields := [] },
                                   Result := "success", Tag := 0 })) }

/-- A fresh client (as `NewClient` builds it) whose requests build. -/
def someClient : Client :=
  { host := "transmission", port := 9091, user := "user", pass := "pass",
    requestBuilds := true, authToken := "", portInfo := none, sessionId := "" }

/-- The network before any request, the backend holding `info`. -/
def start (info : portInfo) : Net portInfo := { state := info, trace := [] }

end transmission

namespace deluge

/-- The state of a model Deluge web front-end. -/
structure Daemon where
  config : config
  connected : Bool
  /-- The known hosts, each with the status `web.get_host_status` reports. -/
  hosts : List (host × String)
  deriving DecidableEq, Repr

/-- A host entry as `web.get_hosts` encodes it. -/
def encodeHost (h : host) : Item :=
  .arr [.str h.Id, .str h.Addr, .num h.Port, .str h.Hostname]

/-- The status recorded for the host with id `id`, "Offline" when unknown. -/
def statusOf : List (host × String) → String → String
  | [], _ => "Offline"
  | (h, st) :: rest, id => if h.Id = id then st else statusOf rest id

/-- The reply 200 whose envelope has no error object and the given result. -/
def okReply (id : Int) (result : Value) : HttpReply :=
  .http 200 (.value { Error := none, Id := id, Result := result }) .malformed

/-- A Deluge web front-end that answers every call successfully, reports its
stored configuration and stores what `core.set_config` writes. -/
def faithfulServer : Server Daemon :=
  { post := fun s req =>
      if req.Method = "auth.login" then (s, okReply req.Id (.bool true))
      else if req.Method = "web.connected" then (s, okReply req.Id (.bool s.connected))
      else if req.Method = "web.get_hosts" then
        (s, okReply req.Id (.arr (s.hosts.map (fun e => encodeHost e.1))))
      else if req.Method = "web.get_host_status" then
        match req.Params with
        | [.str id] =>
          (s, okReply req.Id (.arr [.elem (.str id), .elem (.str (statusOf s.hosts id)),
                                    .elem (.str "2.1.1")]))
        | _ => (s, okReply req.Id .other)
      else if req.Method = "web.connect" then
        ({ s with connected := true }, okReply req.Id (.arr [.elem (.str "core.get_config")]))
      else if req.Method = "core.get_config" then
        (s, .http 200 (.value { Error := none, Id := req.Id, Result := .other })
              (.value { Error := none, Id := req.Id, Result := s.config }))
      else if req.Method = "core.set_config" then
        match req.Params with
        | [.map [("listen_ports", .ints l), ("random_port", .bool b)]] =>
          ({ s with config := { RandomPort := b, ListenPorts := l } }, okReply req.Id .other)
        | _ => (s, okReply req.Id .other)
      else (s, okReply req.Id .other) }

/-- The reply with every echoed id replaced by `i`. -/
def withId (i : Int) : HttpReply → HttpReply
  | .transportError => .transportError
  | .http code (.value g) (.value cf) => .http code (.value { g with Id := i }) (.value { cf with Id := i })
  | .http code (.value g) cf => .http code (.value { g with Id := i }) cf
  | .http code g (.value cf) => .http code g (.value { cf with Id := i })
  | .http code g cf => .http code g cf

/-- The faithful front-end, except that every reply echoes the id 0, which the
client never sends (its first id is 1). -/
def wrongIdServer : Server Daemon :=
  { post := fun s req =>
      ((faithfulServer.post s req).1, withId 0 (faithfulServer.post s req).2) }

/-- The faithful front-end, except that `auth.login` answers `result: false`
(what Deluge answers to a wrong password). -/
def rejectingServer : Server Daemon :=
  { post := fun s req =>
      if req.Method = "auth.login" then (s, okReply req.Id (.bool false))
      else faithfulServer.post s req }

/-- The faithful front-end, except that `web.get_hosts` answers one host entry
of three elements. -/
def shortHostServer : Server Daemon :=
  { post := fun s req =>
      if req.Method = "web.get_hosts" then
        (s, okReply req.Id (.arr [.arr [.str "h1", .str "10.0.0.1", .num 58846]]))
      else faithfulServer.post s req }

/-- The faithful front-end, except that `web.connected` answers HTTP 200 with a
boolean result and an error object. -/
def erroringServer : Server Daemon :=
  { post := fun s req =>
      if req.Method = "web.connected" then
        (s, .http 200 (.value { Error := some { Code := 1, Message := "Not authenticated" },
                                Id := req.Id, Result := .bool true }) .malformed)
      else faithfulServer.post s req }

/-- A fresh client (as `NewClient` builds it) whose requests build. -/
def someClient : Client :=
  { host := "deluge", port := 8112, pass := "deluge", user := "", requestBuilds := true,
    nextMessageId := 0 }

/-- The network before any request, the backend being `d`. -/
def start (d : Daemon) : Net Daemon := { state := d, trace := [] }

/-- Three hosts: the first Offline, the second and the third Online. -/
def threeHosts : List (host × String) :=
  [({ Id := "h1", Addr := "10.0.0.1", Port := 58846, Hostname := "one" }, "Offline"),
   ({ Id := "h2", Addr := "10.0.0.2", Port := 58846, Hostname := "two" }, "Online"),
   ({ Id := "h3", Addr := "10.0.0.3", Port := 58846, Hostname := "three" }, "Online")]

end deluge

end PortPusher

/-! ## Faithful backends

A backend is faithful when it stores what the adapter's mutating call writes
and reports it on the next read, its calls being answered successfully. The
stored values are observed through a view of the backend state. -/

namespace PortPusher

namespace qbittorrent

/-- A faithful qBittorrent WebUI: logins and writes are answered 200, a read is
answered 200 with the stored preferences, and only a write changes them. -/
structure Faithful {σ : Type} (S : Server σ) (view : σ → preferences) : Prop where
  login_reply : ∀ s u p, ∃ b, (S.login s u p).2 = .http 200 b
  login_view : ∀ s u p, view (S.login s u p).1 = view s
  read_reply : ∀ s, (S.getPreferences s).2 = .http 200 (.value (view s))
  read_view : ∀ s, view (S.getPreferences s).1 = view s
  write_reply : ∀ s prefs, ∃ b, (S.setPreferences s prefs).2 = .http 200 b
  write_view : ∀ s prefs, view (S.setPreferences s prefs).1 = prefs

end qbittorrent

namespace transmission

/-- The request `init` sends: a `session-get` without session header. -/
def handshake (c : Client) : HttpRequest :=
  { body := sessionGetBody, authorization := c.user ++ ":" ++ c.pass, sessionId := none }

/-- The request `getPortInfo` sends. -/
def sessionGet (c : Client) : HttpRequest :=
  { body := sessionGetBody, authorization := c.user ++ ":" ++ c.pass,
    sessionId := some c.sessionId }

/-- The request `pushPort` sends when it writes. -/
def sessionSet (c : Client) (port : Int) : HttpRequest :=
  { body := sessionSetBody port, authorization := c.user ++ ":" ++ c.pass,
    sessionId := some c.sessionId }

/-- A faithful Transmission daemon with session id `sid`: a request without
session header is answered 409 with `sid` in the header; with the header `sid`
a `session-get` is answered 200 with the stored port fields and a `session-set`
is answered 200 and stores the two port fields of its arguments. -/
structure Faithful {σ : Type} (S : Server σ) (view : σ → portInfo) (sid : String) : Prop where
  sid_ne : sid ≠ ""
  handshake_reply : ∀ s req, req.sessionId = none → ∃ b, (S.rpc s req).2 = .http 409 sid b
  handshake_view : ∀ s req, req.sessionId = none → view (S.rpc s req).1 = view s
  get_reply : ∀ s req, req.sessionId = some sid → req.body.Method = "session-get" →
    ∃ hdr f res t, (S.rpc s req).2
      = .http 200 hdr (.value { Arguments := { PeerPort := (view s).PeerPort,
                                               PeerPortRandom := (view s).PeerPortRandom,
                                               Fields := f },
                                Result := res, Tag := t })
  get_view : ∀ s req, req.sessionId = some sid → req.body.Method = "session-get" →
    view (S.rpc s req).1 = view s
  set_reply : ∀ s req, req.sessionId = some sid → req.body.Method = "session-set" →
    ∃ hdr b, (S.rpc s req).2 = .http 200 hdr b
  set_view : ∀ s req, req.sessionId = some sid → req.body.Method = "session-set" →
    view (S.rpc s req).1 = { PeerPort := req.body.Arguments.PeerPort,
                             PeerPortRandom := req.body.Arguments.PeerPortRandom }

end transmission

namespace deluge

/-- A faithful Deluge web front-end, observed through its stored configuration
`cfg` and its daemon connection `conn`: `auth.login` and `web.connected` are
answered 200 with a boolean and without error object, `web.connected` reporting
`conn`; `core.get_config` is answered 200 with the stored configuration;
`web.connect` connects; `core.set_config` stores the two entries of its
parameter map; no other call changes the configuration and no call
disconnects. -/
structure Faithful {σ : Type} (S : Server σ) (cfg : σ → config) (conn : σ → Bool) : Prop where
  login_reply : ∀ s req, req.Method = "auth.login" →
    ∃ i b c, (S.post s req).2 = .http 200 (.value { Error := none, Id := i, Result := .bool b }) c
  connected_reply : ∀ s req, req.Method = "web.connected" →
    ∃ i c, (S.post s req).2
      = .http 200 (.value { Error := none, Id := i, Result := .bool (conn s) }) c
  get_config_reply : ∀ s req, req.Method = "core.get_config" →
    ∃ g i, (S.post s req).2 = .http 200 g (.value { Error := none, Id := i, Result := cfg s })
  connect_conn : ∀ s req, req.Method = "web.connect" → conn (S.post s req).1 = true
  set_config_cfg : ∀ s req l b, req.Method = "core.set_config" →
    req.Params = [.map [("listen_ports", .ints l), ("random_port", .bool b)]] →
    cfg (S.post s req).1 = { RandomPort := b, ListenPorts := l }
  cfg_kept : ∀ s req, req.Method ≠ "core.set_config" → cfg (S.post s req).1 = cfg s
  conn_kept : ∀ s req, conn s = true → conn (S.post s req).1 = true

/-- The server `S` keeping the transcript of its exchanges: each request with
the reply it got, in order. -/
def recording {σ : Type} (S : Server σ) : Server (σ × List (request × HttpReply)) :=
  { post := fun s req =>
      (((S.post s.1 req).1, s.2 ++ [(req, (S.post s.1 req).2)]), (S.post s.1 req).2) }

/-- The network of the recording server without its transcript. -/
def forget {σ : Type} (w : Net (σ × List (request × HttpReply))) : Net σ :=
  { state := w.state.1, trace := w.trace }

/-- The result of a function run against the recording server, without the transcript. -/
def proj {σ R : Type} (r : Client × Net (σ × List (request × HttpReply)) × R) :
    Client × Net σ × R :=
  (r.1, forget r.2.1, r.2.2)

/-- The error object an exchange carries, read in the decoding the client
applies to the reply of that request (`getConfigResponse` for core.get_config,
`genericResponse` for every other method). -/
def errorObject (x : request × HttpReply) : Option errorResponse :=
  match x.2 with
  | .transportError => none
  | .http _ g cf =>
    if x.1.Method = "core.get_config" then
      match cf with
      | .value r => r.Error
      | _ => none
    else
      match g with
      | .value r => r.Error
      | _ => none

/-- In state `s` the server answers `req` with HTTP 200 and the error object
`e`, whatever the result field holds. -/
def repliesError {σ : Type} (S : Server σ) (s : σ) (req : request) (e : errorResponse) : Prop :=
  ∃ g cf, (S.post s req).2 = .http 200 g cf ∧ errorObject (req, .http 200 g cf) = some e

/-- Whether a call returned a non-nil error. -/
def isErr {α : Type} : Go (Except Error α) → Bool
  | .ret (.error _) => true
  | _ => false

/-- Whether a function returning `error` returned a non-nil one. -/
def failed : Go (Option Error) → Bool
  | .ret (some _) => true
  | _ => false

/-- From `w` to `w'` the recording server saw the exchanges `t`, whose requests
are the ones added to the trace; none of them but the last carries an error
object, and not even the last unless `err` is set. -/
def Track {σ : Type} (w w' : Net (σ × List (request × HttpReply))) (err : Bool) : Prop :=
  ∃ t, w'.state.2 = w.state.2 ++ t ∧ w'.trace = w.trace ++ t.map Prod.fst
    ∧ (∀ x ∈ t.dropLast, errorObject x = none)
    ∧ (err = false → ∀ x ∈ t, errorObject x = none)

/-- The pair `y` comes after the pair `x` through calls that are not
`core.set_config`: the client still builds requests iff it did, the stored
configuration is the same, a connection is kept, and the trace grew without a
`core.set_config`. -/
def Reads {σ : Type} (cfg : σ → config) (conn : σ → Bool) (x y : Client × Net σ) : Prop :=
  y.1.requestBuilds = x.1.requestBuilds
    ∧ cfg y.2.state = cfg x.2.state
    ∧ (conn x.2.state = true → conn y.2.state = true)
    ∧ ∃ t, y.2.trace = x.2.trace ++ t ∧ callsOf "core.set_config" t = []

end deluge

end PortPusher

/-! ## Theorems -/

namespace PortPusher

namespace orchestrator

theorem pushAll_events {W : Type} (ps : List (PortPusher W)) (idx : Nat) (port : Int) (w : W)
    (e : Bool) (ev : List Event) :
    (pushAll ps idx port w e ev).2.2
      = ev ++ (List.range' idx ps.length).map (fun i => Event.push i port) := by
  induction ps generalizing idx w e ev with
  | nil => simp [pushAll]
  | cons p ps ih =>
    simp only [pushAll, ih, List.length_cons, List.range'_succ, List.map_cons,
      List.append_assoc, List.singleton_append]

theorem pushAll_isError {W : Type} (ps : List (PortPusher W)) (idx : Nat) (port : Int) (w : W)
    (e : Bool) (ev : List Event) :
    (pushAll ps idx port w e ev).2.1 = (e || anyFailed ps port w) := by
  induction ps generalizing idx w e ev with
  | nil => simp [pushAll, anyFailed]
  | cons p ps ih =>
    simp only [pushAll, ih, anyFailed]
    cases h : (p.Push port w).2 <;> cases e <;> simp

theorem pushAll_world {W : Type} (ps : List (PortPusher W)) (idx : Nat) (port : Int) (w : W)
    (e : Bool) (ev : List Event) :
    (pushAll ps idx port w e ev).1 = runAll ps port w := by
  induction ps generalizing idx w e ev with
  | nil => simp [pushAll, runAll]
  | cons p ps ih => simp only [pushAll, ih, runAll]

theorem pushesOf_append (a b : List Event) : pushesOf (a ++ b) = pushesOf a ++ pushesOf b := by
  induction a with
  | nil => rfl
  | cons x xs ih => cases x <;> simp [pushesOf, ih]

theorem sleepsOf_append (a b : List Event) : sleepsOf (a ++ b) = sleepsOf a ++ sleepsOf b := by
  induction a with
  | nil => rfl
  | cons x xs ih => cases x <;> simp [sleepsOf, ih]

theorem pushesOf_pushes (l : List Nat) (port : Int) :
    pushesOf (l.map (fun i => Event.push i port)) = l.map (fun i => (i, port)) := by
  induction l with
  | nil => rfl
  | cons x xs ih => simp [pushesOf, ih]

theorem sleepsOf_pushes (l : List Nat) (port : Int) :
    sleepsOf (l.map (fun i => Event.push i port)) = [] := by
  induction l with
  | nil => rfl
  | cons x xs ih => simp [sleepsOf, ih]

/-- The sleep of one iteration, for every port source and every list of pushers:
a failed pull sleeps `delayError`; after a successful pull the iteration sleeps
`delaySuccess` when some push failed and `delayError` when none did. -/
theorem iteration_sleeps {W : Type} (PullPort : W → W × (Int × Option Error))
    (pushers : List (PortPusher W)) (delaySuccess delayError : Duration) (w : W) :
    sleepsOf (iteration PullPort pushers delaySuccess delayError w).2
      = [if (PullPort w).2.2 ≠ none then delayError
         else if anyFailed pushers (PullPort w).2.1 (PullPort w).1 = true then delaySuccess
         else delayError] := by
  unfold iteration
  by_cases h : (PullPort w).2.2 ≠ none
  · simp [h, sleepsOf]
  · simp only [h, if_false, pushAll_isError, pushAll_events, Bool.false_or]
    by_cases hf : anyFailed pushers (PullPort w).2.1 (PullPort w).1 = true
    · simp [hf, sleepsOf_append, sleepsOf, sleepsOf_pushes]
    · simp [hf, sleepsOf_append, sleepsOf, sleepsOf_pushes]

/-- C1 (the code at the failing input): with a successful pull, two pushers of
which the second fails, and the delays 10 min (success) and 5 min (error), the
iteration sleeps the success-path delay; with two succeeding pushers it sleeps
the error-path delay. The claim states the opposite in both cases. -/
theorem C1_loop_swaps_delays :
    sleepsOf (iteration goodPull [okPusher, badPusher] tenMinutes fiveMinutes 0).2
        = [tenMinutes]
      ∧ sleepsOf (iteration goodPull [okPusher, okPusher] tenMinutes fiveMinutes 0).2
        = [fiveMinutes] := by
  constructor <;> rfl

/-- C9: in an iteration where PullPort returns an error, no Push is called (the
events are exactly the pull and one sleep, the world is the one PullPort left)
and the sleep is `delayError`. -/
theorem C9_pull_failure_skips_pushers {W : Type} (PullPort : W → W × (Int × Option Error))
    (pushers : List (PortPusher W)) (delaySuccess delayError : Duration) (w : W)
    (h : (PullPort w).2.2 ≠ none) :
    (iteration PullPort pushers delaySuccess delayError w).2
        = [Event.pull, Event.sleep delayError]
      ∧ pushesOf (iteration PullPort pushers delaySuccess delayError w).2 = []
      ∧ sleepsOf (iteration PullPort pushers delaySuccess delayError w).2 = [delayError]
      ∧ (iteration PullPort pushers delaySuccess delayError w).1 = (PullPort w).1 := by
  unfold iteration
  simp [h, pushesOf, sleepsOf]

theorem C9_pull_failure_skips_pushers_witness :
    (badPull 0).2.2 ≠ none
      ∧ (iteration badPull [okPusher, badPusher] tenMinutes fiveMinutes 0).2
          = [Event.pull, Event.sleep fiveMinutes]
      ∧ pushesOf (iteration badPull [okPusher, badPusher] tenMinutes fiveMinutes 0).2 = []
      ∧ sleepsOf (iteration badPull [okPusher, badPusher] tenMinutes fiveMinutes 0).2
          = [fiveMinutes]
      ∧ (iteration badPull [okPusher, badPusher] tenMinutes fiveMinutes 0).1 = (badPull 0).1 :=
  ⟨by decide,
   C9_pull_failure_skips_pushers badPull [okPusher, badPusher] tenMinutes fiveMinutes 0
     (by decide)⟩

/-- C10: in an iteration where PullPort succeeds with port `p`, the pushes are
exactly one per pusher, in the order of `pushers` (positions 0, 1, ...), each
with port `p`, whatever each Push returns; the final world is the one obtained
by running every Push once in that order. -/
theorem C10_every_pusher_called_once_in_order {W : Type}
    (PullPort : W → W × (Int × Option Error)) (pushers : List (PortPusher W))
    (delaySuccess delayError : Duration) (w : W) (p : Int)
    (h : (PullPort w).2 = (p, none)) :
    pushesOf (iteration PullPort pushers delaySuccess delayError w).2
        = (List.range pushers.length).map (fun i => (i, p))
      ∧ (iteration PullPort pushers delaySuccess delayError w).1
        = runAll pushers p (PullPort w).1 := by
  unfold iteration
  have h1 : (PullPort w).2.2 = none := by rw [h]
  have h2 : (PullPort w).2.1 = p := by rw [h]
  simp only [h1, h2, ne_eq, not_true_eq_false, if_false, pushAll_events, pushAll_world]
  constructor
  · split <;>
      simp [pushesOf_append, pushesOf, pushesOf_pushes, List.range_eq_range']
  · split <;> rfl

theorem C10_every_pusher_called_once_in_order_witness :
    (goodPull 0).2 = (12345, none)
      ∧ pushesOf (iteration goodPull [badPusher, okPusher, badPusher] tenMinutes fiveMinutes 0).2
          = (List.range [badPusher, okPusher, badPusher].length).map (fun i => (i, (12345 : Int)))
      ∧ (iteration goodPull [badPusher, okPusher, badPusher] tenMinutes fiveMinutes 0).1
          = runAll [badPusher, okPusher, badPusher] 12345 (goodPull 0).1 :=
  ⟨rfl,
   C10_every_pusher_called_once_in_order goodPull [badPusher, okPusher, badPusher]
     tenMinutes fiveMinutes 0 12345 rfl⟩

end orchestrator

namespace gluetun

/-- C8: when the status query and the portforwarded query both answer 200 with
a decodable body, reporting status `st` and port `p`, PullPort returns
`(q, nil)` exactly when `st` is "running", `p` is not 0 and `q` is `p`; status
"running" with port 0 returns `-1` and an error; a status other than "running"
returns `-1` and an error. -/
theorem C8_pullport_succeeds_iff_running_and_nonzero {σ : Type} (S : Sidecar σ) (c : Client)
    (w : Net σ) (st : String) (p : Int)
    (hb : c.requestBuilds = true)
    (hs : (S.status w.state).2 = .http 200 (.value { Status := st }))
    (hp : (S.portforwarded (S.status w.state).1).2 = .http 200 (.value { Port := p })) :
    (∀ q : Int, (PullPort S c w).2 = .ret (q, none) ↔ (st = "running" ∧ p ≠ 0 ∧ q = p))
      ∧ (st = "running" → p = 0 → (PullPort S c w).2 = .ret (-1, some .portZero))
      ∧ (st ≠ "running" → (PullPort S c w).2 = .ret (-1, some (.statusNotRunning st))) := by
  by_cases h1 : st = "running"
  · by_cases h2 : p = 0
    · have e : (PullPort S c w).2 = .ret (-1, some .portZero) := by
        simp [PullPort, doPullPort, hb, hs, hp, h1, h2]
      refine ⟨fun q => ?_, fun _ _ => e, fun h => absurd h1 h⟩
      rw [e]; simp [h2]
    · have e : (PullPort S c w).2 = .ret (p, none) := by
        simp [PullPort, doPullPort, hb, hs, hp, h1, h2]
      refine ⟨fun q => ?_, fun _ h => absurd h h2, fun h => absurd h1 h⟩
      rw [e]; simp [h1, h2, eq_comm]
  · have e : (PullPort S c w).2 = .ret (-1, some (.statusNotRunning st)) := by
      simp [PullPort, doPullPort, hb, hs, h1]
    refine ⟨fun q => ?_, fun h => absurd h h1, fun _ => e⟩
    rw [e]; simp [h1]

theorem C8_pullport_succeeds_iff_running_and_nonzero_witness :
    (∀ q : Int, (PullPort (fixedSidecar "running" 51820) someClient start).2 = .ret (q, none)
        ↔ (("running" : String) = "running" ∧ (51820 : Int) ≠ 0 ∧ q = 51820))
      ∧ (("running" : String) = "running" → (51820 : Int) = 0 →
          (PullPort (fixedSidecar "running" 51820) someClient start).2
            = .ret (-1, some .portZero))
      ∧ (("running" : String) ≠ "running" →
          (PullPort (fixedSidecar "running" 51820) someClient start).2
            = .ret (-1, some (.statusNotRunning "running"))) :=
  C8_pullport_succeeds_iff_running_and_nonzero (fixedSidecar "running" 51820) someClient start
    "running" 51820 rfl rfl rfl

/-- The three outcomes of PullPort on replies 200: a port, port 0, a stopped VPN. -/
theorem PullPort_examples :
    (PullPort (fixedSidecar "running" 51820) someClient start).2 = .ret (51820, none)
      ∧ (PullPort (fixedSidecar "running" 0) someClient start).2
          = .ret (-1, some .portZero)
      ∧ (PullPort (fixedSidecar "stopped" 51820) someClient start).2
          = .ret (-1, some (.statusNotRunning "stopped"))
      ∧ (PullPort (fixedSidecar "stopped" 51820) someClient start).1.trace = [Query.status] := by
  decide

end gluetun

namespace qbittorrent

theorem qbt_Push_eq_doPush {σ : Type} (S : Server σ) (c : Client) (port : Int) (w : Net σ) :
    Push S c port w = doPush S c port w := by
  unfold Push
  rcases h : doPush S c port w with ⟨w1, r⟩
  rcases r with (_ | e) | _ <;> rfl

theorem setPreferences_trace {σ : Type} (S : Server σ) (c : Client) (prefs : preferences)
    (w : Net σ) (hb : c.requestBuilds = true) :
    (setPreferences S c prefs w).1.trace = w.trace ++ [Request.setPreferences prefs] := by
  unfold setPreferences
  simp only [hb, Bool.true_eq_false, if_false]
  split
  · rfl
  · split <;> rfl

theorem setPreferences_state {σ : Type} (S : Server σ) (c : Client) (prefs : preferences)
    (w : Net σ) (hb : c.requestBuilds = true) :
    (setPreferences S c prefs w).1.state = (S.setPreferences w.state prefs).1 := by
  unfold setPreferences
  simp only [hb, Bool.true_eq_false, if_false]
  split
  · rfl
  · split <;> rfl

/-- What `doPush` does once the login is answered 200 and the preferences
request is answered 200 with the preferences `prefs`. -/
theorem doPush_after_read {σ : Type} (S : Server σ) (c : Client) (p : Int) (w : Net σ)
    (b : Body Unit) (prefs : preferences)
    (hb : c.requestBuilds = true)
    (hl : (S.login w.state c.user c.pass).2 = .http 200 b)
    (hg : (S.getPreferences (S.login w.state c.user c.pass).1).2 = .http 200 (.value prefs)) :
    doPush S c p w =
      if prefs.Port = p ∧ prefs.PortRandom = false then
        ({ state := (S.getPreferences (S.login w.state c.user c.pass).1).1,
           trace := w.trace ++ [Request.login c.user c.pass] ++ [Request.getPreferences] },
         .ret none)
      else
        ((setPreferences S c { Port := p, PortRandom := false }
            { state := (S.getPreferences (S.login w.state c.user c.pass).1).1,
              trace := w.trace ++ [Request.login c.user c.pass]
                ++ [Request.getPreferences] }).1,
         .ret (setPreferences S c { Port := p, PortRandom := false }
            { state := (S.getPreferences (S.login w.state c.user c.pass).1).1,
              trace := w.trace ++ [Request.login c.user c.pass]
                ++ [Request.getPreferences] }).2) := by
  unfold doPush
  simp only [login, getPreferences, hb, hl, hg, Bool.true_eq_false, if_false, ne_eq,
    not_true_eq_false]
  split
  · rfl
  · rcases h : setPreferences S c { Port := p, PortRandom := false }
      { state := (S.getPreferences (S.login w.state c.user c.pass).1).1,
        trace := w.trace ++ [Request.login c.user c.pass] ++ [Request.getPreferences] }
      with ⟨w3, _ | e⟩ <;> rfl

/-- C5: after a login answered 200 and a preferences reply `{listen_port: q,
random_port: r}`: if `q = p` and `r = false`, Push returns nil and the requests
it issued are the login and the read, no setPreferences; otherwise the requests
it issued are the login, the read and exactly one setPreferences whose payload
is `{listen_port: p, random_port: false}`. -/
theorem C5_qbittorrent_writes_iff_mismatch {σ : Type} (S : Server σ) (c : Client) (p : Int)
    (w : Net σ) (b : Body Unit) (q : Int) (r : Bool)
    (hb : c.requestBuilds = true)
    (hl : (S.login w.state c.user c.pass).2 = .http 200 b)
    (hg : (S.getPreferences (S.login w.state c.user c.pass).1).2
            = .http 200 (.value { Port := q, PortRandom := r })) :
    ((q = p ∧ r = false) →
        (Push S c p w).2 = .ret none
          ∧ (Push S c p w).1.trace
              = w.trace ++ [Request.login c.user c.pass, Request.getPreferences])
      ∧ (¬ (q = p ∧ r = false) →
        (Push S c p w).1.trace
          = w.trace ++ [Request.login c.user c.pass, Request.getPreferences,
              Request.setPreferences { Port := p, PortRandom := false }]) := by
  rw [qbt_Push_eq_doPush, doPush_after_read S c p w b _ hb hl hg]
  constructor
  · intro h
    simp [h]
  · intro h
    simp only [h, if_false]
    rw [setPreferences_trace S c _ _ hb]
    simp

theorem C5_qbittorrent_writes_iff_mismatch_witness :
    (((9999 : Int) = 12345 ∧ false = false) →
        (Push faithfulServer someClient 12345 (start { Port := 9999, PortRandom := false })).2
            = .ret none
          ∧ (Push faithfulServer someClient 12345
                (start { Port := 9999, PortRandom := false })).1.trace
              = (start { Port := 9999, PortRandom := false }).trace
                  ++ [Request.login someClient.user someClient.pass, Request.getPreferences])
      ∧ (¬ ((9999 : Int) = 12345 ∧ false = false) →
        (Push faithfulServer someClient 12345
            (start { Port := 9999, PortRandom := false })).1.trace
          = (start { Port := 9999, PortRandom := false }).trace
              ++ [Request.login someClient.user someClient.pass, Request.getPreferences,
                  Request.setPreferences { Port := 12345, PortRandom := false }]) :=
  C5_qbittorrent_writes_iff_mismatch faithfulServer someClient 12345
    (start { Port := 9999, PortRandom := false }) (.value ()) 9999 false rfl rfl rfl

end qbittorrent

namespace transmission

theorem tr_Push_eq_doPush {σ : Type} (S : Server σ) (c : Client) (port : Int) (w : Net σ) :
    Push S c port w = doPush S c port w := by
  unfold Push
  rcases h : doPush S c port w with ⟨c1, w1, r⟩
  rcases r with (_ | e) | _ <;> rfl

/-- When `init` returns nil it has sent exactly the handshake request, and the
client it leaves differs from the one it found only in the cached header
value and session id. -/
theorem init_none {σ : Type} (S : Server σ) (c c1 : Client) (w w1 : Net σ)
    (h : init S c w = (c1, w1, none)) :
    c1.requestBuilds = true ∧ c1.user = c.user ∧ c1.pass = c.pass
      ∧ w1.trace = w.trace ++ [handshake c]
      ∧ w1.state = (S.rpc w.state (handshake c)).1 := by
  unfold init at h
  by_cases hb : c.requestBuilds = false
  · simp [hb] at h
  · have hb1 : c.requestBuilds = true := by simpa using hb
    rcases hr : (S.rpc w.state (handshake c)).2 with _ | ⟨code, sid, body⟩
    · simp [handshake] at hr
      simp [hb1, send, getAuthToken, hr] at h
    · simp only [handshake] at hr
      simp only [hb1, send, getAuthToken, hr, Bool.true_eq_false, if_false] at h
      by_cases h401 : code = 401
      · simp only [h401, if_true, Prod.mk.injEq, and_true] at h
        obtain ⟨rfl, rfl⟩ := h
        simp [handshake, hb1]
      · by_cases h409 : code = 409
        · by_cases hsid : sid = ""
          · simp [h409, hsid] at h
          · simp only [h409, hsid, if_true, if_false, Prod.mk.injEq, and_true] at h
            simp only [show ¬ ((409 : Nat) = 401) by decide, if_false] at h
            obtain ⟨rfl, rfl⟩ := h
            simp [handshake, hb1]
        · simp [h401, h409] at h

/-- On a 401 answer to the handshake, `init` clears the session id and returns nil. -/
theorem init_unauthorized {σ : Type} (S : Server σ) (c : Client) (w : Net σ) (hdr : String)
    (b : Body response) (hb : c.requestBuilds = true)
    (h : (S.rpc w.state (handshake c)).2 = .http 401 hdr b) :
    (init S c w).1.sessionId = "" ∧ (init S c w).2.2 = none := by
  unfold handshake at h
  simp [init, hb, send, getAuthToken, h]

/-- The result of `getPortInfo` on a reply 200 with a decodable body. -/
theorem getPortInfo_ok {σ : Type} (S : Server σ) (c : Client) (w : Net σ) (hdr : String)
    (resp : response) (hb : c.requestBuilds = true)
    (h : (S.rpc w.state (sessionGet c)).2 = .http 200 hdr (.value resp)) :
    ∃ c2 w2, getPortInfo S c w
        = (c2, w2, .ret (.ok { PeerPort := resp.Arguments.PeerPort,
                               PeerPortRandom := resp.Arguments.PeerPortRandom }))
      ∧ c2.portInfo = some { PeerPort := resp.Arguments.PeerPort,
                             PeerPortRandom := resp.Arguments.PeerPortRandom }
      ∧ c2.requestBuilds = true ∧ c2.sessionId = c.sessionId
      ∧ c2.user = c.user ∧ c2.pass = c.pass
      ∧ w2.trace = w.trace ++ [sessionGet c]
      ∧ w2.state = (S.rpc w.state (sessionGet c)).1 := by
  unfold sessionGet at h
  simp only [getPortInfo, hb, send, getAuthToken, h, sessionGet, Bool.true_eq_false, if_false,
    ne_eq, not_true_eq_false]
  exact ⟨_, _, rfl, rfl, rfl, rfl, rfl, rfl, rfl, rfl⟩

/-- When `pushPort` finds the port already correct it returns nil and sends nothing. -/
theorem pushPort_noop {σ : Type} (S : Server σ) (c : Client) (p : Int) (w : Net σ)
    (info : portInfo) (hi : c.portInfo = some info)
    (h : info.PeerPort = p ∧ info.PeerPortRandom = false) :
    pushPort S c p w = (c, w, .ret none) := by
  simp [pushPort, hi, h]

/-- When `pushPort` finds a mismatch it sends exactly one `session-set`. -/
theorem pushPort_write {σ : Type} (S : Server σ) (c : Client) (p : Int) (w : Net σ)
    (info : portInfo) (hi : c.portInfo = some info) (hb : c.requestBuilds = true)
    (h : ¬ (info.PeerPort = p ∧ info.PeerPortRandom = false)) :
    (pushPort S c p w).2.1.trace = w.trace ++ [sessionSet c p]
      ∧ (pushPort S c p w).2.1.state = (S.rpc w.state (sessionSet c p)).1
      ∧ (pushPort S c p w).1.requestBuilds = true
      ∧ (pushPort S c p w).1.sessionId = c.sessionId
      ∧ (pushPort S c p w).1.user = c.user ∧ (pushPort S c p w).1.pass = c.pass := by
  unfold pushPort
  rcases hr : (S.rpc w.state (sessionSet c p)).2 with _ | ⟨code, sid, body⟩
  · simp only [sessionSet] at hr
    simp [hi, h, hb, send, getAuthToken, hr, sessionSet]
  · simp only [sessionSet] at hr
    by_cases hc : code = 200
    · cases body <;> simp [hi, h, hb, send, getAuthToken, hr, hc, sessionSet]
    · simp [hi, h, hb, send, getAuthToken, hr, hc, sessionSet]

/-- The trace of `doPush` is the trace of its last step. -/
theorem doPush_of_steps {σ : Type} (S : Server σ) (c c1 c2 : Client) (w w1 w2 : Net σ)
    (p : Int) (info : portInfo)
    (hi : init S c w = (c1, w1, none))
    (hg : getPortInfo S c1 w1 = (c2, w2, .ret (.ok info))) :
    (doPush S c p w).2.1 = (pushPort S c2 p w2).2.1
      ∧ (doPush S c p w).1 = (pushPort S c2 p w2).1
      ∧ ((pushPort S c2 p w2).2.2 = .ret none → (doPush S c p w).2.2 = .ret none)
      ∧ ((doPush S c p w).2.2 = .ret none → (pushPort S c2 p w2).2.2 = .ret none) := by
  unfold doPush
  simp only [hi, hg]
  rcases pushPort S c2 p w2 with ⟨c3, w3, (_ | e) | _⟩ <;> simp

/-- C6: after an `init` that returned nil and a session-get reply 200 with
peer-port `q` and peer-port-random-on-start `r`: if `q = p` and `r = false`,
Push returns nil and has issued the handshake and the session-get only;
otherwise it has issued, after them, exactly one session-set whose arguments
are peer-port `p` and peer-port-random-on-start false and whose session header
is the one the session-get request carried. -/
theorem C6_transmission_writes_iff_mismatch {σ : Type} (S : Server σ) (c c1 : Client)
    (w w1 : Net σ) (p q : Int) (r : Bool) (f : List String) (res hdr : String) (t : Int)
    (hi : init S c w = (c1, w1, none))
    (hg : (S.rpc w1.state { body := sessionGetBody, authorization := c.user ++ ":" ++ c.pass,
                            sessionId := some c1.sessionId }).2
            = .http 200 hdr (.value { Arguments := { PeerPort := q, PeerPortRandom := r,
                                                     Fields := f },
                                      Result := res, Tag := t })) :
    ((q = p ∧ r = false) →
        (Push S c p w).2.2 = .ret none
          ∧ (Push S c p w).2.1.trace
              = w.trace ++ [handshake c,
                  { body := sessionGetBody, authorization := c.user ++ ":" ++ c.pass,
                    sessionId := some c1.sessionId }])
      ∧ (¬ (q = p ∧ r = false) →
        (Push S c p w).2.1.trace
          = w.trace ++ [handshake c,
              { body := sessionGetBody, authorization := c.user ++ ":" ++ c.pass,
                sessionId := some c1.sessionId },
              { body := { Method := "session-set",
                          Arguments := { PeerPort := p, PeerPortRandom := false, Fields := [] },
                          Tag := 0 },
                authorization := c.user ++ ":" ++ c.pass,
                sessionId := some c1.sessionId }]) := by
  obtain ⟨hb, hu, hp, htr, -⟩ := init_none S c c1 w w1 hi
  have hg1 : (S.rpc w1.state (sessionGet c1)).2
      = .http 200 hdr (.value { Arguments := { PeerPort := q, PeerPortRandom := r,
                                               Fields := f }, Result := res, Tag := t }) := by
    simp only [sessionGet, hu, hp]; exact hg
  obtain ⟨c2, w2, hget, hinfo, hb2, hsid, hu2, hp2, htr2, -⟩ :=
    getPortInfo_ok S c1 w1 hdr _ hb hg1
  obtain ⟨e1, -, e3, -⟩ := doPush_of_steps S c c1 c2 w w1 w2 p _ hi hget
  rw [tr_Push_eq_doPush, e1]
  constructor
  · intro h
    have hn := pushPort_noop S c2 p w2 _ hinfo h
    refine ⟨e3 (by rw [hn]), ?_⟩
    rw [hn]
    simp [htr2, htr, sessionGet, hu, hp]
  · intro h
    have hw := (pushPort_write S c2 p w2 _ hinfo hb2 h).1
    rw [hw]
    simp [htr2, htr, sessionGet, sessionSet, sessionSetBody, hu, hp, hu2, hp2, hsid]

theorem C6_transmission_writes_iff_mismatch_witness :
    (((9999 : Int) = 12345 ∧ true = false) →
        (Push (faithfulServer "abc") someClient 12345
            (start { PeerPort := 9999, PeerPortRandom := true })).2.2 = .ret none
          ∧ (Push (faithfulServer "abc") someClient 12345
              (start { PeerPort := 9999, PeerPortRandom := true })).2.1.trace
              = (start { PeerPort := 9999, PeerPortRandom := true }).trace
                ++ [handshake someClient,
                  { body := sessionGetBody,
                    authorization := someClient.user ++ ":" ++ someClient.pass,
                    sessionId := some ({ someClient with authToken := "user:pass",
                                                          sessionId := "abc" } : Client).sessionId }])
      ∧ (¬ ((9999 : Int) = 12345 ∧ true = false) →
        (Push (faithfulServer "abc") someClient 12345
            (start { PeerPort := 9999, PeerPortRandom := true })).2.1.trace
          = (start { PeerPort := 9999, PeerPortRandom := true }).trace
            ++ [handshake someClient,
              { body := sessionGetBody,
                authorization := someClient.user ++ ":" ++ someClient.pass,
                sessionId := some ({ someClient with authToken := "user:pass",
                                                      sessionId := "abc" } : Client).sessionId },
              { body := { Method := "session-set",
                          Arguments := { PeerPort := 12345, PeerPortRandom := false,
                                         Fields := [] },
                          Tag := 0 },
                authorization := someClient.user ++ ":" ++ someClient.pass,
                sessionId := some ({ someClient with authToken := "user:pass",
                                                      sessionId := "abc" } : Client).sessionId }]) :=
  C6_transmission_writes_iff_mismatch (faithfulServer "abc") someClient
    { someClient with authToken := "user:pass", sessionId := "abc" }
    (start { PeerPort := 9999, PeerPortRandom := true })
    { state := { PeerPort := 9999, PeerPortRandom := true }, trace := [handshake someClient] }
    12345 9999 true [] "success" "" 0 (by decide) (by decide)

/-- C4 (the code at the failing input): the cached session id is "stale", the
handshake is answered 401 and the daemon then answers the session-get with
the desired port. `init` clears the session id but returns nil, so Push goes
on, issues the session-get with an empty session header and returns nil; the
claim says Push returns an error without issuing the session-get. -/
theorem C4_unauthorized_handshake_is_not_an_error :
    (Push unauthorizedServer { someClient with sessionId := "stale" } 12345
        (start { PeerPort := 12345, PeerPortRandom := false })).2.2 = .ret none
      ∧ (Push unauthorizedServer { someClient with sessionId := "stale" } 12345
          (start { PeerPort := 12345, PeerPortRandom := false })).1.sessionId = ""
      ∧ (Push unauthorizedServer { someClient with sessionId := "stale" } 12345
          (start { PeerPort := 12345, PeerPortRandom := false })).2.1.trace
        = [{ body := sessionGetBody, authorization := "user:pass", sessionId := none },
           { body := sessionGetBody, authorization := "user:pass", sessionId := some "" }] := by
  decide

end transmission

namespace deluge

/-- C3 (the code at the failing input): web.connected answers false and the
hosts are h1 (Offline), h2 (Online), h3 (Online). The loop has no `break`:
after connecting to h2 it asks for the status of h3 and connects to h3 too, so
two web.connect calls are issued, where the claim says exactly one. -/
theorem C3_connects_to_every_online_host :
    (Push faithfulServer someClient 12345
        (start { config := { RandomPort := false, ListenPorts := [12345, 12345] },
                 connected := false, hosts := threeHosts })).2.1.trace
      = [{ Method := "auth.login", Params := [.str "deluge"], Id := 1 },
         { Method := "web.connected", Params := [], Id := 2 },
         { Method := "web.get_hosts", Params := [], Id := 3 },
         { Method := "web.get_host_status", Params := [.str "h1"], Id := 4 },
         { Method := "web.get_host_status", Params := [.str "h2"], Id := 5 },
         { Method := "web.connect", Params := [.str "h2"], Id := 6 },
         { Method := "web.get_host_status", Params := [.str "h3"], Id := 7 },
         { Method := "web.connect", Params := [.str "h3"], Id := 8 },
         { Method := "core.get_config", Params := [], Id := 9 }]
      ∧ callsOf "web.connect"
          (Push faithfulServer someClient 12345
            (start { config := { RandomPort := false, ListenPorts := [12345, 12345] },
                     connected := false, hosts := threeHosts })).2.1.trace
        = [{ Method := "web.connect", Params := [.str "h2"], Id := 6 },
           { Method := "web.connect", Params := [.str "h3"], Id := 8 }] := by
  decide

theorem deluge_Push_eq_doPush {σ : Type} (S : Server σ) (c : Client) (port : Int) (w : Net σ) :
    Push S c port w = doPush S c port w := by
  unfold Push
  rcases h : doPush S c port w with ⟨c1, w1, r⟩
  rcases r with (_ | e) | _ <;> rfl

/-- Every call of `delugeRequest` takes the next message id. -/
theorem delugeRequest_client {σ : Type} (S : Server σ) (c : Client) (m : String)
    (ps : List Param) (w : Net σ) :
    (delugeRequest S c m ps w).1 = { c with nextMessageId := c.nextMessageId + 1 } := by
  unfold delugeRequest
  simp only [nextId]
  repeat' split
  all_goals rfl

/-- A call of `delugeRequest` whose request builds sends exactly that request. -/
theorem delugeRequest_net {σ : Type} (S : Server σ) (c : Client) (m : String)
    (ps : List Param) (w : Net σ) (hb : c.requestBuilds = true) :
    (delugeRequest S c m ps w).2.1
      = (send S w { Method := m, Params := ps, Id := c.nextMessageId + 1 }).1 := by
  unfold delugeRequest
  simp only [hb, Bool.true_eq_false, if_false, nextId]
  repeat' split
  all_goals rfl

theorem getConfig_client {σ : Type} (S : Server σ) (c : Client) (w : Net σ) :
    (getConfig S c w).1 = { c with nextMessageId := c.nextMessageId + 1 } := by
  unfold getConfig
  simp only [nextId]
  repeat' split
  all_goals rfl

theorem getConfig_net {σ : Type} (S : Server σ) (c : Client) (w : Net σ)
    (hb : c.requestBuilds = true) :
    (getConfig S c w).2.1
      = (send S w { Method := "core.get_config", Params := [], Id := c.nextMessageId + 1 }).1 := by
  unfold getConfig
  simp only [hb, Bool.true_eq_false, if_false, nextId]
  repeat' split
  all_goals rfl

theorem setConfig_client {σ : Type} (S : Server σ) (c : Client) (port : Int) (w : Net σ) :
    (setConfig S c port w).1 = { c with nextMessageId := c.nextMessageId + 1 } := by
  unfold setConfig
  simp only [nextId]
  repeat' split
  all_goals rfl

theorem setConfig_net {σ : Type} (S : Server σ) (c : Client) (port : Int) (w : Net σ)
    (hb : c.requestBuilds = true) :
    (setConfig S c port w).2.1
      = (send S w { Method := "core.set_config", Params := [paramMap port],
                    Id := c.nextMessageId + 1 }).1 := by
  unfold setConfig
  simp only [hb, Bool.true_eq_false, if_false, nextId]
  repeat' split
  all_goals rfl

/-- The result of `getConfig` on a reply 200 whose envelope has no error object. -/
theorem getConfig_ok {σ : Type} (S : Server σ) (c : Client) (w : Net σ)
    (g : Body genericResponse) (i : Int) (cfg : config) (hb : c.requestBuilds = true)
    (h : (S.post w.state { Method := "core.get_config", Params := [],
                           Id := c.nextMessageId + 1 }).2
          = .http 200 g (.value { Error := none, Id := i, Result := cfg })) :
    (getConfig S c w).2.2 = .ret (.ok cfg) := by
  simp [getConfig, hb, nextId, send, h]

/-- C7: let a Push(p) started from `(c0, w0)` reach the Configure step (the part
of doPush from `c.getConfig()` on) with client `c` and network `w`, and let
core.get_config be answered 200 without error object and with a listen_ports
list `first :: rest`. If `first` is the desired port `p`, Push returns nil and
after reaching the step has sent the core.get_config only; otherwise it has
sent the core.get_config and then exactly one core.set_config whose single
parameter is `{listen_ports: [p, p], random_port: false}`. -/
theorem C7_deluge_configure_writes_iff_first_differs {σ : Type} (S : Server σ)
    (c0 c : Client) (p : Int) (w0 w : Net σ) (g : Body genericResponse) (i : Int) (r : Bool)
    (first : Int) (rest : List Int)
    (hreach : doPush S c0 p w0 = configure S c p w)
    (hb : c.requestBuilds = true)
    (h : (S.post w.state { Method := "core.get_config", Params := [],
                           Id := c.nextMessageId + 1 }).2
          = .http 200 g (.value { Error := none, Id := i,
                                  Result := { RandomPort := r,
                                              ListenPorts := first :: rest } })) :
    (first = p →
        (Push S c0 p w0).2.2 = .ret none
          ∧ (Push S c0 p w0).2.1.trace
              = w.trace ++ [{ Method := "core.get_config", Params := [],
                              Id := c.nextMessageId + 1 }])
      ∧ (first ≠ p →
        (Push S c0 p w0).2.1.trace
          = w.trace ++ [{ Method := "core.get_config", Params := [],
                          Id := c.nextMessageId + 1 },
                        { Method := "core.set_config",
                          Params := [.map [("listen_ports", .ints [p, p]),
                                           ("random_port", .bool false)]],
                          Id := c.nextMessageId + 2 }]) := by
  rw [deluge_Push_eq_doPush, hreach]
  have hr := getConfig_ok S c w g i _ hb h
  have hc := getConfig_client S c w
  have hn := getConfig_net S c w hb
  rcases hgc : getConfig S c w with ⟨c1, w1, res⟩
  rw [hgc] at hr hc hn
  simp only at hr hc hn
  subst hr hc hn
  unfold configure
  simp only [hgc]
  constructor
  · intro hp
    simp [hp, send]
  · intro hp
    have hp' : ¬ (p = first) := fun e => hp e.symm
    simp only [hp', if_false]
    have hb1 : ({ c with nextMessageId := c.nextMessageId + 1 } : Client).requestBuilds
        = true := hb
    have hs := setConfig_net S { c with nextMessageId := c.nextMessageId + 1 } p
      (send S w { Method := "core.get_config", Params := [], Id := c.nextMessageId + 1 }).1 hb1
    rcases hsc : setConfig S { c with nextMessageId := c.nextMessageId + 1 } p
      (send S w { Method := "core.get_config", Params := [], Id := c.nextMessageId + 1 }).1
      with ⟨c2, w2, (_ | e) | _⟩ <;>
    · rw [hsc] at hs
      simp only at hs
      subst hs
      simp [send, paramMap, add_assoc]

theorem C7_deluge_configure_writes_iff_first_differs_witness :
    ((9999 : Int) = 12345 →
        (Push faithfulServer someClient 12345
            (start { config := { RandomPort := true, ListenPorts := [9999, 9999] },
                     connected := true, hosts := [] })).2.2 = .ret none
          ∧ (Push faithfulServer someClient 12345
              (start { config := { RandomPort := true, ListenPorts := [9999, 9999] },
                       connected := true, hosts := [] })).2.1.trace
              = [{ Method := "auth.login", Params := [.str "deluge"], Id := 1 },
                 { Method := "web.connected", Params := [], Id := 2 }]
                ++ [{ Method := "core.get_config", Params := [], Id := 2 + 1 }])
      ∧ ((9999 : Int) ≠ 12345 →
        (Push faithfulServer someClient 12345
            (start { config := { RandomPort := true, ListenPorts := [9999, 9999] },
                     connected := true, hosts := [] })).2.1.trace
          = [{ Method := "auth.login", Params := [.str "deluge"], Id := 1 },
             { Method := "web.connected", Params := [], Id := 2 }]
            ++ [{ Method := "core.get_config", Params := [], Id := 2 + 1 },
                { Method := "core.set_config",
                  Params := [.map [("listen_ports", .ints [12345, 12345]),
                                   ("random_port", .bool false)]],
                  Id := 2 + 2 }]) :=
  C7_deluge_configure_writes_iff_first_differs faithfulServer someClient
    { someClient with nextMessageId := 2 } 12345
    (start { config := { RandomPort := true, ListenPorts := [9999, 9999] },
             connected := true, hosts := [] })
    { state := { config := { RandomPort := true, ListenPorts := [9999, 9999] },
                 connected := true, hosts := [] },
      trace := [{ Method := "auth.login", Params := [.str "deluge"], Id := 1 },
                { Method := "web.connected", Params := [], Id := 2 }] }
    (.value { Error := none, Id := 3, Result := .other }) 3 true 9999 [9999]
    (by decide) rfl (by decide)

end deluge

namespace qbittorrent

theorem writesOf_append (a b : List Request) : writesOf (a ++ b) = writesOf a ++ writesOf b := by
  induction a with
  | nil => rfl
  | cons x xs ih => cases x <;> simp [writesOf, ih]

/-- A `doPush` that returns nil was made by a client whose requests build. -/
theorem qbt_doPush_builds {σ : Type} (S : Server σ) (c : Client) (p : Int) (w : Net σ)
    (h : (doPush S c p w).2 = .ret none) : c.requestBuilds = true := by
  by_contra hb
  have hb' : c.requestBuilds = false := by simpa using hb
  simp [doPush, login, hb'] at h

/-- Against a faithful backend that already holds port `p` with the random flag
off, `doPush` returns nil after the login and the read, and writes nothing. -/
theorem qbt_doPush_converged {σ : Type} (S : Server σ) (view : σ → preferences)
    (F : Faithful S view) (c : Client) (p : Int) (w : Net σ) (hb : c.requestBuilds = true)
    (hv : view w.state = { Port := p, PortRandom := false }) :
    (doPush S c p w).2 = .ret none
      ∧ (doPush S c p w).1.trace
          = w.trace ++ [Request.login c.user c.pass, Request.getPreferences]
      ∧ view (doPush S c p w).1.state = { Port := p, PortRandom := false } := by
  obtain ⟨b, hl⟩ := F.login_reply w.state c.user c.pass
  have hg := F.read_reply (S.login w.state c.user c.pass).1
  rw [F.login_view, hv] at hg
  rw [doPush_after_read S c p w b _ hb hl hg]
  simp only [and_self, if_true, List.append_assoc, List.singleton_append, true_and]
  rw [F.read_view, F.login_view, hv]

/-- Against a faithful backend, a `doPush` that returns nil leaves the backend
with port `p` and the random flag off, having written at most once. -/
theorem qbt_doPush_converges {σ : Type} (S : Server σ) (view : σ → preferences)
    (F : Faithful S view) (c : Client) (p : Int) (w : Net σ)
    (h : (doPush S c p w).2 = .ret none) :
    view (doPush S c p w).1.state = { Port := p, PortRandom := false }
      ∧ ∃ t, (doPush S c p w).1.trace = w.trace ++ t ∧ (writesOf t).length ≤ 1 := by
  have hb := qbt_doPush_builds S c p w h
  obtain ⟨b, hl⟩ := F.login_reply w.state c.user c.pass
  have hg := F.read_reply (S.login w.state c.user c.pass).1
  rw [doPush_after_read S c p w b _ hb hl hg]
  by_cases hc : (view (S.login w.state c.user c.pass).1).Port = p
      ∧ (view (S.login w.state c.user c.pass).1).PortRandom = false
  · simp only [hc, and_self, if_true]
    refine ⟨?_, [Request.login c.user c.pass, Request.getPreferences], by simp, by simp [writesOf]⟩
    rw [F.read_view]
    rcases hv : view (S.login w.state c.user c.pass).1 with ⟨q, r⟩
    rw [hv] at hc
    simp only at hc
    rw [hc.1, hc.2]
  · simp only [hc, if_false]
    rw [setPreferences_state S c _ _ hb, setPreferences_trace S c _ _ hb]
    refine ⟨F.write_view _ _, [Request.login c.user c.pass, Request.getPreferences,
      Request.setPreferences { Port := p, PortRandom := false }], by simp, by simp [writesOf]⟩

/-- Idempotence of the qBittorrent adapter against a faithful backend. -/
theorem qbt_idempotent {σ : Type} (S : Server σ) (view : σ → preferences)
    (F : Faithful S view) (c : Client) (p : Int) (w : Net σ)
    (h : (Push S c p w).2 = .ret none) :
    (Push S c p (Push S c p w).1).2 = .ret none
      ∧ ∃ t1 t2, (Push S c p w).1.trace = w.trace ++ t1
          ∧ (Push S c p (Push S c p w).1).1.trace = w.trace ++ t1 ++ t2
          ∧ writesOf t2 = []
          ∧ (writesOf (t1 ++ t2)).length ≤ 1 := by
  rw [qbt_Push_eq_doPush] at h
  simp only [qbt_Push_eq_doPush]
  have hb := qbt_doPush_builds S c p w h
  obtain ⟨hv, t1, ht1, hlen⟩ := qbt_doPush_converges S view F c p w h
  obtain ⟨h2, htr2, -⟩ := qbt_doPush_converged S view F c p (doPush S c p w).1 hb hv
  refine ⟨h2, t1, [Request.login c.user c.pass, Request.getPreferences], ht1, ?_, by simp [writesOf],
    ?_⟩
  · rw [htr2, ht1]
  · rw [writesOf_append]
    simpa [writesOf] using hlen

theorem qbt_faithfulServer_faithful : Faithful faithfulServer (fun s => s) :=
  { login_reply := fun _ _ _ => ⟨_, rfl⟩
    login_view := fun _ _ _ => rfl
    read_reply := fun _ => rfl
    read_view := fun _ => rfl
    write_reply := fun _ _ => ⟨_, rfl⟩
    write_view := fun _ _ => rfl }

end qbittorrent

namespace transmission

/-- A `doPush` that returns nil was made by a client whose requests build. -/
theorem tr_doPush_builds {σ : Type} (S : Server σ) (c : Client) (p : Int) (w : Net σ)
    (h : (doPush S c p w).2.2 = .ret none) : c.requestBuilds = true := by
  by_contra hb
  have hb' : c.requestBuilds = false := by simpa using hb
  simp [doPush, init, hb'] at h

/-- On a 409 answer carrying a non-empty session id, `init` stores the id and returns nil. -/
theorem init_conflict {σ : Type} (S : Server σ) (c : Client) (w : Net σ) (sid : String)
    (b : Body response) (hb : c.requestBuilds = true) (hs : sid ≠ "")
    (h : (S.rpc w.state (handshake c)).2 = .http 409 sid b) :
    ∃ c1 w1, init S c w = (c1, w1, none) ∧ c1.sessionId = sid ∧ c1.requestBuilds = true
      ∧ c1.user = c.user ∧ c1.pass = c.pass
      ∧ w1.trace = w.trace ++ [handshake c]
      ∧ w1.state = (S.rpc w.state (handshake c)).1 := by
  unfold handshake at h
  simp only [init, hb, send, getAuthToken, h, Bool.true_eq_false, if_false, hs,
    show ¬ ((409 : Nat) = 401) by decide, if_true, handshake]
  exact ⟨_, _, rfl, rfl, rfl, rfl, rfl, rfl, rfl⟩

theorem callsOf_append (m : String) (a b : List HttpRequest) :
    callsOf m (a ++ b) = callsOf m a ++ callsOf m b := by
  simp [callsOf]

/-- What `doPush` does against a faithful backend: it sends the handshake and
the read; when the backend holds port `p` with the random flag off it returns
nil and sends nothing more, otherwise it sends one `session-set` after which
the backend holds port `p` with the random flag off. -/
theorem tr_doPush_faithful {σ : Type} (S : Server σ) (view : σ → portInfo) (sid : String)
    (F : Faithful S view sid) (c : Client) (p : Int) (w : Net σ)
    (hb : c.requestBuilds = true) :
    (doPush S c p w).1.requestBuilds = true
      ∧ ((view w.state = { PeerPort := p, PeerPortRandom := false }
            ∧ (doPush S c p w).2.2 = .ret none
            ∧ view (doPush S c p w).2.1.state = { PeerPort := p, PeerPortRandom := false }
            ∧ (doPush S c p w).2.1.trace
                = w.trace ++ [handshake c,
                    { body := sessionGetBody, authorization := c.user ++ ":" ++ c.pass,
                      sessionId := some sid }])
          ∨ (view w.state ≠ { PeerPort := p, PeerPortRandom := false }
            ∧ view (doPush S c p w).2.1.state = { PeerPort := p, PeerPortRandom := false }
            ∧ (doPush S c p w).2.1.trace
                = w.trace ++ [handshake c,
                    { body := sessionGetBody, authorization := c.user ++ ":" ++ c.pass,
                      sessionId := some sid },
                    { body := sessionSetBody p, authorization := c.user ++ ":" ++ c.pass,
                      sessionId := some sid }])) := by
  obtain ⟨b, hh⟩ := F.handshake_reply w.state (handshake c) rfl
  obtain ⟨c1, w1, hi, hsid, hb1, hu1, hp1, htr1, hst1⟩ :=
    init_conflict S c w sid b hb F.sid_ne hh
  have hv1 : view w1.state = view w.state := by
    rw [hst1]; exact F.handshake_view _ _ rfl
  have hsg : (sessionGet c1).sessionId = some sid := by simp [sessionGet, hsid]
  obtain ⟨hdr, f, res, t, hg⟩ := F.get_reply w1.state (sessionGet c1) hsg rfl
  obtain ⟨c2, w2, hget, hinfo, hb2, hsid2, hu2, hp2, htr2, hst2⟩ :=
    getPortInfo_ok S c1 w1 hdr _ hb1 hg
  have hv2 : view w2.state = view w.state := by
    rw [hst2, F.get_view _ _ hsg rfl, hv1]
  obtain ⟨e1, e2, e3, -⟩ := doPush_of_steps S c c1 c2 w w1 w2 p _ hi hget
  simp only at hinfo
  rw [e1, e2]
  by_cases hc : (view w1.state).PeerPort = p ∧ (view w1.state).PeerPortRandom = false
  · have hn := pushPort_noop S c2 p w2 _ hinfo hc
    have hvw : view w.state = { PeerPort := p, PeerPortRandom := false } := by
      rw [← hv1]
      rcases hv : view w1.state with ⟨q, r⟩
      rw [hv] at hc
      simp only at hc
      rw [hc.1, hc.2]
    refine ⟨by rw [hn]; exact hb2, Or.inl ⟨hvw, e3 (by rw [hn]), ?_, ?_⟩⟩
    · rw [hn]; simp only; rw [hv2, hvw]
    · rw [hn]; simp [htr2, htr1, sessionGet, hu1, hp1, hsid]
  · obtain ⟨hw1, hw2, hw3, -⟩ := pushPort_write S c2 p w2 _ hinfo hb2 hc
    have hss : (sessionSet c2 p).sessionId = some sid := by simp [sessionSet, hsid2, hsid]
    refine ⟨hw3, Or.inr ⟨?_, ?_, ?_⟩⟩
    · intro hvw
      apply hc
      rw [hv1, hvw]
      exact ⟨rfl, rfl⟩
    · rw [hw2, F.set_view _ _ hss rfl]
      rfl
    · rw [hw1]
      simp [htr2, htr1, sessionGet, sessionSet, hu1, hp1, hu2, hp2, hsid, hsid2]

/-- Idempotence of the Transmission adapter against a faithful backend. -/
theorem tr_idempotent {σ : Type} (S : Server σ) (view : σ → portInfo) (sid : String)
    (F : Faithful S view sid) (c : Client) (p : Int) (w : Net σ)
    (h : (Push S c p w).2.2 = .ret none) :
    (Push S (Push S c p w).1 p (Push S c p w).2.1).2.2 = .ret none
      ∧ ∃ t1 t2, (Push S c p w).2.1.trace = w.trace ++ t1
          ∧ (Push S (Push S c p w).1 p (Push S c p w).2.1).2.1.trace = w.trace ++ t1 ++ t2
          ∧ callsOf "session-set" t2 = []
          ∧ (callsOf "session-set" (t1 ++ t2)).length ≤ 1 := by
  rw [tr_Push_eq_doPush] at h
  simp only [tr_Push_eq_doPush]
  have hb := tr_doPush_builds S c p w h
  obtain ⟨hb1, h1⟩ := tr_doPush_faithful S view sid F c p w hb
  have hv1 : view (doPush S c p w).2.1.state = { PeerPort := p, PeerPortRandom := false } := by
    rcases h1 with ⟨-, -, hv, -⟩ | ⟨-, hv, -⟩ <;> exact hv
  obtain ⟨-, h2⟩ := tr_doPush_faithful S view sid F (doPush S c p w).1 p (doPush S c p w).2.1 hb1
  rcases h2 with ⟨-, hr2, -, htr2⟩ | ⟨hne, -, -⟩
  · refine ⟨hr2, ?_⟩
    rcases h1 with ⟨-, -, -, htr1⟩ | ⟨-, -, htr1⟩
    · refine ⟨_, _, htr1, by rw [htr2, htr1], ?_, ?_⟩
      · simp [callsOf, sessionGetBody, handshake]
      · simp [callsOf, sessionGetBody, handshake]
    · refine ⟨_, _, htr1, by rw [htr2, htr1], ?_, ?_⟩
      · simp [callsOf, sessionGetBody, handshake]
      · simp [callsOf, sessionGetBody, sessionSetBody, handshake]
  · exact absurd hv1 hne

theorem tr_faithfulServer_faithful (sid : String) (h : sid ≠ "") :
    Faithful (faithfulServer sid) (fun s => s) sid :=
  { sid_ne := h
    handshake_reply := fun s req hreq => ⟨.malformed, by simp [faithfulServer, hreq]⟩
    handshake_view := fun s req hreq => by simp [faithfulServer, hreq]
    get_reply := fun s req hreq hm =>
      ⟨"", [], "success", 0, by simp [faithfulServer, hreq, hm]⟩
    get_view := fun s req hreq hm => by simp [faithfulServer, hreq, hm]
    set_reply := fun s req hreq hm =>
      ⟨"", .value { Arguments := { PeerPort := 0, PeerPortRandom := false, Fields := [] },
                    Result := "success", Tag := 0 },
       by simp [faithfulServer, hreq, hm]⟩
    set_view := fun s req hreq hm => by simp [faithfulServer, hreq, hm] }

end transmission

namespace deluge

theorem deluge_callsOf_append (m : String) (a b : List request) :
    callsOf m (a ++ b) = callsOf m a ++ callsOf m b := by
  simp [callsOf]

theorem Reads_refl {σ : Type} (cfg : σ → config) (conn : σ → Bool) (x : Client × Net σ) :
    Reads cfg conn x x :=
  ⟨rfl, rfl, fun h => h, [], by simp, rfl⟩

theorem Reads_trans {σ : Type} (cfg : σ → config) (conn : σ → Bool) (x y z : Client × Net σ)
    (h1 : Reads cfg conn x y) (h2 : Reads cfg conn y z) : Reads cfg conn x z := by
  obtain ⟨a1, a2, a3, t, a4, a5⟩ := h1
  obtain ⟨b1, b2, b3, u, b4, b5⟩ := h2
  refine ⟨b1.trans a1, b2.trans a2, fun h => b3 (a3 h), t ++ u, ?_, ?_⟩
  · rw [b4, a4, List.append_assoc]
  · rw [deluge_callsOf_append, a5, b5]; rfl

/-- The network after `delugeRequest`, whether or not the request builds. -/
theorem delugeRequest_net_if {σ : Type} (S : Server σ) (c : Client) (m : String)
    (ps : List Param) (w : Net σ) :
    (delugeRequest S c m ps w).2.1
      = if c.requestBuilds = false then w
        else (send S w { Method := m, Params := ps, Id := c.nextMessageId + 1 }).1 := by
  by_cases hb : c.requestBuilds = false
  · simp [delugeRequest, hb]
  · have hb1 : c.requestBuilds = true := by simpa using hb
    rw [delugeRequest_net S c m ps w hb1]
    simp [hb1]

theorem getConfig_net_if {σ : Type} (S : Server σ) (c : Client) (w : Net σ) :
    (getConfig S c w).2.1
      = if c.requestBuilds = false then w
        else (send S w { Method := "core.get_config", Params := [],
                         Id := c.nextMessageId + 1 }).1 := by
  by_cases hb : c.requestBuilds = false
  · simp [getConfig, hb]
  · have hb1 : c.requestBuilds = true := by simpa using hb
    rw [getConfig_net S c w hb1]
    simp [hb1]

theorem handled_client {σ : Type}
    (f : Except Error genericResponse → Go (Except Error response))
    (r : Client × Net σ × Go (Except Error genericResponse)) : (handled f r).1 = r.1 := by
  unfold handled
  split <;> rfl

theorem handled_net {σ : Type}
    (f : Except Error genericResponse → Go (Except Error response))
    (r : Client × Net σ × Go (Except Error genericResponse)) : (handled f r).2.1 = r.2.1 := by
  unfold handled
  split <;> rfl

/-- Sending a request that is not `core.set_config` to a faithful backend is a read. -/
theorem send_Reads {σ : Type} (S : Server σ) (cfg : σ → config) (conn : σ → Bool)
    (F : Faithful S cfg conn) (c c1 : Client) (w : Net σ) (req : request)
    (hm : req.Method ≠ "core.set_config") (hc : c1.requestBuilds = c.requestBuilds) :
    Reads cfg conn (c, w) (c1, (send S w req).1) := by
  refine ⟨hc, F.cfg_kept _ _ hm, F.conn_kept _ _, [req], rfl, ?_⟩
  simp [callsOf, hm]

/-- A handled `delugeRequest` whose method is not `core.set_config` is a read. -/
theorem call_Reads {σ : Type} (S : Server σ) (cfg : σ → config) (conn : σ → Bool)
    (F : Faithful S cfg conn) (f : Except Error genericResponse → Go (Except Error response))
    (c : Client) (m : String) (ps : List Param) (w : Net σ) (hm : m ≠ "core.set_config") :
    Reads cfg conn (c, w)
      ((handled f (delugeRequest S c m ps w)).1, (handled f (delugeRequest S c m ps w)).2.1) := by
  rw [handled_client, handled_net, delugeRequest_client, delugeRequest_net_if]
  by_cases hb : c.requestBuilds = false
  · rw [if_pos hb]
    exact ⟨rfl, rfl, fun h => h, [], by simp, rfl⟩
  · rw [if_neg hb]
    exact send_Reads S cfg conn F c _ w _ hm rfl

/-- The call `getConfig` against a faithful backend is a read. -/
theorem getConfig_Reads {σ : Type} (S : Server σ) (cfg : σ → config) (conn : σ → Bool)
    (F : Faithful S cfg conn) (c : Client) (w : Net σ) :
    Reads cfg conn (c, w) ((getConfig S c w).1, (getConfig S c w).2.1) := by
  rw [getConfig_client, getConfig_net_if]
  have hm : ({ Method := "core.get_config", Params := [],
               Id := c.nextMessageId + 1 } : request).Method ≠ "core.set_config" := by
    show "core.get_config" ≠ "core.set_config"
    decide
  by_cases hb : c.requestBuilds = false
  · rw [if_pos hb]
    exact ⟨rfl, rfl, fun h => h, [], by simp, rfl⟩
  · rw [if_neg hb]
    exact send_Reads S cfg conn F c _ w _ hm rfl

/-- A handled `delugeRequest` that returns a response was sent. -/
theorem call_ok_builds {σ : Type} (S : Server σ)
    (f : Except Error genericResponse → Go (Except Error response))
    (hf : ∀ e, f (.error e) = .ret (.error e))
    (c : Client) (m : String) (ps : List Param) (w : Net σ) (r : response)
    (h : (handled f (delugeRequest S c m ps w)).2.2 = .ret (.ok r)) :
    c.requestBuilds = true := by
  by_contra hb
  have hb' : c.requestBuilds = false := by simpa using hb
  simp [handled, delugeRequest, hb', hf] at h

/-- After a `web.connect` that returned a response, a faithful backend is connected. -/
theorem webConnect_ok_conn {σ : Type} (S : Server σ) (cfg : σ → config) (conn : σ → Bool)
    (F : Faithful S cfg conn) (c : Client) (id : String) (w : Net σ) (r : response)
    (h : (webConnect S c id w).2.2 = .ret (.ok r)) :
    conn (webConnect S c id w).2.1.state = true := by
  have hb := call_ok_builds S stringsSliceHandler (fun _ => rfl) c _ _ w r h
  unfold webConnect
  rw [handled_net, delugeRequest_net S c _ _ w hb]
  exact F.connect_conn _ _ rfl

/-- Against a faithful backend `login` returns a response. -/
theorem login_faithful {σ : Type} (S : Server σ) (cfg : σ → config) (conn : σ → Bool)
    (F : Faithful S cfg conn) (c : Client) (w : Net σ) (hb : c.requestBuilds = true) :
    ∃ r, (login S c w).2.2 = .ret (.ok r) := by
  obtain ⟨i, b, cf, h⟩ := F.login_reply w.state
    { Method := "auth.login", Params := [.str c.pass], Id := c.nextMessageId + 1 } rfl
  exact ⟨_, by simp [login, handled, delugeRequest, hb, nextId, send, h, boolHandler]; rfl⟩

/-- Against a faithful backend `webConnected` returns the connection state. -/
theorem webConnected_faithful {σ : Type} (S : Server σ) (cfg : σ → config) (conn : σ → Bool)
    (F : Faithful S cfg conn) (c : Client) (w : Net σ) (hb : c.requestBuilds = true) :
    ∃ r, (webConnected S c w).2.2 = .ret (.ok r) ∧ r.ResultBool = conn w.state := by
  obtain ⟨i, cf, h⟩ := F.connected_reply w.state
    { Method := "web.connected", Params := [], Id := c.nextMessageId + 1 } rfl
  exact ⟨{ response.of { Error := none, Id := i, Result := .bool (conn w.state) } with
            ResultBool := conn w.state },
    by simp [webConnected, handled, delugeRequest, hb, nextId, send, h, boolHandler], rfl⟩

theorem login_Reads {σ : Type} (S : Server σ) (cfg : σ → config) (conn : σ → Bool)
    (F : Faithful S cfg conn) (c : Client) (w : Net σ) :
    Reads cfg conn (c, w) ((login S c w).1, (login S c w).2.1) :=
  call_Reads S cfg conn F boolHandler c "auth.login" [.str c.pass] w (by decide)

theorem webConnected_Reads {σ : Type} (S : Server σ) (cfg : σ → config) (conn : σ → Bool)
    (F : Faithful S cfg conn) (c : Client) (w : Net σ) :
    Reads cfg conn (c, w) ((webConnected S c w).1, (webConnected S c w).2.1) :=
  call_Reads S cfg conn F boolHandler c "web.connected" [] w (by decide)

theorem getHosts_Reads {σ : Type} (S : Server σ) (cfg : σ → config) (conn : σ → Bool)
    (F : Faithful S cfg conn) (c : Client) (w : Net σ) :
    Reads cfg conn (c, w) ((getHosts S c w).1, (getHosts S c w).2.1) :=
  call_Reads S cfg conn F hostsSliceHandler c "web.get_hosts" [] w (by decide)

theorem getHostStatus_Reads {σ : Type} (S : Server σ) (cfg : σ → config) (conn : σ → Bool)
    (F : Faithful S cfg conn) (c : Client) (id : String) (w : Net σ) :
    Reads cfg conn (c, w) ((getHostStatus S c id w).1, (getHostStatus S c id w).2.1) :=
  call_Reads S cfg conn F hostStatusHandler c "web.get_host_status" [.str id] w (by decide)

theorem webConnect_Reads {σ : Type} (S : Server σ) (cfg : σ → config) (conn : σ → Bool)
    (F : Faithful S cfg conn) (c : Client) (id : String) (w : Net σ) :
    Reads cfg conn (c, w) ((webConnect S c id w).1, (webConnect S c id w).2.1) :=
  call_Reads S cfg conn F stringsSliceHandler c "web.connect" [.str id] w (by decide)

/-- The host loop against a faithful backend only reads, and when it ends with
`connected` true that was so at its start or the backend is connected. -/
theorem connectHosts_Reads {σ : Type} (S : Server σ) (cfg : σ → config) (conn : σ → Bool)
    (F : Faithful S cfg conn) (hs : List host) (b : Bool) (c : Client) (w : Net σ) :
    Reads cfg conn (c, w) ((connectHosts S hs b c w).1, (connectHosts S hs b c w).2.1)
      ∧ ((connectHosts S hs b c w).2.2 = .ret (.ok true) →
          b = true ∨ conn (connectHosts S hs b c w).2.1.state = true) := by
  induction hs generalizing b c w with
  | nil =>
    simp only [connectHosts]
    exact ⟨Reads_refl cfg conn _, fun h => Or.inl (by simpa using h)⟩
  | cons h hs ih =>
    have R1 := getHostStatus_Reads S cfg conn F c h.Id w
    rcases hgs : getHostStatus S c h.Id w with ⟨c1, w1, r1⟩
    rw [hgs] at R1
    simp only at R1
    unfold connectHosts
    rcases r1 with (e | res) | _
    · simp only [hgs]
      exact ⟨R1, fun h => by simp at h⟩
    · simp only [hgs]
      by_cases hon : res.ResultHostStatus.Status = "Online"
      · simp only [hon, if_true]
        have R2 := webConnect_Reads S cfg conn F c1 h.Id w1
        have C2 := webConnect_ok_conn S cfg conn F c1 h.Id w1
        rcases hwc : webConnect S c1 h.Id w1 with ⟨c2, w2, r2⟩
        rw [hwc] at R2 C2
        simp only at R2 C2
        rcases r2 with (e | res2) | _
        · exact ⟨Reads_trans cfg conn _ _ _ R1 R2, fun h => by simp at h⟩
        · simp only
          obtain ⟨R3, -⟩ := ih true c2 w2
          refine ⟨Reads_trans cfg conn _ _ _ (Reads_trans cfg conn _ _ _ R1 R2) R3, fun _ => ?_⟩
          exact Or.inr (R3.2.2.1 (C2 res2 rfl))
        · exact ⟨Reads_trans cfg conn _ _ _ R1 R2, fun h => by simp at h⟩
      · simp only [hon, if_false]
        obtain ⟨R3, C3⟩ := ih b c1 w1
        exact ⟨Reads_trans cfg conn _ _ _ R1 R3, C3⟩
    · simp only [hgs]
      exact ⟨R1, fun h => by simp at h⟩

/-- A Configure step that returns nil was made by a client whose requests build. -/
theorem configure_builds {σ : Type} (S : Server σ) (c : Client) (p : Int) (w : Net σ)
    (h : (configure S c p w).2.2 = .ret none) : c.requestBuilds = true := by
  by_contra hb
  have hb' : c.requestBuilds = false := by simpa using hb
  simp [configure, getConfig, hb'] at h

/-- The result of `getConfig` against a faithful backend. -/
theorem getConfig_faithful {σ : Type} (S : Server σ) (cfg : σ → config) (conn : σ → Bool)
    (F : Faithful S cfg conn) (c : Client) (w : Net σ) (hb : c.requestBuilds = true) :
    ∃ c1 w1, getConfig S c w = (c1, w1, .ret (.ok (cfg w.state)))
      ∧ Reads cfg conn (c, w) (c1, w1) := by
  obtain ⟨g, i, hr⟩ := F.get_config_reply w.state
    { Method := "core.get_config", Params := [], Id := c.nextMessageId + 1 } rfl
  have h1 := getConfig_ok S c w g i _ hb hr
  have h2 := getConfig_Reads S cfg conn F c w
  rcases hgc : getConfig S c w with ⟨c1, w1, res⟩
  rw [hgc] at h1 h2
  simp only at h1 h2
  subst h1
  exact ⟨c1, w1, rfl, h2⟩

/-- Against a faithful backend whose first listen port is already `p`, the
Configure step returns nil and only reads. -/
theorem configure_converged {σ : Type} (S : Server σ) (cfg : σ → config) (conn : σ → Bool)
    (F : Faithful S cfg conn) (c : Client) (p : Int) (w : Net σ)
    (hb : c.requestBuilds = true) (hp : (cfg w.state).ListenPorts.head? = some p) :
    (configure S c p w).2.2 = .ret none
      ∧ Reads cfg conn (c, w) ((configure S c p w).1, (configure S c p w).2.1) := by
  obtain ⟨c1, w1, hgc, R⟩ := getConfig_faithful S cfg conn F c w hb
  unfold configure
  simp only [hgc]
  rcases hl : (cfg w.state).ListenPorts with _ | ⟨first, rest⟩
  · simp [hl] at hp
  · simp only [hl, List.head?_cons, Option.some.injEq] at hp
    simp only [hp, if_true]
    exact ⟨trivial, R⟩

/-- Against a faithful backend, a Configure step that returns nil leaves `p` as
the first listen port, keeps a connection, and has issued at most one
`core.set_config`. -/
theorem configure_converges {σ : Type} (S : Server σ) (cfg : σ → config) (conn : σ → Bool)
    (F : Faithful S cfg conn) (c : Client) (p : Int) (w : Net σ)
    (h : (configure S c p w).2.2 = .ret none) :
    (cfg (configure S c p w).2.1.state).ListenPorts.head? = some p
      ∧ (conn w.state = true → conn (configure S c p w).2.1.state = true)
      ∧ (configure S c p w).1.requestBuilds = true
      ∧ ∃ t, (configure S c p w).2.1.trace = w.trace ++ t
          ∧ (callsOf "core.set_config" t).length ≤ 1 := by
  have hb := configure_builds S c p w h
  obtain ⟨c1, w1, hgc, R⟩ := getConfig_faithful S cfg conn F c w hb
  obtain ⟨R1, R2, R3, t, R4, R5⟩ := R
  simp only at R1 R2 R3 R4
  have hb1 : c1.requestBuilds = true := R1.trans hb
  unfold configure at h ⊢
  simp only [hgc] at h ⊢
  rcases hl : (cfg w.state).ListenPorts with _ | ⟨first, rest⟩
  · simp [hl] at h
  · simp only [hl] at h ⊢
    by_cases hpf : p = first
    · simp only [hpf, if_true]
      refine ⟨by rw [R2, hl]; rfl, R3, hb1, t, R4, by rw [R5]; simp⟩
    · simp only [hpf, if_false] at h ⊢
      have hs := setConfig_net S c1 p w1 hb1
      have hc := setConfig_client S c1 p w1
      rcases hsc : setConfig S c1 p w1 with ⟨c2, w2, r2⟩
      rw [hsc] at hs hc
      simp only at hs hc
      rcases r2 with (_ | e) | _
      · simp only [hsc]
        refine ⟨?_, fun hcn => ?_, by rw [hc]; exact hb1,
          t ++ [⟨"core.set_config", [paramMap p], c1.nextMessageId + 1⟩], ?_, ?_⟩
        · rw [hs]
          simp only [send]
          rw [F.set_config_cfg _ _ [p, p] false rfl rfl]
          rfl
        · rw [hs]
          exact F.conn_kept _ _ (R3 hcn)
        · rw [hs]
          simp only [send, R4, List.append_assoc]
        · rw [deluge_callsOf_append, R5]
          simp [callsOf]
      · simp [hsc] at h
      · simp [hsc] at h

/-- A `doPush` that returns nil was made by a client whose requests build. -/
theorem deluge_doPush_builds {σ : Type} (S : Server σ) (c : Client) (p : Int) (w : Net σ)
    (h : (doPush S c p w).2.2 = .ret none) : c.requestBuilds = true := by
  by_contra hb
  have hb' : c.requestBuilds = false := by simpa using hb
  simp [doPush, login, handled, delugeRequest, hb', boolHandler] at h

/-- Against a faithful backend, a `doPush` that returns nil reached the
Configure step through reads only, with the backend connected. -/
theorem doPush_reaches_configure {σ : Type} (S : Server σ) (cfg : σ → config)
    (conn : σ → Bool) (F : Faithful S cfg conn) (c : Client) (p : Int) (w : Net σ)
    (h : (doPush S c p w).2.2 = .ret none) :
    ∃ c' w', doPush S c p w = configure S c' p w' ∧ Reads cfg conn (c, w) (c', w')
      ∧ conn w'.state = true := by
  have hb := deluge_doPush_builds S c p w h
  have RL := login_Reads S cfg conn F c w
  rcases hl : login S c w with ⟨c1, w1, r1⟩
  rw [hl] at RL
  simp only at RL
  have hb1 : c1.requestBuilds = true := RL.1.trans hb
  unfold doPush at h ⊢
  simp only [hl] at h ⊢
  rcases r1 with (e | res1) | _
  · simp at h
  · obtain ⟨rc, hrc, hrb⟩ := webConnected_faithful S cfg conn F c1 w1 hb1
    have RC := webConnected_Reads S cfg conn F c1 w1
    rcases hwc : webConnected S c1 w1 with ⟨c2, w2, r2⟩
    rw [hwc] at hrc RC
    simp only at hrc RC
    subst hrc
    simp only [hwc] at h ⊢
    by_cases hcn : rc.ResultBool = false
    · simp only [hcn, if_true] at h ⊢
      have RH := getHosts_Reads S cfg conn F c2 w2
      rcases hgh : getHosts S c2 w2 with ⟨c3, w3, r3⟩
      rw [hgh] at RH
      simp only at RH
      simp only [hgh] at h ⊢
      rcases r3 with (e | hosts) | _
      · simp at h
      · by_cases hlen : hosts.ResultHosts.length = 0
        · simp [hlen] at h
        · simp only [hlen, if_false] at h ⊢
          obtain ⟨RK, CK⟩ := connectHosts_Reads S cfg conn F hosts.ResultHosts false c3 w3
          rcases hch : connectHosts S hosts.ResultHosts false c3 w3 with ⟨c4, w4, r4⟩
          rw [hch] at RK CK
          simp only at RK CK
          simp only [hch] at h ⊢
          rcases r4 with (e | connected) | _
          · simp at h
          · cases connected
            · simp at h
            · simp only [Bool.true_eq_false, if_false]
              refine ⟨c4, w4, rfl, ?_, ?_⟩
              · exact Reads_trans cfg conn _ _ _ (Reads_trans cfg conn _ _ _
                  (Reads_trans cfg conn _ _ _ RL RC) RH) RK
              · rcases CK rfl with hf | hc
                · simp at hf
                · exact hc
          · simp at h
      · simp at h
    · simp only [hcn, if_false] at h ⊢
      refine ⟨c2, w2, rfl, Reads_trans cfg conn _ _ _ RL RC, RC.2.2.1 ?_⟩
      rw [← hrb]
      simpa using hcn
  · simp at h

/-- Against a faithful backend that is connected, `doPush` goes to the
Configure step through reads only. -/
theorem doPush_connected {σ : Type} (S : Server σ) (cfg : σ → config)
    (conn : σ → Bool) (F : Faithful S cfg conn) (c : Client) (p : Int) (w : Net σ)
    (hb : c.requestBuilds = true) (hc : conn w.state = true) :
    ∃ c' w', doPush S c p w = configure S c' p w' ∧ Reads cfg conn (c, w) (c', w') := by
  obtain ⟨rl, hrl⟩ := login_faithful S cfg conn F c w hb
  have RL := login_Reads S cfg conn F c w
  rcases hl : login S c w with ⟨c1, w1, r1⟩
  rw [hl] at RL hrl
  simp only at RL hrl
  subst hrl
  have hb1 : c1.requestBuilds = true := RL.1.trans hb
  obtain ⟨rc, hrc, hrb⟩ := webConnected_faithful S cfg conn F c1 w1 hb1
  have RC := webConnected_Reads S cfg conn F c1 w1
  rcases hwc : webConnected S c1 w1 with ⟨c2, w2, r2⟩
  rw [hwc] at hrc RC
  simp only at hrc RC
  subst hrc
  have hcn : ¬ (rc.ResultBool = false) := by
    rw [hrb, RL.2.2.1 hc]
    simp
  unfold doPush
  simp only [hl, hwc, hcn, if_false]
  exact ⟨c2, w2, rfl, Reads_trans cfg conn _ _ _ RL RC⟩

/-- Idempotence of the Deluge adapter against a faithful backend. -/
theorem deluge_idempotent {σ : Type} (S : Server σ) (cfg : σ → config) (conn : σ → Bool)
    (F : Faithful S cfg conn) (c : Client) (p : Int) (w : Net σ)
    (h : (Push S c p w).2.2 = .ret none) :
    (Push S (Push S c p w).1 p (Push S c p w).2.1).2.2 = .ret none
      ∧ ∃ t1 t2, (Push S c p w).2.1.trace = w.trace ++ t1
          ∧ (Push S (Push S c p w).1 p (Push S c p w).2.1).2.1.trace = w.trace ++ t1 ++ t2
          ∧ callsOf "core.set_config" t2 = []
          ∧ (callsOf "core.set_config" (t1 ++ t2)).length ≤ 1 := by
  rw [deluge_Push_eq_doPush] at h
  simp only [deluge_Push_eq_doPush]
  obtain ⟨c', w', he, ⟨-, -, -, tr, htr, hcr⟩, hcn⟩ :=
    doPush_reaches_configure S cfg conn F c p w h
  rw [he] at h
  obtain ⟨hp1, hc1, hb1, tc, htc, hlc⟩ := configure_converges S cfg conn F c' p w' h
  rw [← he] at hp1 hc1 hb1 htc
  obtain ⟨c'', w'', he2, ⟨Rb, R2, -, tr2, htr2, hcr2⟩⟩ :=
    doPush_connected S cfg conn F (doPush S c p w).1 p (doPush S c p w).2.1 hb1 (hc1 hcn)
  simp only at Rb R2 htr2
  have hb2 : c''.requestBuilds = true := Rb.trans hb1
  have hp2 : (cfg w''.state).ListenPorts.head? = some p := by rw [R2]; exact hp1
  obtain ⟨hres, -, -, -, tc2, htc2, hcc2⟩ := configure_converged S cfg conn F c'' p w'' hb2 hp2
  simp only at htc2
  rw [← he2] at hres htc2
  refine ⟨hres, tr ++ tc, tr2 ++ tc2, ?_, ?_, ?_, ?_⟩
  · rw [htc, htr, List.append_assoc]
  · rw [htc2, htr2, htc, htr]
    simp only [List.append_assoc]
  · rw [deluge_callsOf_append, hcr2, hcc2]; rfl
  · simp only [deluge_callsOf_append, hcr, hcr2, hcc2, List.append_nil, List.nil_append]
    exact hlc

theorem deluge_faithfulServer_faithful :
    Faithful faithfulServer (fun s => s.config) (fun s => s.connected) :=
  { login_reply := fun s req hm => ⟨req.Id, true, .malformed, by simp [faithfulServer, hm, okReply]⟩
    connected_reply := fun s req hm =>
      ⟨req.Id, .malformed, by simp [faithfulServer, hm, okReply]⟩
    get_config_reply := fun s req hm =>
      ⟨.value { Error := none, Id := req.Id, Result := .other }, req.Id,
       by simp [faithfulServer, hm]⟩
    connect_conn := fun s req hm => by simp [faithfulServer, hm]
    set_config_cfg := fun s req l b hm hp => by simp [faithfulServer, hm, hp]
    cfg_kept := fun s req hm => by
      simp only [faithfulServer]
      repeat' split
      all_goals rfl
    conn_kept := fun s req hc => by
      simp only [faithfulServer]
      repeat' split
      all_goals first | exact hc | rfl }

end deluge

/-- C2: for each of the three adapters and every desired port `p`, against a
faithful backend: if a first Push(p) returns nil, then the Push(p) that
follows immediately returns nil and issues no mutating call (`session-set`,
`setPreferences`, `core.set_config`), and over the two calls the mutating call
is issued at most once. `t1` and `t2` are the requests issued by the first and
by the second Push. -/
theorem C2_push_is_idempotent :
    (∀ (σ : Type) (S : transmission.Server σ) (view : σ → transmission.portInfo) (sid : String),
      transmission.Faithful S view sid →
      ∀ (c : transmission.Client) (p : Int) (w : transmission.Net σ),
        (transmission.Push S c p w).2.2 = .ret none →
        (transmission.Push S (transmission.Push S c p w).1 p
            (transmission.Push S c p w).2.1).2.2 = .ret none
          ∧ ∃ t1 t2, (transmission.Push S c p w).2.1.trace = w.trace ++ t1
              ∧ (transmission.Push S (transmission.Push S c p w).1 p
                  (transmission.Push S c p w).2.1).2.1.trace = w.trace ++ t1 ++ t2
              ∧ transmission.callsOf "session-set" t2 = []
              ∧ (transmission.callsOf "session-set" (t1 ++ t2)).length ≤ 1)
      ∧ (∀ (σ : Type) (S : qbittorrent.Server σ) (view : σ → qbittorrent.preferences),
        qbittorrent.Faithful S view →
        ∀ (c : qbittorrent.Client) (p : Int) (w : qbittorrent.Net σ),
          (qbittorrent.Push S c p w).2 = .ret none →
          (qbittorrent.Push S c p (qbittorrent.Push S c p w).1).2 = .ret none
            ∧ ∃ t1 t2, (qbittorrent.Push S c p w).1.trace = w.trace ++ t1
                ∧ (qbittorrent.Push S c p (qbittorrent.Push S c p w).1).1.trace
                    = w.trace ++ t1 ++ t2
                ∧ qbittorrent.writesOf t2 = []
                ∧ (qbittorrent.writesOf (t1 ++ t2)).length ≤ 1)
      ∧ (∀ (σ : Type) (S : deluge.Server σ) (cfg : σ → deluge.config) (conn : σ → Bool),
        deluge.Faithful S cfg conn →
        ∀ (c : deluge.Client) (p : Int) (w : deluge.Net σ),
          (deluge.Push S c p w).2.2 = .ret none →
          (deluge.Push S (deluge.Push S c p w).1 p (deluge.Push S c p w).2.1).2.2 = .ret none
            ∧ ∃ t1 t2, (deluge.Push S c p w).2.1.trace = w.trace ++ t1
                ∧ (deluge.Push S (deluge.Push S c p w).1 p (deluge.Push S c p w).2.1).2.1.trace
                    = w.trace ++ t1 ++ t2
                ∧ deluge.callsOf "core.set_config" t2 = []
                ∧ (deluge.callsOf "core.set_config" (t1 ++ t2)).length ≤ 1) :=
  ⟨fun _ S view sid F c p w h => transmission.tr_idempotent S view sid F c p w h,
   fun _ S view F c p w h => qbittorrent.qbt_idempotent S view F c p w h,
   fun _ S cfg conn F c p w h => deluge.deluge_idempotent S cfg conn F c p w h⟩

theorem C2_push_is_idempotent_witness :
    ((transmission.Push (transmission.faithfulServer "abc") transmission.someClient 12345
        (transmission.start { PeerPort := 9999, PeerPortRandom := true })).2.2 = .ret none
      ∧ (qbittorrent.Push qbittorrent.faithfulServer qbittorrent.someClient 12345
        (qbittorrent.start { Port := 9999, PortRandom := true })).2 = .ret none
      ∧ (deluge.Push deluge.faithfulServer deluge.someClient 12345
        (deluge.start { config := { RandomPort := true, ListenPorts := [9999, 9999] },
                        connected := false, hosts := deluge.threeHosts })).2.2 = .ret none)
      ∧ ((transmission.Push (transmission.faithfulServer "abc")
            (transmission.Push (transmission.faithfulServer "abc") transmission.someClient 12345
              (transmission.start { PeerPort := 9999, PeerPortRandom := true })).1 12345
            (transmission.Push (transmission.faithfulServer "abc") transmission.someClient 12345
              (transmission.start { PeerPort := 9999, PeerPortRandom := true })).2.1).2.2
          = .ret none
        ∧ ∃ t1 t2,
          (transmission.Push (transmission.faithfulServer "abc") transmission.someClient 12345
              (transmission.start { PeerPort := 9999, PeerPortRandom := true })).2.1.trace
            = (transmission.start { PeerPort := 9999, PeerPortRandom := true }).trace ++ t1
          ∧ (transmission.Push (transmission.faithfulServer "abc")
              (transmission.Push (transmission.faithfulServer "abc") transmission.someClient
                12345 (transmission.start { PeerPort := 9999, PeerPortRandom := true })).1 12345
              (transmission.Push (transmission.faithfulServer "abc") transmission.someClient
                12345 (transmission.start { PeerPort := 9999,
                                            PeerPortRandom := true })).2.1).2.1.trace
            = (transmission.start { PeerPort := 9999, PeerPortRandom := true }).trace ++ t1 ++ t2
          ∧ transmission.callsOf "session-set" t2 = []
          ∧ (transmission.callsOf "session-set" (t1 ++ t2)).length ≤ 1)
      ∧ ((qbittorrent.Push qbittorrent.faithfulServer qbittorrent.someClient 12345
            (qbittorrent.Push qbittorrent.faithfulServer qbittorrent.someClient 12345
              (qbittorrent.start { Port := 9999, PortRandom := true })).1).2 = .ret none
        ∧ ∃ t1 t2,
          (qbittorrent.Push qbittorrent.faithfulServer qbittorrent.someClient 12345
              (qbittorrent.start { Port := 9999, PortRandom := true })).1.trace
            = (qbittorrent.start { Port := 9999, PortRandom := true }).trace ++ t1
          ∧ (qbittorrent.Push qbittorrent.faithfulServer qbittorrent.someClient 12345
              (qbittorrent.Push qbittorrent.faithfulServer qbittorrent.someClient 12345
                (qbittorrent.start { Port := 9999, PortRandom := true })).1).1.trace
            = (qbittorrent.start { Port := 9999, PortRandom := true }).trace ++ t1 ++ t2
          ∧ qbittorrent.writesOf t2 = []
          ∧ (qbittorrent.writesOf (t1 ++ t2)).length ≤ 1)
      ∧ ((deluge.Push deluge.faithfulServer
            (deluge.Push deluge.faithfulServer deluge.someClient 12345
              (deluge.start { config := { RandomPort := true, ListenPorts := [9999, 9999] },
                              connected := false, hosts := deluge.threeHosts })).1 12345
            (deluge.Push deluge.faithfulServer deluge.someClient 12345
              (deluge.start { config := { RandomPort := true, ListenPorts := [9999, 9999] },
                              connected := false, hosts := deluge.threeHosts })).2.1).2.2
          = .ret none
        ∧ ∃ t1 t2,
          (deluge.Push deluge.faithfulServer deluge.someClient 12345
              (deluge.start { config := { RandomPort := true, ListenPorts := [9999, 9999] },
                              connected := false, hosts := deluge.threeHosts })).2.1.trace
            = (deluge.start { config := { RandomPort := true, ListenPorts := [9999, 9999] },
                              connected := false, hosts := deluge.threeHosts }).trace ++ t1
          ∧ (deluge.Push deluge.faithfulServer
              (deluge.Push deluge.faithfulServer deluge.someClient 12345
                (deluge.start { config := { RandomPort := true, ListenPorts := [9999, 9999] },
                                connected := false, hosts := deluge.threeHosts })).1 12345
              (deluge.Push deluge.faithfulServer deluge.someClient 12345
                (deluge.start { config := { RandomPort := true, ListenPorts := [9999, 9999] },
                                connected := false, hosts := deluge.threeHosts })).2.1).2.1.trace
            = (deluge.start { config := { RandomPort := true, ListenPorts := [9999, 9999] },
                              connected := false, hosts := deluge.threeHosts }).trace
                ++ t1 ++ t2
          ∧ deluge.callsOf "core.set_config" t2 = []
          ∧ (deluge.callsOf "core.set_config" (t1 ++ t2)).length ≤ 1) :=
  ⟨⟨by decide, by decide, by decide⟩,
   C2_push_is_idempotent.1 _ (transmission.faithfulServer "abc") (fun s => s) "abc"
     (transmission.tr_faithfulServer_faithful "abc" (by decide)) transmission.someClient 12345
     (transmission.start { PeerPort := 9999, PeerPortRandom := true }) (by decide),
   C2_push_is_idempotent.2.1 _ qbittorrent.faithfulServer (fun s => s)
     qbittorrent.qbt_faithfulServer_faithful qbittorrent.someClient 12345
     (qbittorrent.start { Port := 9999, PortRandom := true }) (by decide),
   C2_push_is_idempotent.2.2 _ deluge.faithfulServer (fun s => s.config) (fun s => s.connected)
     deluge.deluge_faithfulServer_faithful deluge.someClient 12345
     (deluge.start { config := { RandomPort := true, ListenPorts := [9999, 9999] },
                     connected := false, hosts := deluge.threeHosts }) (by decide)⟩

namespace env

/-- C16: when PUSHER_DELAY_SUCCESS is not set (whatever PUSHER_DELAY_ERROR is),
GetDelaySuccess returns 10 minutes and no error, GetDelayError returns 5
minutes and no error. -/
theorem C16_default_delays (environ : Environ) (h : environ envDelaySuccess = none) :
    GetDelaySuccess environ = (10 * Minute, none)
      ∧ GetDelayError environ = (5 * Minute, none) := by
  simp [GetDelaySuccess, GetDelayError, getDuration, h]

theorem C16_default_delays_witness :
    emptyEnviron envDelaySuccess = none
      ∧ GetDelaySuccess emptyEnviron = (10 * Minute, none)
      ∧ GetDelayError emptyEnviron = (5 * Minute, none) :=
  ⟨rfl, C16_default_delays emptyEnviron rfl⟩

/-- A duration of at most 153722867 minutes fits in an `int64`. -/
theorem wrap64_minutes (n : Int) (h0 : 0 < n) (h1 : n ≤ 153722867) :
    wrap64 (n * Minute) = n * Minute := by
  simp only [wrap64, Minute]
  norm_num
  omega

/-- Setting or unsetting PUSHER_DELAY_ERROR changes neither accessor. -/
theorem delays_ignore_error_key (environ : Environ) (v : Option String) :
    GetDelayError (setenv environ envDelayError v) = GetDelayError environ
      ∧ GetDelaySuccess (setenv environ envDelayError v) = GetDelaySuccess environ := by
  have h : setenv environ envDelayError v envDelaySuccess = environ envDelaySuccess := by
    simp [setenv, envDelayError, envDelaySuccess]
  simp [GetDelaySuccess, GetDelayError, getDuration, h]

/-- With PUSHER_DELAY_SUCCESS set to "153722868" the product with one minute
overflows `int64`: both accessors return a negative duration and no error. -/
theorem large_delay_overflows :
    Atoi "153722868" = some 153722868
      ∧ GetDelaySuccess (setenv emptyEnviron envDelaySuccess (some "153722868"))
          = (-9223371993709551616, none)
      ∧ GetDelayError (setenv emptyEnviron envDelaySuccess (some "153722868"))
          = (-9223371993709551616, none) := by
  decide

/-- The character of a decimal digit has that digit as value. -/
theorem digitVal_digitChar (m : Nat) (h : m < 10) : digitVal (Nat.digitChar m) = some m := by
  interval_cases m <;> rfl

/-- The digits that `Nat.toDigitsCore` puts in front of `ds` are read back by
`parseDigits` as `n`. -/
theorem parseDigits_toDigitsCore (fuel n : Nat) (ds : List Char) (h : n < fuel) :
    ∃ pre, Nat.toDigitsCore 10 fuel n ds = pre ++ ds
      ∧ ∀ rest acc, parseDigits (pre ++ rest) acc
          = parseDigits rest (acc * 10 ^ pre.length + n) := by
  induction fuel generalizing n ds with
  | zero => omega
  | succ fuel ih =>
    simp only [Nat.toDigitsCore]
    by_cases hz : n / 10 = 0
    · simp only [hz, if_true]
      have hn : n < 10 := by omega
      refine ⟨[Nat.digitChar (n % 10)], rfl, fun rest acc => ?_⟩
      rw [Nat.mod_eq_of_lt hn]
      simp [parseDigits, digitVal_digitChar n hn]
    · simp only [hz, if_false]
      obtain ⟨pre, hpre, hp⟩ := ih (n / 10) (Nat.digitChar (n % 10) :: ds) (by omega)
      refine ⟨pre ++ [Nat.digitChar (n % 10)], by rw [hpre]; simp, fun rest acc => ?_⟩
      rw [List.append_assoc, List.singleton_append, hp]
      simp only [parseDigits, digitVal_digitChar _ (Nat.mod_lt n (by omega)), List.length_append,
        List.length_singleton]
      congr 1
      have := Nat.div_add_mod n 10
      rw [pow_succ]
      nlinarith [this]

/-- The decimal representation of `n` is read back by `parseDigits` as `n`. -/
theorem parseDigits_repr (n : Nat) : parseDigits (Nat.repr n).data 0 = some n := by
  obtain ⟨pre, hpre, hp⟩ := parseDigits_toDigitsCore (n + 1) n [] (by omega)
  have hd : (Nat.repr n).data = Nat.toDigitsCore 10 (n + 1) n [] := rfl
  rw [hd, hpre, hp [] 0]
  simp [parseDigits]

/-- `Atoi` accepts an unsigned digit string whose value is positive and below 2^63. -/
theorem Atoi_of_parseDigits (s : String) (n : Nat) (h : parseDigits s.data 0 = some n)
    (h0 : 0 < n) (h1 : n < 2 ^ 63) : Atoi s = some (n : Int) := by
  unfold Atoi
  split
  · rename_i hd
    rw [hd] at h
    simp only [parseDigits, Option.some.injEq] at h
    omega
  · rename_i ds hd
    rw [hd] at h
    simp [parseDigits, digitVal] at h
  · rename_i ds hd
    rw [hd] at h
    simp [parseDigits, digitVal] at h
  · simp only [h]
    rw [if_pos h1]

/-- `Atoi` rejects an unsigned digit string whose value is 2^63 or more. -/
theorem Atoi_of_parseDigits_large (s : String) (n : Nat) (h : parseDigits s.data 0 = some n)
    (h1 : 2 ^ 63 ≤ n) : Atoi s = none := by
  unfold Atoi
  split
  · rfl
  · rename_i ds hd
    rw [hd] at h
    simp [parseDigits, digitVal] at h
  · rename_i ds hd
    rw [hd] at h
    simp [parseDigits, digitVal] at h
  · have hge : ¬ (n < 2 ^ 63) := by omega
    simp only [h]
    rw [if_neg hge]

/-- C17 (counterexample): PUSHER_DELAY_SUCCESS holds "9223372036854775808", the
decimal integer 2^63 > 0. `strconv.Atoi` rejects it (out of range), so
GetDelaySuccess returns its default 10 minutes and GetDelayError its default 5
minutes, each with an error: neither the same duration nor no error. -/
theorem C17_out_of_range_delay_is_an_error :
    Nat.repr (2 ^ 63) = "9223372036854775808"
      ∧ GetDelaySuccess (setenv emptyEnviron envDelaySuccess (some "9223372036854775808"))
          = (10 * Minute,
             some (.invalidDuration "PUSHER_DELAY_SUCCESS" "9223372036854775808"))
      ∧ GetDelayError (setenv emptyEnviron envDelaySuccess (some "9223372036854775808"))
          = (5 * Minute,
             some (.invalidDuration "PUSHER_DELAY_SUCCESS" "9223372036854775808")) := by
  decide

/-- C17 (amended): GetDelayError reads the same key as GetDelaySuccess. When
PUSHER_DELAY_SUCCESS holds the decimal representation of an integer `n` with
`0 < n ≤ 153722867`, both accessors return `n` minutes with no error; when `n`
is 2^63 or more, each returns its default (5 and 10 minutes) with an error; and
the value of PUSHER_DELAY_ERROR changes the result of neither accessor. -/
theorem C17_error_delay_reads_success_key (environ : Environ) (n : Nat)
    (hs : environ envDelaySuccess = some (Nat.repr n)) :
    (0 < n → n ≤ 153722867 →
        GetDelayError environ = ((n : Int) * Minute, none)
          ∧ GetDelaySuccess environ = ((n : Int) * Minute, none))
      ∧ (2 ^ 63 ≤ n →
        GetDelayError environ
            = (5 * Minute, some (.invalidDuration envDelaySuccess (Nat.repr n)))
          ∧ GetDelaySuccess environ
            = (10 * Minute, some (.invalidDuration envDelaySuccess (Nat.repr n))))
      ∧ ∀ v : Option String,
          GetDelayError (setenv environ envDelayError v) = GetDelayError environ
            ∧ GetDelaySuccess (setenv environ envDelayError v) = GetDelaySuccess environ := by
  refine ⟨fun h0 h1 => ?_, fun h2 => ?_, delays_ignore_error_key environ⟩
  · have ha := Atoi_of_parseDigits (Nat.repr n) n (parseDigits_repr n) h0 (by omega)
    have hle : ¬ ((n : Int) ≤ 0) := by omega
    have hw := wrap64_minutes (n : Int) (by omega) (by omega)
    constructor
    · simp [GetDelayError, getDuration, hs, ha, hle, hw]
    · simp [GetDelaySuccess, getDuration, hs, ha, hle, hw]
  · have ha := Atoi_of_parseDigits_large (Nat.repr n) n (parseDigits_repr n) h2
    constructor
    · simp [GetDelayError, getDuration, hs, ha]
    · simp [GetDelaySuccess, getDuration, hs, ha]

theorem C17_error_delay_reads_success_key_witness :
    setenv (setenv emptyEnviron envDelaySuccess (some "15")) envDelayError (some "3")
        envDelaySuccess = some (Nat.repr 15)
      ∧ GetDelayError (setenv (setenv emptyEnviron envDelaySuccess (some "15")) envDelayError
          (some "3")) = ((15 : Nat) * Minute, none)
      ∧ GetDelaySuccess (setenv (setenv emptyEnviron envDelaySuccess (some "15")) envDelayError
          (some "3")) = ((15 : Nat) * Minute, none) :=
  ⟨by decide,
   (C17_error_delay_reads_success_key
      (setenv (setenv emptyEnviron envDelaySuccess (some "15")) envDelayError (some "3"))
      15 (by decide)).1 (by decide) (by decide)⟩

end env

namespace gluetun

/-- C15 (counterexample): the sidecar reports status "running" and the port
70000, or the port -5; PullPort returns that value with a nil error. -/
theorem C15_out_of_range_port_is_returned :
    (PullPort (fixedSidecar "running" 70000) someClient start).2 = .ret (70000, none)
      ∧ (PullPort (fixedSidecar "running" (-5)) someClient start).2 = .ret (-5, none) := by
  decide

/-- C15 (amended): whenever PullPort returns without error, the returned port
is the value the sidecar reported (with status "running") and is not 0; no
other bound is checked. -/
theorem C15_returned_port_is_reported_and_nonzero {σ : Type} (S : Sidecar σ) (c : Client)
    (w : Net σ) (q : Int) (h : (PullPort S c w).2 = .ret (q, none)) :
    q ≠ 0
      ∧ (S.status w.state).2 = .http 200 (.value { Status := "running" })
      ∧ (S.portforwarded (S.status w.state).1).2 = .http 200 (.value { Port := q }) := by
  have hd : (doPullPort S c w).2 = .ret (q, none) := by
    unfold PullPort at h
    rcases hr : doPullPort S c w with ⟨w1, (⟨port, _ | e⟩) | _⟩ <;> rw [hr] at h <;> simp_all
  clear h
  unfold doPullPort at hd
  by_cases hb : c.requestBuilds = false
  · simp [hb] at hd
  · simp only [hb, if_false] at hd
    rcases hs : (S.status w.state).2 with _ | ⟨code, body⟩
    · simp [hs] at hd
    · simp only [hs] at hd
      by_cases hc : code = 200
      · subst hc
        rcases body with _ | _ | _ | ⟨⟨st⟩⟩ <;> simp at hd
        by_cases hst : st = "running"
        · subst hst
          simp only [ne_eq, not_true_eq_false, if_false] at hd
          rcases hp : (S.portforwarded (S.status w.state).1).2 with _ | ⟨code2, body2⟩
          · simp [hp] at hd
          · simp only [hp] at hd
            by_cases hc2 : code2 = 200
            · subst hc2
              rcases body2 with _ | _ | _ | ⟨⟨port⟩⟩ <;> simp at hd
              by_cases h0 : port = 0
              · simp [h0] at hd
              · simp only [h0, if_false, Go.ret.injEq, Prod.mk.injEq, and_true] at hd
                subst hd
                exact ⟨h0, rfl, rfl⟩
            · simp [hc2] at hd
        · simp [hst] at hd
      · simp [hc] at hd

theorem C15_returned_port_is_reported_and_nonzero_witness :
    (PullPort (fixedSidecar "running" 70000) someClient start).2 = .ret (70000, none)
      ∧ (70000 : Int) ≠ 0
      ∧ ((fixedSidecar "running" 70000).status start.state).2
          = .http 200 (.value { Status := "running" })
      ∧ ((fixedSidecar "running" 70000).portforwarded
            ((fixedSidecar "running" 70000).status start.state).1).2
          = .http 200 (.value { Port := 70000 }) :=
  ⟨by decide,
   C15_returned_port_is_reported_and_nonzero (fixedSidecar "running" 70000) someClient start
     70000 (by decide)⟩

end gluetun

namespace deluge

/-- C11 (counterexample): every reply echoes the id 0 while the requests carry
the ids 1, 2, 3, 4. No call fails: `login` returns the response with its id 0
and Push returns nil after the usual four requests. -/
theorem C11_mismatched_id_is_accepted :
    (login wrongIdServer someClient
        (start { config := { RandomPort := false, ListenPorts := [9999, 9999] },
                 connected := true, hosts := [] })).2.2
      = .ret (.ok { Error := none, Id := 0, ResultBool := true, ResultStrings := [],
                    ResultHosts := [], ResultHostStatus := hostStatus.zero })
      ∧ (Push wrongIdServer someClient 12345
          (start { config := { RandomPort := false, ListenPorts := [9999, 9999] },
                   connected := true, hosts := [] })).2.2 = .ret none
      ∧ (Push wrongIdServer someClient 12345
          (start { config := { RandomPort := false, ListenPorts := [9999, 9999] },
                   connected := true, hosts := [] })).2.1.trace
        = [{ Method := "auth.login", Params := [.str "deluge"], Id := 1 },
           { Method := "web.connected", Params := [], Id := 2 },
           { Method := "core.get_config", Params := [], Id := 3 },
           { Method := "core.set_config", Params := [paramMap 12345], Id := 4 }] :=
  ⟨rfl, by decide, by decide⟩

/-- C11 (amended): no call compares the id echoed in the response with the id
sent. A reply with HTTP 200 and no error object is accepted whatever its id
`i`: `delugeRequest` (used by auth.login, web.connected, web.get_hosts,
web.get_host_status and web.connect) returns the decoded response with that
id, `getConfig` returns the configuration and `setConfig` returns nil. -/
theorem C11_response_id_is_not_checked {σ : Type} (S : Server σ) (c : Client) (w : Net σ)
    (hb : c.requestBuilds = true) :
    (∀ (m : String) (ps : List Param) (i : Int) (r : Value) (cf : Body getConfigResponse),
        (S.post w.state { Method := m, Params := ps, Id := c.nextMessageId + 1 }).2
            = .http 200 (.value { Error := none, Id := i, Result := r }) cf →
        (delugeRequest S c m ps w).2.2 = .ret (.ok { Error := none, Id := i, Result := r }))
      ∧ (∀ (i : Int) (cfg : config) (g : Body genericResponse),
        (S.post w.state { Method := "core.get_config", Params := [],
                          Id := c.nextMessageId + 1 }).2
            = .http 200 g (.value { Error := none, Id := i, Result := cfg }) →
        (getConfig S c w).2.2 = .ret (.ok cfg))
      ∧ (∀ (p i : Int) (r : Value) (cf : Body getConfigResponse),
        (S.post w.state { Method := "core.set_config", Params := [paramMap p],
                          Id := c.nextMessageId + 1 }).2
            = .http 200 (.value { Error := none, Id := i, Result := r }) cf →
        (setConfig S c p w).2.2 = .ret none) := by
  refine ⟨fun m ps i r cf h => ?_, fun i cfg g h => ?_, fun p i r cf h => ?_⟩
  · simp [delugeRequest, hb, nextId, send, h]
  · simp [getConfig, hb, nextId, send, h]
  · simp [setConfig, hb, nextId, send, h]

theorem C11_response_id_is_not_checked_witness :
    (delugeRequest wrongIdServer someClient "web.connected" []
        (start { config := { RandomPort := false, ListenPorts := [9999, 9999] },
                 connected := true, hosts := [] })).2.2
      = .ret (.ok { Error := none, Id := 0, Result := .bool true })
      ∧ (getConfig wrongIdServer someClient
          (start { config := { RandomPort := false, ListenPorts := [9999, 9999] },
                   connected := true, hosts := [] })).2.2
        = .ret (.ok { RandomPort := false, ListenPorts := [9999, 9999] })
      ∧ (setConfig wrongIdServer someClient 12345
          (start { config := { RandomPort := false, ListenPorts := [9999, 9999] },
                   connected := true, hosts := [] })).2.2 = .ret none :=
  ⟨(C11_response_id_is_not_checked wrongIdServer someClient
      (start { config := { RandomPort := false, ListenPorts := [9999, 9999] },
               connected := true, hosts := [] }) rfl).1 "web.connected" [] 0 (.bool true)
      .malformed (by decide),
   (C11_response_id_is_not_checked wrongIdServer someClient
      (start { config := { RandomPort := false, ListenPorts := [9999, 9999] },
               connected := true, hosts := [] }) rfl).2.1 0
      { RandomPort := false, ListenPorts := [9999, 9999] }
      (.value { Error := none, Id := 0, Result := .other }) (by decide),
   (C11_response_id_is_not_checked wrongIdServer someClient
      (start { config := { RandomPort := false, ListenPorts := [9999, 9999] },
               connected := true, hosts := [] }) rfl).2.2 12345 0 .other .malformed
      (by decide)⟩

/-- An array of fewer than four elements leaves the host record as it was. -/
theorem host_From_short (h : host) (arry : List Elem) (hl : arry.length < 4) :
    host.From h arry = .ret h := by
  rcases arry with _ | ⟨a, _ | ⟨b, _ | ⟨c, _ | ⟨d, rest⟩⟩⟩⟩
  · rfl
  · rfl
  · rfl
  · rfl
  · simp at hl
    omega

/-- An array of fewer than three elements leaves the status record as it was. -/
theorem hostStatus_From_short (s : hostStatus) (arry : List Item) (hl : arry.length < 3) :
    hostStatus.From s arry = .ret s := by
  rcases arry with _ | ⟨a, _ | ⟨b, _ | ⟨c, rest⟩⟩⟩
  · rfl
  · rfl
  · rfl
  · simp at hl
    omega

/-- A short entry anywhere in the list is decoded as the zero host. -/
theorem hostsOf_short (pre post : List Item) (xs : List Elem) (hpre hpost : List host)
    (h1 : hostsOf pre = .ret hpre) (h2 : hostsOf post = .ret hpost) (hl : xs.length < 4) :
    hostsOf (pre ++ Item.arr xs :: post) = .ret (hpre ++ host.zero :: hpost) := by
  induction pre generalizing hpre with
  | nil =>
    simp only [hostsOf, Go.ret.injEq] at h1
    subst h1
    simp [hostsOf, host_From_short _ _ hl, h2]
  | cons i pre ih =>
    rcases i with e | ys
    · simp [hostsOf] at h1
    · simp only [hostsOf] at h1
      rcases hf : host.From host.zero ys with h | _
      · rw [hf] at h1
        rcases hr : hostsOf pre with hs | _
        · rw [hr] at h1
          simp only [Go.ret.injEq] at h1
          subst h1
          simp [hostsOf, hf, ih hs hr]
        · rw [hr] at h1
          simp at h1
      · rw [hf] at h1
        simp at h1

/-- C12 (counterexample): a web.get_hosts reply whose only entry has three
elements, and a web.get_host_status reply of two elements, are decoded without
error into records with empty fields; against a front-end that sends such a
host entry, Push goes on to ask for the status of the host with the empty id. -/
theorem C12_short_entry_is_decoded_as_empty_record :
    hostsSliceHandler
        (.ok { Error := none, Id := 3,
               Result := .arr [.arr [.str "h1", .str "10.0.0.1", .num 58846]] })
      = .ret (.ok { Error := none, Id := 3, ResultBool := false, ResultStrings := [],
                    ResultHosts := [{ Id := "", Addr := "", Port := 0, Hostname := "" }],
                    ResultHostStatus := hostStatus.zero })
      ∧ hostStatusHandler
          (.ok { Error := none, Id := 4,
                 Result := .arr [.elem (.str "h1"), .elem (.str "Online")] })
        = .ret (.ok { Error := none, Id := 4, ResultBool := false, ResultStrings := [],
                      ResultHosts := [],
                      ResultHostStatus := { Id := "", Status := "", Version := "" } })
      ∧ (Push shortHostServer someClient 12345
          (start { config := { RandomPort := false, ListenPorts := [9999, 9999] },
                   connected := false, hosts := threeHosts })).2.1.trace
        = [{ Method := "auth.login", Params := [.str "deluge"], Id := 1 },
           { Method := "web.connected", Params := [], Id := 2 },
           { Method := "web.get_hosts", Params := [], Id := 3 },
           { Method := "web.get_host_status", Params := [.str ""], Id := 4 }]
      ∧ (Push shortHostServer someClient 12345
          (start { config := { RandomPort := false, ListenPorts := [9999, 9999] },
                   connected := false, hosts := threeHosts })).2.2
        = .ret (some .noOnlineHosts) :=
  ⟨rfl, rfl, by decide, by decide⟩

/-- C12 (amended): a host entry with fewer than 4 elements, or a status reply
with fewer than 3 elements, neither panics nor produces an error: `From`
leaves the record untouched, so `hostsSliceHandler` returns the zero host (all
fields empty) at the place of the short entry, the other entries being decoded
as usual, and `hostStatusHandler` returns the zero status. -/
theorem C12_short_entries_decode_to_zero_records :
    (∀ (h : host) (arry : List Elem), arry.length < 4 → host.From h arry = .ret h)
      ∧ (∀ (s : hostStatus) (arry : List Item), arry.length < 3 →
          hostStatus.From s arry = .ret s)
      ∧ (∀ (resp : genericResponse) (pre post : List Item) (xs : List Elem)
          (hpre hpost : List host),
          resp.Result = .arr (pre ++ Item.arr xs :: post) → xs.length < 4 →
          hostsOf pre = .ret hpre → hostsOf post = .ret hpost →
          hostsSliceHandler (.ok resp)
            = .ret (.ok { response.of resp with ResultHosts := hpre ++ host.zero :: hpost }))
      ∧ (∀ (resp : genericResponse) (t : List Item),
          resp.Result = .arr t → t.length < 3 →
          hostStatusHandler (.ok resp)
            = .ret (.ok { response.of resp with ResultHostStatus := hostStatus.zero })) := by
  refine ⟨host_From_short, hostStatus_From_short, ?_, ?_⟩
  · intro resp pre post xs hpre hpost hr hl h1 h2
    simp [hostsSliceHandler, hr, hostsOf_short pre post xs hpre hpost h1 h2 hl]
  · intro resp t hr hl
    simp [hostStatusHandler, hr, hostStatus_From_short _ t hl]

theorem C12_short_entries_decode_to_zero_records_witness :
    host.From host.zero [.str "h1", .str "10.0.0.1", .num 58846] = .ret host.zero
      ∧ hostStatus.From hostStatus.zero [.elem (.str "h1"), .elem (.str "Online")]
          = .ret hostStatus.zero
      ∧ hostsSliceHandler
          (.ok ⟨none, 3, .arr ([] ++ Item.arr [.str "h1", .str "10.0.0.1", .num 58846] :: [])⟩)
        = .ret (.ok { response.of
                        ⟨none, 3,
                         .arr ([] ++ Item.arr [.str "h1", .str "10.0.0.1", .num 58846] :: [])⟩
                      with ResultHosts := [] ++ host.zero :: [] })
      ∧ hostStatusHandler (.ok ⟨none, 4, .arr [.elem (.str "h1"), .elem (.str "Online")]⟩)
        = .ret (.ok { response.of ⟨none, 4, .arr [.elem (.str "h1"), .elem (.str "Online")]⟩
                      with ResultHostStatus := hostStatus.zero }) :=
  ⟨C12_short_entries_decode_to_zero_records.1 host.zero _ (by decide),
   C12_short_entries_decode_to_zero_records.2.1 hostStatus.zero _ (by decide),
   C12_short_entries_decode_to_zero_records.2.2.1 _ [] [] _ [] [] rfl (by decide) rfl rfl,
   C12_short_entries_decode_to_zero_records.2.2.2 _ _ rfl (by decide)⟩

/-- When `login` returns an error, `doPush` returns it and sends nothing more. -/
theorem doPush_stops_on_login_error {σ : Type} (S : Server σ) (c : Client) (p : Int)
    (w : Net σ) (e : Error) (h : (login S c w).2.2 = .ret (.error e)) :
    doPush S c p w = ((login S c w).1, (login S c w).2.1, .ret (some e)) := by
  unfold doPush
  rcases hl : login S c w with ⟨c1, w1, r⟩
  rw [hl] at h
  simp only at h
  subst h
  rfl

/-- The call `login` returns an error on a transport error, on a status other
than 200 and on an error object. -/
theorem login_errors {σ : Type} (S : Server σ) (c : Client) (w : Net σ)
    (hb : c.requestBuilds = true) :
    ((S.post w.state { Method := "auth.login", Params := [.str c.pass],
                       Id := c.nextMessageId + 1 }).2 = .transportError →
        (login S c w).2.2 = .ret (.error .transport))
      ∧ (∀ code g cf, code ≠ 200 →
        (S.post w.state { Method := "auth.login", Params := [.str c.pass],
                          Id := c.nextMessageId + 1 }).2 = .http code g cf →
        (login S c w).2.2 = .ret (.error (.httpStatus code)))
      ∧ (∀ resp e cf, resp.Error = some e →
        (S.post w.state { Method := "auth.login", Params := [.str c.pass],
                          Id := c.nextMessageId + 1 }).2 = .http 200 (.value resp) cf →
        (login S c w).2.2 = .ret (.error (.rpcError e.Code e.Message))) := by
  refine ⟨fun h => ?_, fun code g cf hc h => ?_, fun resp e cf he h => ?_⟩
  · simp [login, handled, delugeRequest, hb, nextId, send, h, boolHandler]
  · simp [login, handled, delugeRequest, hb, nextId, send, h, hc, boolHandler]
  · simp [login, handled, delugeRequest, hb, nextId, send, h, he, boolHandler]

/-- C13 (the code at the failing input): auth.login answers `result: false`
(wrong password) with HTTP 200 and no error object. `doPush` only tests the
error of `login`, never `ResultBool`, so Push goes on with web.connected and
core.get_config and here returns nil; the claim says Push returns an error
and issues no further RPC. -/
theorem C13_rejected_login_is_not_an_error :
    (login rejectingServer someClient
        (start { config := { RandomPort := false, ListenPorts := [12345, 12345] },
                 connected := true, hosts := [] })).2.2
      = .ret (.ok { Error := none, Id := 1, ResultBool := false, ResultStrings := [],
                    ResultHosts := [], ResultHostStatus := hostStatus.zero })
      ∧ (Push rejectingServer someClient 12345
          (start { config := { RandomPort := false, ListenPorts := [12345, 12345] },
                   connected := true, hosts := [] })).2.2 = .ret none
      ∧ (Push rejectingServer someClient 12345
          (start { config := { RandomPort := false, ListenPorts := [12345, 12345] },
                   connected := true, hosts := [] })).2.1.trace
        = [{ Method := "auth.login", Params := [.str "deluge"], Id := 1 },
           { Method := "web.connected", Params := [], Id := 2 },
           { Method := "core.get_config", Params := [], Id := 3 }] :=
  ⟨rfl, by decide, by decide⟩

/-- The Configure step panics when core.get_config reports no listen port. -/
theorem configure_panics_on_empty_ports {σ : Type} (S : Server σ) (c : Client) (p : Int)
    (w : Net σ) (g : Body genericResponse) (i : Int) (r : Bool)
    (hb : c.requestBuilds = true)
    (h : (S.post w.state { Method := "core.get_config", Params := [],
                           Id := c.nextMessageId + 1 }).2
          = .http 200 g (.value { Error := none, Id := i,
                                  Result := { RandomPort := r, ListenPorts := [] } })) :
    (configure S c p w).2.2 = .panic := by
  simp [configure, getConfig, hb, nextId, send, h]

/-- C19 (the code at the failing input): core.get_config answers HTTP 200
without error object and with an empty `listen_ports`. `doPush` evaluates
`config.ListenPorts[0]` without a length check: the index is out of range and
Push panics; the claim says Push returns an error and the read never goes out
of bounds. -/
theorem C19_empty_listen_ports_panics :
    (Push faithfulServer someClient 12345
        (start { config := { RandomPort := false, ListenPorts := [] },
                 connected := true, hosts := [] })).2.2 = .panic
      ∧ (Push faithfulServer someClient 12345
          (start { config := { RandomPort := false, ListenPorts := [] },
                   connected := true, hosts := [] })).2.1.trace
        = [{ Method := "auth.login", Params := [.str "deluge"], Id := 1 },
           { Method := "web.connected", Params := [], Id := 2 },
           { Method := "core.get_config", Params := [], Id := 3 }] := by
  decide

/-- C20 (the code at the failing input): a faithful Deluge backend whose first
listen port is already 12345 and whose random-port flag is enabled. Push(12345)
compares only `ListenPorts[0]`, returns nil without core.set_config, and the
flag is still enabled afterwards; the claim says it is disabled. -/
theorem C20_deluge_leaves_random_port_enabled :
    (Push faithfulServer someClient 12345
        (start { config := { RandomPort := true, ListenPorts := [12345, 12345] },
                 connected := true, hosts := [] })).2.2 = .ret none
      ∧ (Push faithfulServer someClient 12345
          (start { config := { RandomPort := true, ListenPorts := [12345, 12345] },
                   connected := true, hosts := [] })).2.1.state.config
        = { RandomPort := true, ListenPorts := [12345, 12345] }
      ∧ callsOf "core.set_config"
          (Push faithfulServer someClient 12345
            (start { config := { RandomPort := true, ListenPorts := [12345, 12345] },
                     connected := true, hosts := [] })).2.1.trace = [] := by
  decide

end deluge

namespace transmission

/-- A `getPortInfo` whose request builds sends exactly the `session-get` that
carries the cached session id, and keeps that id. -/
theorem getPortInfo_sends {σ : Type} (S : Server σ) (c : Client) (w : Net σ)
    (hb : c.requestBuilds = true) :
    (getPortInfo S c w).2.1.trace = w.trace ++ [sessionGet c]
      ∧ (getPortInfo S c w).1.sessionId = c.sessionId := by
  unfold getPortInfo
  simp only [hb, Bool.true_eq_false, if_false, send, getAuthToken, sessionGet]
  repeat' split
  all_goals exact ⟨rfl, rfl⟩

/-- When `getPortInfo` does not return a port record, `doPush` ends there
without returning nil. -/
theorem doPush_read_fails {σ : Type} (S : Server σ) (c c1 : Client) (w w1 : Net σ) (p : Int)
    (hi : init S c w = (c1, w1, none))
    (hg : ∀ info, (getPortInfo S c1 w1).2.2 ≠ .ret (.ok info)) :
    (doPush S c p w).2.1 = (getPortInfo S c1 w1).2.1
      ∧ (doPush S c p w).1 = (getPortInfo S c1 w1).1
      ∧ (doPush S c p w).2.2 ≠ .ret none := by
  unfold doPush
  simp only [hi]
  rcases hr : getPortInfo S c1 w1 with ⟨c2, w2, (e | info) | _⟩
  · simp
  · exact absurd (by rw [hr]) (hg info)
  · simp

/-- When `pushPort` has a port record and every reply to its write is 200 with
a decodable body, it returns nil. -/
theorem pushPort_write_ok {σ : Type} (S : Server σ) (c : Client) (p : Int) (w : Net σ)
    (info : portInfo) (hdr : String) (resp : response) (hi : c.portInfo = some info)
    (hb : c.requestBuilds = true)
    (h : (S.rpc w.state (sessionSet c p)).2 = .http 200 hdr (.value resp)) :
    (pushPort S c p w).2.2 = .ret none := by
  unfold sessionSet at h
  unfold pushPort
  by_cases hm : info.PeerPort = p ∧ info.PeerPortRandom = false
  · simp [hi, hm]
  · simp [hi, hm, hb, send, getAuthToken, h]

/-- C14: against a server that answers a request without session header with
409 and the non-empty session id `s`, and a request carrying `s` with 200,
Push (whatever id it had cached) issues one request without session header
(the one answered 409), then the session-get carrying `s` (answered 200), and
after it nothing or one session-set carrying `s`; the client ends with `s`
cached. When moreover the 200 replies have a decodable body, Push returns
nil. -/
theorem C14_handshake_then_same_session_id {σ : Type} (S : Server σ) (c : Client) (p : Int)
    (w : Net σ) (s : String) (hb : c.requestBuilds = true) (hs : s ≠ "")
    (h409 : ∀ st req, req.sessionId = none → ∃ b, (S.rpc st req).2 = .http 409 s b)
    (h200 : ∀ st req, req.sessionId = some s → ∃ hdr b, (S.rpc st req).2 = .http 200 hdr b) :
    (∃ rest, (Push S c p w).2.1.trace
          = w.trace ++ { body := sessionGetBody, authorization := c.user ++ ":" ++ c.pass,
                         sessionId := none }
              :: { body := sessionGetBody, authorization := c.user ++ ":" ++ c.pass,
                   sessionId := some s } :: rest
        ∧ (rest = [] ∨ rest = [{ body := sessionSetBody p,
                                 authorization := c.user ++ ":" ++ c.pass,
                                 sessionId := some s }]))
      ∧ (Push S c p w).1.sessionId = s
      ∧ ((∀ st req, req.sessionId = some s →
            ∃ hdr resp, (S.rpc st req).2 = .http 200 hdr (.value resp)) →
          (Push S c p w).2.2 = .ret none) := by
  rw [tr_Push_eq_doPush]
  obtain ⟨b, hh⟩ := h409 w.state (handshake c) rfl
  obtain ⟨c1, w1, hi, hsid, hb1, hu1, hp1, htr1, hst1⟩ := init_conflict S c w s b hb hs hh
  have hsg : (sessionGet c1).sessionId = some s := by simp [sessionGet, hsid]
  have hsgeq : sessionGet c1
      = (⟨sessionGetBody, c.user ++ ":" ++ c.pass, some s⟩ : HttpRequest) := by
    simp [sessionGet, hsid, hu1, hp1]
  obtain ⟨hdr, body, hg⟩ := h200 w1.state (sessionGet c1) hsg
  obtain ⟨hgt, hgs⟩ := getPortInfo_sends S c1 w1 hb1
  have hfail : (∀ resp, body ≠ .value resp) →
      ∀ info, (getPortInfo S c1 w1).2.2 ≠ .ret (.ok info) := by
    intro hnv info
    unfold sessionGet at hg
    rcases body with _ | _ | _ | resp
    · simp [getPortInfo, hb1, send, getAuthToken, hg]
    · simp [getPortInfo, hb1, send, getAuthToken, hg]
    · simp [getPortInfo, hb1, send, getAuthToken, hg]
    · exact absurd rfl (hnv resp)
  by_cases hv : ∃ resp, body = .value resp
  · obtain ⟨resp, rfl⟩ := hv
    obtain ⟨c2, w2, hget, hinfo, hb2, hsid2, hu2, hp2, htr2, hst2⟩ :=
      getPortInfo_ok S c1 w1 hdr resp hb1 hg
    obtain ⟨e1, e2, e3, -⟩ := doPush_of_steps S c c1 c2 w w1 w2 p _ hi hget
    have hsseq : sessionSet c2 p
        = (⟨sessionSetBody p, c.user ++ ":" ++ c.pass, some s⟩ : HttpRequest) := by
      simp [sessionSet, hsid2, hsid, hu2, hp2, hu1, hp1]
    rw [e1, e2]
    by_cases hm : resp.Arguments.PeerPort = p ∧ resp.Arguments.PeerPortRandom = false
    · have hn := pushPort_noop S c2 p w2 _ hinfo hm
      refine ⟨⟨[], ?_, Or.inl rfl⟩, ?_, fun _ => e3 (by rw [hn])⟩
      · rw [hn]
        simp [htr2, htr1, hsgeq, handshake]
      · rw [hn]
        exact hsid2.trans hsid
    · obtain ⟨hw1, -, -, hw4, -⟩ := pushPort_write S c2 p w2 _ hinfo hb2 hm
      refine ⟨⟨[sessionSet c2 p], ?_, Or.inr (by rw [hsseq])⟩, ?_, fun h200v => e3 ?_⟩
      · rw [hw1]
        simp [htr2, htr1, hsgeq, handshake]
      · rw [hw4]
        exact hsid2.trans hsid
      · obtain ⟨hdr2, resp2, hset⟩ := h200v w2.state (sessionSet c2 p) (by rw [hsseq])
        exact pushPort_write_ok S c2 p w2 _ hdr2 resp2 hinfo hb2 hset
  · have hnv : ∀ resp, body ≠ .value resp := fun resp h => hv ⟨resp, h⟩
    obtain ⟨f1, f2, -⟩ := doPush_read_fails S c c1 w w1 p hi (hfail hnv)
    rw [f1, f2]
    refine ⟨⟨[], ?_, Or.inl rfl⟩, hgs.trans hsid, fun h200v => ?_⟩
    · rw [hgt]
      simp [htr1, hsgeq, handshake]
    · obtain ⟨hdr2, resp2, hg2⟩ := h200v w1.state (sessionGet c1) hsg
      rw [hg] at hg2
      simp only [HttpReply.http.injEq] at hg2
      exact absurd hg2.2.2 (hnv resp2)

theorem C14_handshake_then_same_session_id_witness :
    (∃ rest, (Push (faithfulServer "abc") someClient 12345
            (start { PeerPort := 9999, PeerPortRandom := false })).2.1.trace
          = (start { PeerPort := 9999, PeerPortRandom := false }).trace
              ++ { body := sessionGetBody,
                   authorization := someClient.user ++ ":" ++ someClient.pass,
                   sessionId := none }
              :: { body := sessionGetBody,
                   authorization := someClient.user ++ ":" ++ someClient.pass,
                   sessionId := some "abc" } :: rest
        ∧ (rest = [] ∨ rest = [{ body := sessionSetBody 12345,
                                 authorization := someClient.user ++ ":" ++ someClient.pass,
                                 sessionId := some "abc" }]))
      ∧ (Push (faithfulServer "abc") someClient 12345
          (start { PeerPort := 9999, PeerPortRandom := false })).1.sessionId = "abc"
      ∧ ((∀ st req, req.sessionId = some "abc" →
            ∃ hdr resp, ((faithfulServer "abc").rpc st req).2 = .http 200 hdr (.value resp)) →
          (Push (faithfulServer "abc") someClient 12345
            (start { PeerPort := 9999, PeerPortRandom := false })).2.2 = .ret none) :=
  C14_handshake_then_same_session_id (faithfulServer "abc") someClient 12345
    (start { PeerPort := 9999, PeerPortRandom := false }) "abc" rfl (by decide)
    (fun st req h => ⟨.malformed, by simp [faithfulServer, h]⟩)
    (fun st req h => by
      by_cases hm : req.body.Method = "session-set"
      · exact ⟨"", .value ⟨⟨0, false, []⟩, "success", 0⟩, by simp [faithfulServer, h, hm]⟩
      · exact ⟨"", .value ⟨⟨st.PeerPort, st.PeerPortRandom, []⟩, "success", 0⟩,
          by simp [faithfulServer, h, hm]⟩)

end transmission

namespace deluge

theorem Track_refl {σ : Type} (w : Net (σ × List (request × HttpReply))) (e : Bool) :
    Track w w e :=
  ⟨[], by simp, by simp, by simp, by simp⟩

theorem Track_trans {σ : Type} (a b c : Net (σ × List (request × HttpReply))) (e : Bool)
    (h1 : Track a b false) (h2 : Track b c e) : Track a c e := by
  obtain ⟨t1, s1, r1, -, k1⟩ := h1
  obtain ⟨t2, s2, r2, d2, k2⟩ := h2
  refine ⟨t1 ++ t2, by rw [s2, s1, List.append_assoc],
    by rw [r2, r1, List.map_append, List.append_assoc], ?_, ?_⟩
  · intro x hx
    by_cases hn : t2 = []
    · subst hn
      rw [List.append_nil] at hx
      exact k1 rfl x (List.mem_of_mem_dropLast hx)
    · rw [List.dropLast_append_of_ne_nil _ hn, List.mem_append] at hx
      rcases hx with hx | hx
      · exact k1 rfl x hx
      · exact d2 x hx
  · intro he x hx
    rw [List.mem_append] at hx
    rcases hx with hx | hx
    · exact k1 rfl x hx
    · exact k2 he x hx

/-- A step whose error flag is weaker keeps its track. -/
theorem Track_flag {σ : Type} (a b : Net (σ × List (request × HttpReply))) (e e' : Bool)
    (h : Track a b e) (he : e' = false → e = false) : Track a b e' := by
  obtain ⟨t, h1, h2, h3, h4⟩ := h
  exact ⟨t, h1, h2, h3, fun h' => h4 (he h')⟩

/-- A single exchange that is clean unless the call returned an error. -/
theorem Track_send {σ : Type} (S : Server σ) (w : Net (σ × List (request × HttpReply)))
    (req : request) (e : Bool)
    (h : e = false → errorObject (req, (S.post w.state.1 req).2) = none) :
    Track w (send (recording S) w req).1 e :=
  ⟨[(req, (S.post w.state.1 req).2)], rfl, rfl, by simp, fun he y hy => by
    rw [List.mem_singleton] at hy
    rw [hy]
    exact h he⟩

/-- A handled `delugeRequest` records at most one exchange, which carries no
error object unless the call returned an error. -/
theorem call_Track {σ : Type} (S : Server σ)
    (f : Except Error genericResponse → Go (Except Error response))
    (hf : ∀ e, f (.error e) = .ret (.error e))
    (c : Client) (m : String) (ps : List Param) (w : Net (σ × List (request × HttpReply)))
    (hm : m ≠ "core.get_config") :
    Track w (handled f (delugeRequest (recording S) c m ps w)).2.1
      (isErr (handled f (delugeRequest (recording S) c m ps w)).2.2) := by
  by_cases hb : c.requestBuilds = false
  · have h : (handled f (delugeRequest (recording S) c m ps w)).2.1 = w := by
      rw [handled_net, delugeRequest_net_if, if_pos hb]
    rw [h]
    exact Track_refl _ _
  · have hb1 : c.requestBuilds = true := by simpa using hb
    have h : (handled f (delugeRequest (recording S) c m ps w)).2.1
        = (send (recording S) w ⟨m, ps, c.nextMessageId + 1⟩).1 := by
      rw [handled_net, delugeRequest_net _ _ _ _ _ hb1]
    rw [h]
    apply Track_send
    intro he
    rcases hr : (S.post w.state.1 ⟨m, ps, c.nextMessageId + 1⟩).2 with _ | ⟨code, g, cf⟩
    · simp [errorObject]
    · rcases g with _ | _ | _ | resp
      · simp [errorObject, hm]
      · simp [errorObject, hm]
      · simp [errorObject, hm]
      · rcases hre : resp.Error with _ | e
        · simp [errorObject, hm, hre]
        · exfalso
          have hp : ((recording S).post w.state ⟨m, ps, c.nextMessageId + 1⟩).2
              = .http code (.value resp) cf := hr
          by_cases hc : code = 200
          · simp [handled, delugeRequest, hb1, nextId, send, hp, hc, hre, hf, isErr] at he
          · simp [handled, delugeRequest, hb1, nextId, send, hp, hc, hf, isErr] at he

/-- The call `getConfig` records at most one exchange, which carries no error
object unless the call returned an error. -/
theorem getConfig_Track {σ : Type} (S : Server σ) (c : Client)
    (w : Net (σ × List (request × HttpReply))) :
    Track w (getConfig (recording S) c w).2.1
      (isErr (getConfig (recording S) c w).2.2) := by
  by_cases hb : c.requestBuilds = false
  · have h : (getConfig (recording S) c w).2.1 = w := by
      rw [getConfig_net_if, if_pos hb]
    rw [h]
    exact Track_refl _ _
  · have hb1 : c.requestBuilds = true := by simpa using hb
    rw [getConfig_net _ _ _ hb1]
    apply Track_send
    intro he
    rcases hr : (S.post w.state.1 ⟨"core.get_config", [], c.nextMessageId + 1⟩).2
      with _ | ⟨code, g, cf⟩
    · simp [errorObject]
    · rcases cf with _ | _ | _ | resp
      · simp [errorObject]
      · simp [errorObject]
      · simp [errorObject]
      · rcases hre : resp.Error with _ | e
        · simp [errorObject, hre]
        · exfalso
          have hp : ((recording S).post w.state ⟨"core.get_config", [], c.nextMessageId + 1⟩).2
              = .http code g (.value resp) := hr
          by_cases hc : code = 200
          · simp [getConfig, hb1, nextId, send, hp, hc, hre, isErr] at he
          · simp [getConfig, hb1, nextId, send, hp, hc, isErr] at he

/-- The call `setConfig` records at most one exchange, which carries no error
object unless the call returned an error. -/
theorem setConfig_Track {σ : Type} (S : Server σ) (c : Client) (p : Int)
    (w : Net (σ × List (request × HttpReply))) :
    Track w (setConfig (recording S) c p w).2.1
      (failed (setConfig (recording S) c p w).2.2) := by
  by_cases hb : c.requestBuilds = false
  · have h : (setConfig (recording S) c p w).2.1 = w := by
      simp [setConfig, hb]
    rw [h]
    exact Track_refl _ _
  · have hb1 : c.requestBuilds = true := by simpa using hb
    rw [setConfig_net _ _ _ _ hb1]
    apply Track_send
    intro he
    rcases hr : (S.post w.state.1 ⟨"core.set_config", [paramMap p], c.nextMessageId + 1⟩).2
      with _ | ⟨code, g, cf⟩
    · simp [errorObject]
    · rcases g with _ | _ | _ | resp
      · simp [errorObject]
      · simp [errorObject]
      · simp [errorObject]
      · rcases hre : resp.Error with _ | e
        · simp [errorObject, hre]
        · exfalso
          have hp : ((recording S).post w.state
              ⟨"core.set_config", [paramMap p], c.nextMessageId + 1⟩).2
              = .http code (.value resp) cf := hr
          by_cases hc : code = 200
          · simp [setConfig, hb1, nextId, send, hp, hc, hre, failed] at he
          · simp [setConfig, hb1, nextId, send, hp, hc, failed] at he

/-- The host loop stops at the first exchange that carries an error object. -/
theorem connectHosts_Track {σ : Type} (S : Server σ) (hs : List host) (b : Bool) (c : Client)
    (w : Net (σ × List (request × HttpReply))) :
    Track w (connectHosts (recording S) hs b c w).2.1
      (isErr (connectHosts (recording S) hs b c w).2.2) := by
  induction hs generalizing b c w with
  | nil =>
    simp only [connectHosts]
    exact Track_refl _ _
  | cons h hs ih =>
    have T1 : Track w (getHostStatus (recording S) c h.Id w).2.1
        (isErr (getHostStatus (recording S) c h.Id w).2.2) :=
      call_Track S hostStatusHandler (fun _ => rfl) c _ _ w (by decide)
    rcases hgs : getHostStatus (recording S) c h.Id w with ⟨c1, w1, r1⟩
    rw [hgs] at T1
    simp only at T1
    unfold connectHosts
    simp only [hgs]
    rcases r1 with (e | res) | _
    · exact T1
    · by_cases hon : res.ResultHostStatus.Status = "Online"
      · simp only [hon, if_true]
        have T2 : Track w1 (webConnect (recording S) c1 h.Id w1).2.1
            (isErr (webConnect (recording S) c1 h.Id w1).2.2) :=
          call_Track S stringsSliceHandler (fun _ => rfl) c1 _ _ w1 (by decide)
        rcases hwc : webConnect (recording S) c1 h.Id w1 with ⟨c2, w2, r2⟩
        rw [hwc] at T2
        simp only at T2
        rcases r2 with (e | res2) | _
        · exact Track_trans _ _ _ _ T1 T2
        · exact Track_trans _ _ _ _ T1 (Track_trans _ _ _ _ T2 (ih true c2 w2))
        · exact Track_trans _ _ _ _ T1 T2
      · simp only [hon, if_false]
        exact Track_trans _ _ _ _ T1 (ih b c1 w1)
    · exact T1

/-- The Configure step stops at the first exchange that carries an error object. -/
theorem configure_Track {σ : Type} (S : Server σ) (c : Client) (p : Int)
    (w : Net (σ × List (request × HttpReply))) :
    Track w (configure (recording S) c p w).2.1
      (failed (configure (recording S) c p w).2.2) := by
  have TG := getConfig_Track S c w
  rcases hgc : getConfig (recording S) c w with ⟨c1, w1, r1⟩
  rw [hgc] at TG
  simp only at TG
  unfold configure
  rcases r1 with (e | config) | _
  · simp only [hgc]
    exact TG
  · rcases hl : config.ListenPorts with _ | ⟨first, rest⟩
    · simp only [hgc, hl]
      exact TG
    · by_cases hp : p = first
      · simp only [hgc, hl, hp, if_true]
        exact TG
      · simp only [hgc, hl, hp, if_false]
        have TS := setConfig_Track S c1 p w1
        rcases hsc : setConfig (recording S) c1 p w1 with ⟨c2, w2, (_ | e) | _⟩ <;>
        · rw [hsc] at TS
          exact Track_trans _ _ _ _ TG TS
  · simp only [hgc]
    exact TG

/-- A run of `doPush` stops at the first exchange that carries an error object,
and then returns an error. -/
theorem doPush_Track {σ : Type} (S : Server σ) (c : Client) (p : Int)
    (w : Net (σ × List (request × HttpReply))) :
    Track w (doPush (recording S) c p w).2.1
      (failed (doPush (recording S) c p w).2.2) := by
  have TL : Track w (login (recording S) c w).2.1
      (isErr (login (recording S) c w).2.2) :=
    call_Track S boolHandler (fun _ => rfl) c _ _ w (by decide)
  rcases hl : login (recording S) c w with ⟨c1, w1, r1⟩
  rw [hl] at TL
  simp only at TL
  unfold doPush
  rcases r1 with (e | res1) | _
  · simp only [hl]
    exact TL
  · have TC : Track w1 (webConnected (recording S) c1 w1).2.1
        (isErr (webConnected (recording S) c1 w1).2.2) :=
      call_Track S boolHandler (fun _ => rfl) c1 _ _ w1 (by decide)
    rcases hwc : webConnected (recording S) c1 w1 with ⟨c2, w2, r2⟩
    rw [hwc] at TC
    simp only at TC
    rcases r2 with (e | rc) | _
    · simp only [hl, hwc]
      exact Track_trans _ _ _ _ TL TC
    · have T2 := Track_trans _ _ _ _ TL TC
      by_cases hcn : rc.ResultBool = false
      · have TH : Track w2 (getHosts (recording S) c2 w2).2.1
            (isErr (getHosts (recording S) c2 w2).2.2) :=
          call_Track S hostsSliceHandler (fun _ => rfl) c2 _ _ w2 (by decide)
        rcases hgh : getHosts (recording S) c2 w2 with ⟨c3, w3, r3⟩
        rw [hgh] at TH
        simp only at TH
        rcases r3 with (e | hosts) | _
        · simp only [hl, hwc, hcn, if_true, hgh]
          exact Track_trans _ _ _ _ T2 TH
        · have T3 := Track_trans _ _ _ _ T2 TH
          by_cases hlen : hosts.ResultHosts.length = 0
          · simp only [hl, hwc, hcn, if_true, hgh, hlen]
            exact Track_flag _ _ _ _ T3 (fun h => by simp [failed] at h)
          · have TK := connectHosts_Track S hosts.ResultHosts false c3 w3
            rcases hch : connectHosts (recording S) hosts.ResultHosts false c3 w3
              with ⟨c4, w4, r4⟩
            rw [hch] at TK
            simp only at TK
            rcases r4 with (e | connected) | _
            · simp only [hl, hwc, hcn, if_true, hgh, hlen, if_false, hch]
              exact Track_trans _ _ _ _ T3 TK
            · have T4 := Track_trans _ _ _ _ T3 TK
              cases connected
              · simp only [hl, hwc, hcn, if_true, hgh, hlen, if_false, hch]
                exact Track_flag _ _ _ _ T4 (fun h => by simp [failed] at h)
              · simp only [hl, hwc, hcn, if_true, hgh, hlen, if_false, hch,
                  Bool.true_eq_false]
                exact Track_trans _ _ _ _ T4 (configure_Track S c4 p w4)
            · simp only [hl, hwc, hcn, if_true, hgh, hlen, if_false, hch]
              exact Track_trans _ _ _ _ T3 TK
        · simp only [hl, hwc, hcn, if_true, hgh]
          exact Track_trans _ _ _ _ T2 TH
      · simp only [hl, hwc, hcn, if_false]
        exact Track_trans _ _ _ _ T2 (configure_Track S c2 p w2)
    · simp only [hl, hwc]
      exact Track_trans _ _ _ _ TL TC
  · simp only [hl]
    exact TL

/-- Recording the exchanges does not change what `delugeRequest` does. -/
theorem delugeRequest_recording {σ : Type} (S : Server σ) (c : Client) (m : String)
    (ps : List Param) (w : Net (σ × List (request × HttpReply))) :
    proj (delugeRequest (recording S) c m ps w) = delugeRequest S c m ps (forget w) := by
  unfold delugeRequest
  by_cases hb : c.requestBuilds = false
  · simp [hb, proj, forget]
  · simp only [hb, if_false, send, recording, forget]
    repeat' split
    all_goals rfl

theorem getConfig_recording {σ : Type} (S : Server σ) (c : Client)
    (w : Net (σ × List (request × HttpReply))) :
    proj (getConfig (recording S) c w) = getConfig S c (forget w) := by
  unfold getConfig
  by_cases hb : c.requestBuilds = false
  · simp [hb, proj, forget]
  · simp only [hb, if_false, send, recording, forget]
    repeat' split
    all_goals rfl

theorem setConfig_recording {σ : Type} (S : Server σ) (c : Client) (p : Int)
    (w : Net (σ × List (request × HttpReply))) :
    proj (setConfig (recording S) c p w) = setConfig S c p (forget w) := by
  unfold setConfig
  by_cases hb : c.requestBuilds = false
  · simp [hb, proj, forget]
  · simp only [hb, if_false, send, recording, forget]
    repeat' split
    all_goals rfl

theorem handled_recording {σ : Type}
    (f : Except Error genericResponse → Go (Except Error response))
    (r : Client × Net (σ × List (request × HttpReply)) × Go (Except Error genericResponse)) :
    proj (handled f r) = handled f (proj r) := by
  rcases r with ⟨c, w, x | _⟩ <;> rfl

theorem login_recording {σ : Type} (S : Server σ) (c : Client)
    (w : Net (σ × List (request × HttpReply))) :
    proj (login (recording S) c w) = login S c (forget w) := by
  unfold login
  rw [handled_recording, delugeRequest_recording]

theorem webConnected_recording {σ : Type} (S : Server σ) (c : Client)
    (w : Net (σ × List (request × HttpReply))) :
    proj (webConnected (recording S) c w) = webConnected S c (forget w) := by
  unfold webConnected
  rw [handled_recording, delugeRequest_recording]

theorem webConnect_recording {σ : Type} (S : Server σ) (c : Client) (id : String)
    (w : Net (σ × List (request × HttpReply))) :
    proj (webConnect (recording S) c id w) = webConnect S c id (forget w) := by
  unfold webConnect
  rw [handled_recording, delugeRequest_recording]

theorem getHosts_recording {σ : Type} (S : Server σ) (c : Client)
    (w : Net (σ × List (request × HttpReply))) :
    proj (getHosts (recording S) c w) = getHosts S c (forget w) := by
  unfold getHosts
  rw [handled_recording, delugeRequest_recording]

theorem getHostStatus_recording {σ : Type} (S : Server σ) (c : Client) (id : String)
    (w : Net (σ × List (request × HttpReply))) :
    proj (getHostStatus (recording S) c id w) = getHostStatus S c id (forget w) := by
  unfold getHostStatus
  rw [handled_recording, delugeRequest_recording]

/-- From `proj r = r'` the three components of `r'`. -/
theorem proj_eq {σ R : Type} (r : Client × Net (σ × List (request × HttpReply)) × R)
    (c : Client) (w : Net (σ × List (request × HttpReply))) (x : R) (h : r = (c, w, x))
    (r' : Client × Net σ × R) (hp : proj r = r') : r' = (c, forget w, x) := by
  subst h
  exact hp.symm

theorem connectHosts_recording {σ : Type} (S : Server σ) (hs : List host) (b : Bool)
    (c : Client) (w : Net (σ × List (request × HttpReply))) :
    proj (connectHosts (recording S) hs b c w) = connectHosts S hs b c (forget w) := by
  induction hs generalizing b c w with
  | nil => rfl
  | cons h hs ih =>
    rcases hgs : getHostStatus (recording S) c h.Id w with ⟨c1, w1, r1⟩
    have e1 := proj_eq _ c1 w1 r1 hgs _ (getHostStatus_recording S c h.Id w)
    unfold connectHosts
    rcases r1 with (e | res) | _
    · simp only [hgs, e1]
      rfl
    · by_cases hon : res.ResultHostStatus.Status = "Online"
      · rcases hwc : webConnect (recording S) c1 h.Id w1 with ⟨c2, w2, r2⟩
        have e2 := proj_eq _ c2 w2 r2 hwc _ (webConnect_recording S c1 h.Id w1)
        rcases r2 with (e | res2) | _
        · simp only [hgs, e1, hon, if_true, hwc, e2]
          rfl
        · simp only [hgs, e1, hon, if_true, hwc, e2]
          exact ih true c2 w2
        · simp only [hgs, e1, hon, if_true, hwc, e2]
          rfl
      · simp only [hgs, e1, hon, if_false]
        exact ih b c1 w1
    · simp only [hgs, e1]
      rfl

theorem configure_recording {σ : Type} (S : Server σ) (c : Client) (p : Int)
    (w : Net (σ × List (request × HttpReply))) :
    proj (configure (recording S) c p w) = configure S c p (forget w) := by
  rcases hgc : getConfig (recording S) c w with ⟨c1, w1, r1⟩
  have e1 := proj_eq _ c1 w1 r1 hgc _ (getConfig_recording S c w)
  unfold configure
  rcases r1 with (e | config) | _
  · simp only [hgc, e1]
    rfl
  · rcases hl : config.ListenPorts with _ | ⟨first, rest⟩
    · simp only [hgc, e1, hl]
      rfl
    · by_cases hp : p = first
      · simp only [hgc, e1, hl, hp, if_true]
        rfl
      · rcases hsc : setConfig (recording S) c1 p w1 with ⟨c2, w2, r2⟩
        have e2 := proj_eq _ c2 w2 r2 hsc _ (setConfig_recording S c1 p w1)
        rcases r2 with (_ | e) | _ <;>
        · simp only [hgc, e1, hl, hp, if_false, hsc, e2]
          rfl
  · simp only [hgc, e1]
    rfl

/-- Recording the exchanges does not change what `doPush` does: same client,
same requests, same backend state, same result. -/
theorem doPush_recording {σ : Type} (S : Server σ) (c : Client) (p : Int)
    (w : Net (σ × List (request × HttpReply))) :
    proj (doPush (recording S) c p w) = doPush S c p (forget w) := by
  rcases hl : login (recording S) c w with ⟨c1, w1, r1⟩
  have e1 := proj_eq _ c1 w1 r1 hl _ (login_recording S c w)
  unfold doPush
  rcases r1 with (e | res1) | _
  · simp only [hl, e1]
    rfl
  · rcases hwc : webConnected (recording S) c1 w1 with ⟨c2, w2, r2⟩
    have e2 := proj_eq _ c2 w2 r2 hwc _ (webConnected_recording S c1 w1)
    rcases r2 with (e | rc) | _
    · simp only [hl, e1, hwc, e2]
      rfl
    · by_cases hcn : rc.ResultBool = false
      · rcases hgh : getHosts (recording S) c2 w2 with ⟨c3, w3, r3⟩
        have e3 := proj_eq _ c3 w3 r3 hgh _ (getHosts_recording S c2 w2)
        rcases r3 with (e | hosts) | _
        · simp only [hl, e1, hwc, e2, hcn, if_true, hgh, e3]
          rfl
        · by_cases hlen : hosts.ResultHosts.length = 0
          · simp only [hl, e1, hwc, e2, hcn, if_true, hgh, e3, hlen]
            rfl
          · rcases hch : connectHosts (recording S) hosts.ResultHosts false c3 w3
              with ⟨c4, w4, r4⟩
            have e4 := proj_eq _ c4 w4 r4 hch _
              (connectHosts_recording S hosts.ResultHosts false c3 w3)
            rcases r4 with (e | connected) | _
            · simp only [hl, e1, hwc, e2, hcn, if_true, hgh, e3, hlen, if_false, hch, e4]
              rfl
            · cases connected
              · simp only [hl, e1, hwc, e2, hcn, if_true, hgh, e3, hlen, if_false, hch, e4]
                rfl
              · simp only [hl, e1, hwc, e2, hcn, if_true, hgh, e3, hlen, if_false, hch, e4,
                  Bool.true_eq_false]
                exact configure_recording S c4 p w4
            · simp only [hl, e1, hwc, e2, hcn, if_true, hgh, e3, hlen, if_false, hch, e4]
              rfl
        · simp only [hl, e1, hwc, e2, hcn, if_true, hgh, e3]
          rfl
      · simp only [hl, e1, hwc, e2, hcn, if_false]
        exact configure_recording S c2 p w2
    · simp only [hl, e1, hwc, e2]
      rfl
  · simp only [hl, e1]
    rfl

/-- A handled `delugeRequest` answered 200 with an error object returns that error. -/
theorem call_error {σ : Type} (S : Server σ)
    (f : Except Error genericResponse → Go (Except Error response))
    (hf : ∀ e, f (.error e) = .ret (.error e))
    (c : Client) (m : String) (ps : List Param) (w : Net σ) (e : errorResponse)
    (hb : c.requestBuilds = true) (hm : m ≠ "core.get_config")
    (h : repliesError S w.state ⟨m, ps, c.nextMessageId + 1⟩ e) :
    (handled f (delugeRequest S c m ps w)).2.2 = .ret (.error (.rpcError e.Code e.Message)) := by
  obtain ⟨g, cf, hr, he⟩ := h
  rcases g with _ | _ | _ | resp
  · simp [errorObject, hm] at he
  · simp [errorObject, hm] at he
  · simp [errorObject, hm] at he
  · simp only [errorObject, hm, if_false] at he
    simp [handled, delugeRequest, hb, nextId, send, hr, he, hf]

/-- A `getConfig` answered 200 with an error object returns that error. -/
theorem getConfig_error {σ : Type} (S : Server σ) (c : Client) (w : Net σ)
    (e : errorResponse) (hb : c.requestBuilds = true)
    (h : repliesError S w.state ⟨"core.get_config", [], c.nextMessageId + 1⟩ e) :
    (getConfig S c w).2.2 = .ret (.error (.rpcError e.Code e.Message)) := by
  obtain ⟨g, cf, hr, he⟩ := h
  rcases cf with _ | _ | _ | resp
  · simp [errorObject] at he
  · simp [errorObject] at he
  · simp [errorObject] at he
  · simp only [errorObject, if_true] at he
    simp [getConfig, hb, nextId, send, hr, he]

/-- A `setConfig` answered 200 with an error object returns that error. -/
theorem setConfig_error {σ : Type} (S : Server σ) (c : Client) (p : Int) (w : Net σ)
    (e : errorResponse) (hb : c.requestBuilds = true)
    (h : repliesError S w.state ⟨"core.set_config", [paramMap p], c.nextMessageId + 1⟩ e) :
    (setConfig S c p w).2.2 = .ret (some (.rpcError e.Code e.Message)) := by
  obtain ⟨g, cf, hr, he⟩ := h
  have hm : ¬ ("core.set_config" = "core.get_config") := by decide
  rcases g with _ | _ | _ | resp
  · simp [errorObject, hm] at he
  · simp [errorObject, hm] at he
  · simp [errorObject, hm] at he
  · simp only [errorObject, hm, if_false] at he
    simp [setConfig, hb, nextId, send, hr, he]

/-- C18: (1) each of the seven RPCs, when it is answered HTTP 200 with an error
object `e` (whatever the result field), returns the error built from `e`.
(2) In every run of Push, `t` being the exchanges of the run in order (their
requests are the requests Push added to the trace): an exchange that carries an
error object is the last one, no exchange before it carries one, and Push
returns an error. -/
theorem C18_error_object_fails_the_call_and_the_push {σ : Type} (S : Server σ) (c : Client)
    (p : Int) (w : Net σ) :
    (c.requestBuilds = true → ∀ e : errorResponse,
        (repliesError S w.state ⟨"auth.login", [.str c.pass], c.nextMessageId + 1⟩ e →
          (login S c w).2.2 = .ret (.error (.rpcError e.Code e.Message)))
        ∧ (repliesError S w.state ⟨"web.connected", [], c.nextMessageId + 1⟩ e →
          (webConnected S c w).2.2 = .ret (.error (.rpcError e.Code e.Message)))
        ∧ (repliesError S w.state ⟨"web.get_hosts", [], c.nextMessageId + 1⟩ e →
          (getHosts S c w).2.2 = .ret (.error (.rpcError e.Code e.Message)))
        ∧ (∀ id, repliesError S w.state
              ⟨"web.get_host_status", [.str id], c.nextMessageId + 1⟩ e →
          (getHostStatus S c id w).2.2 = .ret (.error (.rpcError e.Code e.Message)))
        ∧ (∀ id, repliesError S w.state ⟨"web.connect", [.str id], c.nextMessageId + 1⟩ e →
          (webConnect S c id w).2.2 = .ret (.error (.rpcError e.Code e.Message)))
        ∧ (repliesError S w.state ⟨"core.get_config", [], c.nextMessageId + 1⟩ e →
          (getConfig S c w).2.2 = .ret (.error (.rpcError e.Code e.Message)))
        ∧ (∀ port, repliesError S w.state
              ⟨"core.set_config", [paramMap port], c.nextMessageId + 1⟩ e →
          (setConfig S c port w).2.2 = .ret (some (.rpcError e.Code e.Message))))
      ∧ (∃ t, (Push (recording S) c p { state := (w.state, []), trace := w.trace }).2.1.state.2
            = t
          ∧ (Push S c p w).2.1.trace = w.trace ++ t.map Prod.fst
          ∧ ∀ x ∈ t, ∀ e, errorObject x = some e →
              t.getLast? = some x ∧ (∀ y ∈ t.dropLast, errorObject y = none)
                ∧ ∃ err, (Push S c p w).2.2 = .ret (some err)) := by
  constructor
  · intro hb e
    exact ⟨call_error S boolHandler (fun _ => rfl) c _ _ w e hb (by decide),
      call_error S boolHandler (fun _ => rfl) c _ _ w e hb (by decide),
      call_error S hostsSliceHandler (fun _ => rfl) c _ _ w e hb (by decide),
      fun id => call_error S hostStatusHandler (fun _ => rfl) c _ _ w e hb (by decide),
      fun id => call_error S stringsSliceHandler (fun _ => rfl) c _ _ w e hb (by decide),
      getConfig_error S c w e hb,
      fun port => setConfig_error S c port w e hb⟩
  · simp only [deluge_Push_eq_doPush]
    obtain ⟨t, hs, htr, hd, hk⟩ :=
      doPush_Track S c p { state := (w.state, []), trace := w.trace }
    have hrec := doPush_recording S c p { state := (w.state, []), trace := w.trace }
    have hw : forget { state := (w.state, ([] : List (request × HttpReply))),
                       trace := w.trace } = w := rfl
    rw [hw] at hrec
    have h1 : (doPush S c p w).2.1.trace
        = (doPush (recording S) c p { state := (w.state, []), trace := w.trace }).2.1.trace := by
      rw [← hrec]; rfl
    have h2 : (doPush S c p w).2.2
        = (doPush (recording S) c p { state := (w.state, []), trace := w.trace }).2.2 := by
      rw [← hrec]; rfl
    simp only [List.nil_append] at hs
    refine ⟨t, hs, by rw [h1, htr], ?_⟩
    intro x hx e he
    have hf : failed (doPush (recording S) c p
        { state := (w.state, []), trace := w.trace }).2.2 = true := by
      by_contra hne
      have := hk (by simpa using hne) x hx
      rw [he] at this
      exact absurd this (by simp)
    refine ⟨?_, hd, ?_⟩
    · rcases List.eq_nil_or_concat t with rfl | ⟨L, b, rfl⟩
      · simp at hx
      · simp only [List.concat_eq_append] at hd hx ⊢
        rw [List.dropLast_concat] at hd
        rw [List.mem_append, List.mem_singleton] at hx
        rcases hx with hx | hx
        · have := hd x hx
          rw [he] at this
          exact absurd this (by simp)
        · simp [hx]
    · rw [h2]
      rcases hr : (doPush (recording S) c p
          { state := (w.state, []), trace := w.trace }).2.2 with (_ | err) | _
      · rw [hr] at hf
        simp [failed] at hf
      · exact ⟨err, rfl⟩
      · rw [hr] at hf
        simp [failed] at hf

theorem C18_error_object_fails_the_call_and_the_push_witness :
    (webConnected erroringServer someClient
        (start { config := { RandomPort := false, ListenPorts := [9999, 9999] },
                 connected := true, hosts := [] })).2.2
      = .ret (.error (.rpcError 1 "Not authenticated"))
      ∧ (∃ t, (Push (recording erroringServer) someClient 12345
            { state := ((start { config := { RandomPort := false, ListenPorts := [9999, 9999] },
                                 connected := true, hosts := [] }).state, []),
              trace := (start { config := { RandomPort := false, ListenPorts := [9999, 9999] },
                                connected := true, hosts := [] }).trace }).2.1.state.2 = t
          ∧ (Push erroringServer someClient 12345
              (start { config := { RandomPort := false, ListenPorts := [9999, 9999] },
                       connected := true, hosts := [] })).2.1.trace
            = (start { config := { RandomPort := false, ListenPorts := [9999, 9999] },
                       connected := true, hosts := [] }).trace ++ t.map Prod.fst
          ∧ ∀ x ∈ t, ∀ e, errorObject x = some e →
              t.getLast? = some x ∧ (∀ y ∈ t.dropLast, errorObject y = none)
                ∧ ∃ err, (Push erroringServer someClient 12345
                    (start { config := { RandomPort := false, ListenPorts := [9999, 9999] },
                             connected := true, hosts := [] })).2.2 = .ret (some err)) :=
  ⟨((C18_error_object_fails_the_call_and_the_push erroringServer someClient 12345
        (start { config := { RandomPort := false, ListenPorts := [9999, 9999] },
                 connected := true, hosts := [] })).1 rfl
        { Code := 1, Message := "Not authenticated" }).2.1
      ⟨.value { Error := some { Code := 1, Message := "Not authenticated" }, Id := 1,
                Result := .bool true }, .malformed, by decide, by decide⟩,
   (C18_error_object_fails_the_call_and_the_push erroringServer someClient 12345
      (start { config := { RandomPort := false, ListenPorts := [9999, 9999] },
               connected := true, hosts := [] })).2⟩

/-- Against the front-end whose web.connected carries an error object, Push
stops after that call and returns its error. -/
theorem erroringServer_example :
    (Push erroringServer someClient 12345
        (start { config := { RandomPort := false, ListenPorts := [9999, 9999] },
                 connected := true, hosts := [] })).2.2
      = .ret (some (.rpcError 1 "Not authenticated"))
      ∧ (Push erroringServer someClient 12345
          (start { config := { RandomPort := false, ListenPorts := [9999, 9999] },
                   connected := true, hosts := [] })).2.1.trace
        = [{ Method := "auth.login", Params := [.str "deluge"], Id := 1 },
           { Method := "web.connected", Params := [], Id := 2 }] := by
  decide

end deluge

/-- What a Push that returns nil leaves in a faithful backend: for Transmission
and qBittorrent the port `p` with the random flag off; for Deluge `p` as first
listen port (its random flag is not covered, see C20). -/
theorem faithful_push_sets_port :
    (∀ (σ : Type) (S : transmission.Server σ) (view : σ → transmission.portInfo) (sid : String),
      transmission.Faithful S view sid →
      ∀ (c : transmission.Client) (p : Int) (w : transmission.Net σ),
        (transmission.Push S c p w).2.2 = .ret none →
        view (transmission.Push S c p w).2.1.state = { PeerPort := p, PeerPortRandom := false })
      ∧ (∀ (σ : Type) (S : qbittorrent.Server σ) (view : σ → qbittorrent.preferences),
        qbittorrent.Faithful S view →
        ∀ (c : qbittorrent.Client) (p : Int) (w : qbittorrent.Net σ),
          (qbittorrent.Push S c p w).2 = .ret none →
          view (qbittorrent.Push S c p w).1.state = { Port := p, PortRandom := false })
      ∧ (∀ (σ : Type) (S : deluge.Server σ) (cfg : σ → deluge.config) (conn : σ → Bool),
        deluge.Faithful S cfg conn →
        ∀ (c : deluge.Client) (p : Int) (w : deluge.Net σ),
          (deluge.Push S c p w).2.2 = .ret none →
          (cfg (deluge.Push S c p w).2.1.state).ListenPorts.head? = some p) := by
  refine ⟨fun σ S view sid F c p w h => ?_, fun σ S view F c p w h => ?_,
    fun σ S cfg conn F c p w h => ?_⟩
  · rw [transmission.tr_Push_eq_doPush] at h ⊢
    have hb := transmission.tr_doPush_builds S c p w h
    obtain ⟨-, h1⟩ := transmission.tr_doPush_faithful S view sid F c p w hb
    rcases h1 with ⟨-, -, hv, -⟩ | ⟨-, hv, -⟩ <;> exact hv
  · rw [qbittorrent.qbt_Push_eq_doPush] at h ⊢
    exact (qbittorrent.qbt_doPush_converges S view F c p w h).1
  · rw [deluge.deluge_Push_eq_doPush] at h ⊢
    obtain ⟨c', w', he, -, -⟩ := deluge.doPush_reaches_configure S cfg conn F c p w h
    rw [he] at h ⊢
    exact (deluge.configure_converges S cfg conn F c' p w' h).1

end PortPusher
